import Mathlib

/-!
# Job lifecycle controller of the inhaler analysis web client

A shallow embedding of `src/webUX/js/app.js` (class `InhalerAnalysisApp`) and
`src/webUX/js/api.js` (class `APIClient`).

* Fields of the application object, the fragments of the DOM it writes and the
  timers it owns are fields of the record `App`.
* Closure variables (`currentProgress` of `startProgressAutoUpdate`, the
  counters of `startStatusPolling`) are passed explicitly.
* An `async` function is cut at each `await`: one definition per segment, the
  awaited value being the argument of the next segment.
* Time (`Date.now()`) and server answers are arguments.
-/

namespace InhalerApp

/-! ## JavaScript primitives -/

/-- Test whether `needle` is an initial segment of `hay`. -/
def startsWithChars : List Char → List Char → Bool
  | _, [] => true
  | [], _ :: _ => false
  | h :: hs, n :: ns => h == n && startsWithChars hs ns

/-- Search `needle` at every position of `hay`. -/
def includesChars : List Char → List Char → Bool
  | [], needle => needle.isEmpty
  | h :: hs, needle => startsWithChars (h :: hs) needle || includesChars hs needle

/-- The method `String.prototype.includes`. -/
def includes (s sub : String) : Bool :=
  includesChars s.toList sub.toList

/-- A non-negative JS number with at most two decimals, held as its count of
hundredths: `⟨1050⟩` is `10.5`, `⟨3000⟩` is `30`. -/
structure JsNumber where
  hundredths : Nat
deriving DecidableEq, Repr

/-- The JS number of a natural number. -/
def JsNumber.ofNat (n : Nat) : JsNumber := ⟨100 * n⟩

/-- Number-to-string conversion (as in a template literal): the decimal
expansion without trailing zeros, `10`, `10.5`, `10.25`. -/
def JsNumber.toJsString (x : JsNumber) : List Char :=
  let w := Nat.toDigits 10 (x.hundredths / 100)
  let r := x.hundredths % 100
  if r = 0 then w
  else if r % 10 = 0 then w ++ ['.', Nat.digitChar (r / 10)]
  else w ++ ['.', Nat.digitChar (r / 10), Nat.digitChar (r % 10)]

/-- The comparison `x > n` of a JS number with an integer. -/
def JsNumber.gtInt (x : JsNumber) (n : Int) : Bool :=
  decide (100 * n < (x.hundredths : Int))

/-- The text of a CSS percentage written by a template literal `${x}%`. -/
def cssPercent (x : JsNumber) : List Char :=
  x.toJsString ++ ['%']

/-- Value of the decimal digits `ds` read after the accumulator `acc`. -/
def digitsValue (acc : Nat) : List Char → Nat
  | [] => acc
  | c :: cs => digitsValue (10 * acc + (c.toNat - 48)) cs

/-- The global function `parseInt` in radix 10: leading white space is skipped,
an optional sign is read, then the longest run of decimal digits; `none` stands
for `NaN` (no digit found). The texts it reads here are CSS percentages, which
never start with `0x`. -/
def parseInt (s : List Char) : Option Int :=
  let t := s.dropWhile Char.isWhitespace
  let neg := t.head? == some '-'
  let u := if neg || t.head? == some '+' then t.tail else t
  let ds := u.takeWhile Char.isDigit
  if ds.isEmpty then none
  else if neg then some (-(digitsValue 0 ds : Int))
  else some (digitsValue 0 ds : Int)

/-- The expression `parseInt(text) || 0`: `NaN` and `0` both give `0`. -/
def parseIntOrZero (s : List Char) : Int :=
  match parseInt s with
  | some n => n
  | none => 0

/-! ## The DOM fragments written by the controller -/

/-- Elements of the page the controller reads or writes. Every element looked up
by `document.getElementById` is taken to exist. The width of `progressFill` and
the text of `progressPercent` are only ever written as `${x}%`; the fields hold
`x`, the text is `cssPercent x`. -/
structure Dom where
  progressFillWidth : JsNumber
  progressPercentText : JsNumber
  progressStage : String
  networkWarningHidden : Bool
  networkWarningText : String
  errorModalHidden : Bool
  errorTitle : String
  errorMessage : String
  startBtnDisabled : Bool
  saveBtnDisabled : Bool
  logs : List String
  uploadAreaHidden : Bool
  analysisAreaHidden : Bool
  resultAreaHidden : Bool
  uploadPromptHidden : Bool
  uploadedFileInfoHidden : Bool
  fileInfoDisplayHidden : Bool
  videoSnapshotDisplayHidden : Bool
  fileInputValue : String
  videoSnapshotSrc : String
  deviceSelectBtnText : String
  infoDevice : String
  infoFile : String
  infoAgent : String
deriving DecidableEq, Repr

/-- A freshly loaded page after `resetAll`: the bar shows `0%`. -/
def Dom.initial : Dom where
  progressFillWidth := JsNumber.ofNat 0
  progressPercentText := JsNumber.ofNat 0
  progressStage := "처리 중..."
  networkWarningHidden := true
  networkWarningText := ""
  errorModalHidden := true
  errorTitle := ""
  errorMessage := ""
  startBtnDisabled := true
  saveBtnDisabled := true
  logs := []
  uploadAreaHidden := false
  analysisAreaHidden := true
  resultAreaHidden := true
  uploadPromptHidden := false
  uploadedFileInfoHidden := true
  fileInfoDisplayHidden := true
  videoSnapshotDisplayHidden := true
  fileInputValue := ""
  videoSnapshotSrc := ""
  deviceSelectBtnText := "1. 기기 선택 ▼"
  infoDevice := ""
  infoFile := ""
  infoAgent := ""

/-- The method `updateProgressBar(progress, stage)` (app.js 677-695). An absent
or empty `stage` is the empty string. -/
def updateProgressBar (dom : Dom) (progress : JsNumber) (stage : String) : Dom :=
  let currentWidth := parseIntOrZero (cssPercent dom.progressFillWidth)
  let dom1 :=
    if progress.gtInt currentWidth then
      { dom with progressFillWidth := progress, progressPercentText := progress }
    else dom
  if stage ≠ "" ∧ ¬ includes stage "초기화" then
    { dom1 with progressStage := stage }
  else dom1

/-- The callback of the interval created by `startProgressAutoUpdate`
(app.js 265-280); `currentProgress` is the closure variable, returned updated. -/
def progressTick (dom : Dom) (currentProgress : Nat) : Dom × Nat :=
  if currentProgress < 95 then
    let c := currentProgress + 1
    let dom1 : Dom :=
      { dom with progressFillWidth := JsNumber.ofNat c, progressPercentText := JsNumber.ofNat c }
    let dom2 : Dom :=
      if ¬ includes dom1.progressStage "완료" then { dom1 with progressStage := "처리 중..." }
      else dom1
    (dom2, c)
  else (dom, currentProgress)

/-- Deliver server progress values one after another. -/
def deliverAll (dom : Dom) (ps : List (JsNumber × String)) : Dom :=
  ps.foldl (fun d p => updateProgressBar d p.1 p.2) dom

/-- The displayed progress after the deliveries `ps`, starting from the page
showing `0%`. -/
def displayedAfter (ps : List (JsNumber × String)) : JsNumber :=
  (deliverAll Dom.initial ps).progressFillWidth

/-- The largest of the numbers `ps`, in hundredths, `0` for none. -/
def maxDelivered (ps : List (JsNumber × String)) : Nat :=
  ps.foldl (fun m p => max m p.1.hundredths) 0

/-- Deliveries of integer percentages. -/
def intDeliveries (ps : List (Nat × String)) : List (JsNumber × String) :=
  ps.map (fun p => (JsNumber.ofNat p.1, p.2))

/-- The largest of the integers `ps` and `m`. -/
def maxFrom (m : Nat) (ps : List (Nat × String)) : Nat :=
  ps.foldl (fun a p => max a p.1) m

/-! ## Timers of the event loop -/

/-- The functions the controller hands to `setTimeout` and `setInterval`. -/
inductive Callback
  | poll
  | progressTick
  | logTick
deriving DecidableEq, Repr

/-- An active timer: its handle, callback, delay in ms, and whether it repeats
(`setInterval`) or fires once (`setTimeout`). -/
structure Timer where
  id : Nat
  callback : Callback
  delay : Nat
  repeating : Bool
deriving DecidableEq, Repr

/-- The active timers and the last handle given out. Handles are positive
integers, so every handle is truthy. -/
structure EventLoop where
  timers : List Timer
  lastId : Nat
deriving DecidableEq, Repr

/-- Register a timer (`setTimeout` or `setInterval`); returns its handle. -/
def EventLoop.add (l : EventLoop) (cb : Callback) (delay : Nat) (repeating : Bool) :
    EventLoop × Nat :=
  ({ timers := l.timers ++ [⟨l.lastId + 1, cb, delay, repeating⟩], lastId := l.lastId + 1 },
    l.lastId + 1)

/-- Cancel a timer (`clearTimeout` or `clearInterval`); its callback never runs
afterwards. -/
def EventLoop.clear (l : EventLoop) (id : Nat) : EventLoop :=
  { l with timers := l.timers.filter (fun t => t.id != id) }

/-- Whether the handle `id` names an active timer with callback `cb`. -/
def EventLoop.pending (l : EventLoop) (id : Nat) (cb : Callback) : Bool :=
  l.timers.any (fun t => t.id == id && t.callback == cb)

/-- The loop after the timer `id` fired: a one-shot timer is gone, an interval
stays. -/
def EventLoop.fired (l : EventLoop) (id : Nat) : EventLoop :=
  { l with timers := l.timers.filter (fun t => t.id != id || t.repeating) }

/-! ## The API client (api.js) -/

/-- An object seen through the names of the methods it defines. -/
structure ApiObject where
  methods : List String
deriving DecidableEq, Repr

/-- The methods of class `APIClient` (api.js 6-205). -/
def APIClient : ApiObject where
  methods := ["checkServerHealth", "uploadVideo", "startAnalysis", "getAnalysisStatus",
    "getAnalysisResult", "downloadResult", "getConfig"]

/-- Whether the object has a method of that name. -/
def ApiObject.defines (o : ApiObject) (name : String) : Bool :=
  o.methods.contains name

/-- The method names `InhalerAnalysisApp` calls on `this.api`, in source order
(app.js 46, 169, 239, 345, 397, 517, 919). -/
def appApiCallSites : List String :=
  ["getConfig", "uploadVideo", "startAnalysis", "getAnalysisStatus", "checkHealth",
    "getAnalysisResult", "checkServerHealth"]

/-- The value of `await o.name(...)`: what the method does when the object
defines it, a `TypeError` otherwise. -/
def awaitCall {α : Type} (o : ApiObject) (name : String) (outcome : Except String α) :
    Except String α :=
  if o.defines name then outcome else .error ("this.api." ++ name ++ " is not a function")

/-- Body of a status response. Absent texts are empty. -/
structure StatusBody where
  status : String
  progress : JsNumber
  current_stage : String
  error : String
deriving DecidableEq, Repr

/-- What `fetch` and `response.json()` do for one request: the request fails with
an error of the given message, or a response arrives with a status code and,
once parsed, a body (or a parse error message). -/
inductive FetchOutcome (α : Type)
  | failed (message : String)
  | response (status : Nat) (body : Except String α)

/-- The getter `response.ok`. -/
def responseOk (status : Nat) : Bool :=
  decide (200 ≤ status ∧ status ≤ 299)

/-- Message of the error thrown for an unknown job. -/
def jobNotFoundMessage : String := "분석 작업을 찾을 수 없습니다."

/-- The method `APIClient.getAnalysisStatus` (api.js 118-136): the status body, or
the message of the error it throws. -/
def APIClient.getAnalysisStatus (o : FetchOutcome StatusBody) : Except String StatusBody :=
  let thrown : Except String StatusBody :=
    match o with
    | .failed m => .error m
    | .response status body =>
      if ¬ responseOk status then
        if status = 404 then .error jobNotFoundMessage
        else .error ("상태 조회 실패: " ++ toString status)
      else body
  match thrown with
  | .ok b => .ok b
  | .error m => if m ≠ "" then .error m else .error ("상태 조회 중 오류 발생: " ++ m)

/-- The method `APIClient.checkServerHealth` (api.js 11-21): the parsed body, or
the message of the error it throws. -/
def APIClient.checkServerHealth {α : Type} (o : FetchOutcome α) : Except String α :=
  let thrown : Except String α :=
    match o with
    | .failed m => .error m
    | .response status body =>
      if ¬ responseOk status then .error ("서버 응답 오류: " ++ toString status)
      else body
  match thrown with
  | .ok b => .ok b
  | .error m => .error ("서버 연결 실패: " ++ m)

/-! ## The application object (app.js) -/

/-- The object `result.videoInfo` as the exporter reads it. A field that is
missing is `none`. The field `durationText` is the text of `${duration || 0}` and
`sizeText` the value of `this.formatFileSize(size || 0)`: number formatting in
floating point is not modelled. -/
structure VideoInfo where
  fileName : Option String
  durationText : String
  resolution : Option String
  frameCount : Option Nat
  sizeText : String
deriving DecidableEq, Repr

/-- The object `result.summary`: the three step counts, each a non-negative
integer or missing, and `scoreText`, the value of `(score || 0).toFixed(1)`. -/
structure Summary where
  totalSteps : Option Nat
  passedSteps : Option Nat
  failedSteps : Option Nat
  scoreText : String
deriving DecidableEq, Repr

/-- The object `result.modelInfo`; `analysisTimeText` is the text of
`${analysisTime || 0}`. -/
structure ModelInfo where
  models : Option (List String)
  analysisTimeText : String
deriving DecidableEq, Repr

/-- One element of `result.actionSteps`. The arrays `time` and `score` hold the
text of each element, `confidenceScore` the text
`${c[0]}s:${(c[1] * 100).toFixed(0)}%` of each pair; a missing array is `[]`. -/
structure ActionStep where
  order : Option Nat
  id : Option String
  name : Option String
  description : Option String
  time : List String
  score : List String
  result : String
  confidenceScore : List String
deriving DecidableEq, Repr

/-- Payload of a finished analysis. A missing `finalSummary` is `""`, a missing
`actionSteps` is `[]`. -/
structure AnalysisResult where
  finalSummary : String
  videoInfo : Option VideoInfo := none
  summary : Option Summary := none
  modelInfo : Option ModelInfo := none
  actionSteps : List ActionStep := []
deriving DecidableEq, Repr

/-- Fields of `InhalerAnalysisApp` (app.js 8-27), the page, the event loop, and
the record of the method calls made on `this.api`. A `null` field is `none`. The
field `api` is set once, to `new APIClient()`, and is the constant `APIClient`. -/
structure App where
  selectedDevice : Option String
  uploadedFile : Option String
  videoId : Option String
  analysisId : Option String
  analysisResult : Option AnalysisResult
  statusPollInterval : Option Nat
  progressInterval : Option Nat
  analysisStartTime : Option Int
  progressUpdateInterval : Option Nat
  llmModels : List String
  dom : Dom
  loop : EventLoop
  apiCalls : List String
deriving DecidableEq, Repr

/-- Truthiness of a field holding `null` or a string. -/
def truthy : Option String → Bool
  | some s => s != ""
  | none => false

/-- The method `hideNetworkWarning` (app.js 943-948). -/
def hideNetworkWarning (app : App) : App :=
  { app with dom := { app.dom with networkWarningHidden := true } }

/-- The method `showNetworkWarning` (app.js 931-938). -/
def showNetworkWarning (app : App) (message : String) : App :=
  { app with dom := { app.dom with networkWarningText := message, networkWarningHidden := false } }

/-- The method `showError` (app.js 955-959). -/
def showError (app : App) (title message : String) : App :=
  { app with dom := { app.dom with
      errorTitle := title, errorMessage := message, errorModalHidden := false } }

/-- The method `updateButtonStates` (app.js 881-887). -/
def updateButtonStates (app : App) : App :=
  { app with dom := { app.dom with
      startBtnDisabled := !(truthy app.selectedDevice && truthy app.videoId),
      saveBtnDisabled := app.analysisResult.isNone } }

/-- The method `selectDevice` (app.js 132-137). -/
def selectDevice (app : App) (deviceId : String) : App :=
  updateButtonStates
    { app with
        selectedDevice := some deviceId,
        dom := { app.dom with deviceSelectBtnText := "기기 선택: " ++ deviceId ++ " ▼" } }

/-- The method `addLog` (app.js 709-716). -/
def addLog (app : App) (message : String) : App :=
  { app with dom := { app.dom with logs := app.dom.logs ++ [message] } }

/-- The method `clearAnalysisLogs` (app.js 700-703). -/
def clearAnalysisLogs (app : App) : App :=
  { app with dom := { app.dom with logs := [] } }

/-- The method `startProgressAutoUpdate` (app.js 262-281): a fresh closure whose
`currentProgress` is `0`, run every 7000 ms. -/
def startProgressAutoUpdate (app : App) : App :=
  { app with
      loop := (app.loop.add .progressTick 7000 true).1,
      progressInterval := some (app.loop.add .progressTick 7000 true).2 }

/-- The method `stopProgressAutoUpdate` (app.js 286-291). -/
def stopProgressAutoUpdate (app : App) : App :=
  match app.progressInterval with
  | some id => { app with loop := app.loop.clear id, progressInterval := none }
  | none => app

/-- The method `startProgressLogUpdate` (app.js 296-306). -/
def startProgressLogUpdate (app : App) : App :=
  { app with
      loop := (app.loop.add .logTick 10000 true).1,
      progressUpdateInterval := some (app.loop.add .logTick 10000 true).2 }

/-- The method `stopProgressLogUpdate` (app.js 311-316). -/
def stopProgressLogUpdate (app : App) : App :=
  match app.progressUpdateInterval with
  | some id => { app with loop := app.loop.clear id, progressUpdateInterval := none }
  | none => app

/-- The method `stopStatusPolling` (app.js 440-447). -/
def stopStatusPolling (app : App) : App :=
  let a : App :=
    match app.statusPollInterval with
    | some id => { app with loop := app.loop.clear id, statusPollInterval := none }
    | none => app
  stopProgressLogUpdate (stopProgressAutoUpdate a)

/-- The simulator callback run on the application (app.js 265-280). -/
def progressTickApp (app : App) (currentProgress : Nat) : App × Nat :=
  ({ app with dom := (progressTick app.dom currentProgress).1 },
    (progressTick app.dom currentProgress).2)

/-- The log callback of `startProgressLogUpdate` (app.js 297-305). -/
def logTick (app : App) (now : Int) : App :=
  match app.analysisStartTime with
  | some t =>
    let elapsed := Int.fdiv (now - t) 1000
    let minutes := Int.fdiv elapsed 60
    let seconds := Int.tmod elapsed 60
    addLog app ("진행 중: " ++ toString minutes ++ "분 " ++ toString seconds ++ "초")
  | none => app

/-- The method `resetAll` (app.js 454-510). -/
def resetAll (app : App) : App :=
  let a := stopStatusPolling app
  let a : App := { a with
    selectedDevice := none, uploadedFile := none, videoId := none, analysisId := none,
    analysisResult := none, analysisStartTime := none }
  let a : App := { a with dom := { a.dom with
    fileInputValue := "", videoSnapshotSrc := "",
    uploadAreaHidden := false, analysisAreaHidden := true, resultAreaHidden := true,
    uploadPromptHidden := false,
    uploadedFileInfoHidden := true, fileInfoDisplayHidden := true,
    videoSnapshotDisplayHidden := true,
    progressFillWidth := JsNumber.ofNat 0, progressPercentText := JsNumber.ofNat 0,
    progressStage := "처리 중..." } }
  let a := clearAnalysisLogs a
  let a : App := { a with dom := { a.dom with
    deviceSelectBtnText := "1. 기기 선택 ▼", errorModalHidden := true } }
  updateButtonStates a

/-- Record that the method `name` was called on `this.api`. -/
def recordCall (app : App) (name : String) : App :=
  { app with apiCalls := app.apiCalls ++ [name] }

/-- The method `displayResults` (app.js 533-588), as far as the three areas of the
page go. -/
def displayResults (app : App) (_result : AnalysisResult) : App :=
  { app with dom := { app.dom with
      resultAreaHidden := false, analysisAreaHidden := true, uploadAreaHidden := true } }

/-- The method `loadAnalysisResult` up to its `await` (app.js 515-517). -/
def loadAnalysisResultBegin (app : App) : App :=
  recordCall app "getAnalysisResult"

/-- The method `loadAnalysisResult` after its `await` (app.js 518-526). -/
def loadAnalysisResultAfter (app : App) (r : Except String AnalysisResult) : App :=
  match r with
  | .ok result =>
    updateButtonStates (displayResults { app with analysisResult := some result } result)
  | .error m =>
    showError app "결과 로드 실패" (if m ≠ "" then m else "분석 결과를 불러올 수 없습니다.")

/-! ## Status polling (app.js 321-435) -/

/-- Normal polling delay, ms. -/
def NORMAL_POLL_INTERVAL : Nat := 2000
/-- Polling delay after a health check, ms. -/
def SLOW_POLL_INTERVAL : Nat := 5000
/-- Overall polling limit, ms. -/
def MAX_POLL_DURATION_MS : Int := 40 * 60 * 1000
/-- Consecutive failed polls before a health check. -/
def MAX_CONSECUTIVE_ERRORS : Nat := 30
/-- Failed health checks before giving up. -/
def MAX_HEALTH_CHECK_FAILS : Nat := 3
/-- Consecutive failed polls before the network banner. -/
def NETWORK_WARNING_THRESHOLD : Nat := 5

/-- Closure variables of `startStatusPolling` (app.js 328-331). -/
structure PollVars where
  pollStartTime : Int
  consecutiveErrors : Nat
  healthCheckFailCount : Nat
  currentPollInterval : Nat
deriving DecidableEq, Repr

/-- Where an `async` function stands after a segment: it returned, it is
suspended at one of its `await`s, or an exception left it. -/
inductive Step
  | done
  | awaitStatus
  | awaitHealth
  | awaitResult
  | raised (message : String)
deriving DecidableEq, Repr

/-- The statement `this.statusPollInterval = setTimeout(poll, delay)`. -/
def schedulePoll (app : App) (delay : Nat) : App :=
  { app with
      loop := (app.loop.add .poll delay false).1,
      statusPollInterval := some (app.loop.add .poll delay false).2 }

/-- The test `error.message && error.message.includes(...)` of app.js 372. -/
def isJobNotFound (message : String) : Bool :=
  message != "" && includes message "분석 작업을 찾을 수 없습니다"

/-- The test `isTimeout` of app.js 390. -/
def isTimeout (message : String) : Bool :=
  message != "" && includes message "시간이 초과"

/-- The value `effectiveMaxErrors` of app.js 391-392; `Math.floor(n * 1.5)` is
`n * 3 / 2` rounded down. -/
def effectiveMaxErrors (message : String) : Nat :=
  if isTimeout message then MAX_CONSECUTIVE_ERRORS * 3 / 2 else MAX_CONSECUTIVE_ERRORS

/-- The function `poll` up to `await this.api.getAnalysisStatus` (app.js 335-345). -/
def pollBegin (app : App) (v : PollVars) (now : Int) : App × PollVars × Step :=
  if now - v.pollStartTime > MAX_POLL_DURATION_MS then
    let a := stopStatusPolling app
    let a := hideNetworkWarning a
    let a := updateButtonStates a
    let a := showError a "분석 시간 초과"
      "서버 응답 대기 시간이 초과되었습니다. 페이지를 새로고침한 후 다시 시도해주세요."
    (a, v, .done)
  else
    (recordCall app "getAnalysisStatus", v, .awaitStatus)

/-- The function `poll` from the outcome of `await this.api.getAnalysisStatus(...)`
up to its next `await` or its end (app.js 345-397, 427-429). At the error budget
it makes the call `this.api.checkHealth()` and waits for its value. -/
def pollAfterStatus (app : App) (v : PollVars) (r : Except String StatusBody) :
    App × PollVars × Step :=
  match r with
  | .ok status =>
    let v1 : PollVars := { v with
      consecutiveErrors := 0, healthCheckFailCount := 0,
      currentPollInterval := NORMAL_POLL_INTERVAL }
    let a := hideNetworkWarning app
    let a : App := { a with dom := updateProgressBar a.dom status.progress status.current_stage }
    if status.status = "completed" then
      let a := stopStatusPolling a
      let a := stopProgressAutoUpdate a
      let a := stopProgressLogUpdate a
      (loadAnalysisResultBegin a, v1, .awaitResult)
    else if status.status = "error" then
      let a := stopStatusPolling a
      let a := stopProgressAutoUpdate a
      let a := stopProgressLogUpdate a
      let a := updateButtonStates a
      let a := showError a "분석 오류"
        (if status.error ≠ "" then status.error else "알 수 없는 오류가 발생했습니다.")
      (a, v1, .done)
    else
      (schedulePoll a v1.currentPollInterval, v1, .done)
  | .error message =>
    if isJobNotFound message then
      let a := stopStatusPolling app
      let a := hideNetworkWarning a
      let a := updateButtonStates a
      let a := showError a "분석 데이터 유실"
        "서버가 재시작되어 분석 데이터가 유실되었습니다. 다시 분석을 시작해주세요."
      (a, v, .done)
    else
      let v1 : PollVars := { v with consecutiveErrors := v.consecutiveErrors + 1 }
      let a :=
        if v1.consecutiveErrors ≥ NETWORK_WARNING_THRESHOLD then
          showNetworkWarning app "네트워크 연결이 불안정합니다. 자동으로 재시도 중..."
        else app
      if v1.consecutiveErrors ≥ effectiveMaxErrors message then
        (recordCall a "checkHealth", v1, .awaitHealth)
      else
        (schedulePoll a v1.currentPollInterval, v1, .done)

/-- The function `poll` after `await this.api.checkHealth()` resolved
(app.js 399-426); `isServerAlive` is the truthiness of the value. -/
def pollAfterHealth (app : App) (v : PollVars) (isServerAlive : Bool) :
    App × PollVars × Step :=
  if isServerAlive then
    let v1 : PollVars := { v with
      consecutiveErrors := 0, healthCheckFailCount := 0,
      currentPollInterval := SLOW_POLL_INTERVAL }
    (schedulePoll app v1.currentPollInterval, v1, .done)
  else
    let v1 : PollVars := { v with healthCheckFailCount := v.healthCheckFailCount + 1 }
    if v1.healthCheckFailCount ≥ MAX_HEALTH_CHECK_FAILS then
      let a := stopStatusPolling app
      let a := hideNetworkWarning a
      let a := updateButtonStates a
      let a := showError a "서버 연결 오류"
        "서버와의 연결이 끊어졌습니다. 페이지를 새로고침한 후 다시 시도해주세요."
      (a, v1, .done)
    else
      let backoffMs := 3000 * v1.healthCheckFailCount
      let v2 : PollVars := { v1 with
        consecutiveErrors := 0, currentPollInterval := SLOW_POLL_INTERVAL }
      (schedulePoll app backoffMs, v2, .done)

/-- The function `poll` after `await this.loadAnalysisResult()` (app.js 358). -/
def pollAfterResult (app : App) (v : PollVars) (r : Except String AnalysisResult) :
    App × PollVars × Step :=
  (loadAnalysisResultAfter app r, v, .done)

/-- What the clock and the awaited calls give one poll cycle: the time at its
start, and the outcomes of `await this.api.getAnalysisStatus(...)`, of
`await this.api.checkHealth()` (the truthiness of its value) and of
`await this.api.getAnalysisResult(...)`: a value, or the message of the error
thrown. -/
structure CycleInput where
  now : Int
  status : Except String StatusBody
  health : Except String Bool
  result : Except String AnalysisResult

/-- One call of `poll` run to its end with no other callback in between. An error
thrown by the health call leaves `poll`: the call stands in the `catch` block. -/
def pollCycle (app : App) (v : PollVars) (i : CycleInput) : App × PollVars × Step :=
  match pollBegin app v i.now with
  | (a1, v1, .awaitStatus) =>
    match pollAfterStatus a1 v1 i.status with
    | (a2, v2, .awaitHealth) =>
      match i.health with
      | .ok alive => pollAfterHealth a2 v2 alive
      | .error m => (a2, v2, .raised m)
    | (a2, v2, .awaitResult) => pollAfterResult a2 v2 i.result
    | r => r
  | r => r

/-- The outcomes of the awaited calls on the application as built, where
`this.api` is an `APIClient`: `statusFetch` is what the network does for the
status request, `health` and `result` what methods named `checkHealth` and
`getAnalysisResult` would give. -/
def builtCycleInput (now : Int) (statusFetch : FetchOutcome StatusBody)
    (health : Except String Bool) (result : Except String AnalysisResult) : CycleInput :=
  ⟨now,
    awaitCall APIClient "getAnalysisStatus" (APIClient.getAnalysisStatus statusFetch),
    awaitCall APIClient "checkHealth" health,
    awaitCall APIClient "getAnalysisResult" result⟩

/-- The pending poll timer fires: `poll` runs if the timer held in
`statusPollInterval` is still active, and nothing happens if it was cleared. -/
def pollTimerFires (app : App) (v : PollVars) (i : CycleInput) : App × PollVars × Step :=
  match app.statusPollInterval with
  | some id =>
    if app.loop.pending id .poll then
      pollCycle { app with loop := app.loop.fired id } v i
    else (app, v, .done)
  | none => (app, v, .done)

/-- The method `startStatusPolling` (app.js 321-435): fresh closure variables,
`pollStartTime` being the clock reading `start`, and the first call of `poll`,
up to its first `await`, at the clock reading `now`. -/
def startStatusPolling (app : App) (start now : Int) : App × PollVars × Step :=
  pollBegin app ⟨start, 0, 0, NORMAL_POLL_INTERVAL⟩ now

/-- Number of calls of the method `name` recorded so far. -/
def callCount (app : App) (name : String) : Nat :=
  app.apiCalls.count name

/-- Poll cycles run one after another, each started by the pending poll timer;
the run stops where a cycle does not return (it raised). -/
def runTimerCycles (app : App) (v : PollVars) : List CycleInput → App × PollVars × Step
  | [] => (app, v, .done)
  | i :: rest =>
    match pollTimerFires app v i with
    | (a, w, .done) => runTimerCycles a w rest
    | r => r

/-- Poll cycles run one after another from a call of `poll` in the state `app`
(the first call made by `startStatusPolling`, or a call made by a timer that has
just fired); each later cycle is started by the pending poll timer. -/
def runCycles (app : App) (v : PollVars) : List CycleInput → App × PollVars × Step
  | [] => (app, v, .done)
  | i :: rest =>
    match pollCycle app v i with
    | (a, w, .done) => runTimerCycles a w rest
    | r => r

/-- A poll timer is pending: the handle in `statusPollInterval` names an active
timer that will call `poll`. -/
def pollPending (app : App) : Bool :=
  match app.statusPollInterval with
  | some id => app.loop.pending id .poll
  | none => false

/-- The cycle input `i`, started at a time within the polling limit counted from
`start`, has its status call fail with an error that is not job-not-found and
whose timeout classification is `timeoutClass`. -/
def failedPoll (start : Int) (timeoutClass : Bool) (i : CycleInput) : Bool :=
  match i.status with
  | .error m =>
    !isJobNotFound m && (isTimeout m == timeoutClass)
      && decide (i.now - start ≤ MAX_POLL_DURATION_MS)
  | .ok _ => false

/-- Whether `id` is one of the three timer handles the application holds. -/
def ownTimer (app : App) (id : Nat) : Bool :=
  app.statusPollInterval == some id || app.progressInterval == some id
    || app.progressUpdateInterval == some id

/-- All three timer handles are `null`. -/
def timersStopped (app : App) : Bool :=
  app.statusPollInterval.isNone && app.progressInterval.isNone
    && app.progressUpdateInterval.isNone

/-- Every active timer is the one its handle field names: a one-shot poll timer
held in `statusPollInterval`, the simulator interval held in `progressInterval`,
the log interval held in `progressUpdateInterval`. -/
def ownsTimers (app : App) : Bool :=
  app.loop.timers.all (fun t =>
    match t.callback with
    | .poll => !t.repeating && app.statusPollInterval == some t.id
    | .progressTick => app.progressInterval == some t.id
    | .logTick => app.progressUpdateInterval == some t.id)

/-- The cycle input `i`, started within the polling limit counted from `start`,
has its status call fail with an error that is not job-not-found. -/
def failedPollAny (start : Int) (i : CycleInput) : Bool :=
  failedPoll start false i || failedPoll start true i

/-- A cycle at time `now` whose status call fails with `message`; the health
method, if called, answers `health`. -/
def failedPollInput (now : Int) (message : String) (health : Except String Bool) : CycleInput :=
  ⟨now, .error message, health, .error ""⟩

/-- A status request made at the clock reading `now` and answered with HTTP 500. -/
def statusHttp500 (now : Int) : Int × FetchOutcome StatusBody :=
  (now, .response 500 (.error ""))

/-- The application object as the constructor builds it (app.js 8-27, 36) on a
fresh page. -/
def App.initial : App where
  selectedDevice := none
  uploadedFile := none
  videoId := none
  analysisId := none
  analysisResult := none
  statusPollInterval := none
  progressInterval := none
  analysisStartTime := none
  progressUpdateInterval := none
  llmModels := []
  dom := Dom.initial
  loop := ⟨[], 0⟩
  apiCalls := []

/-- A session at the moment `startStatusPolling` is called: device and video
chosen, analysis `a1` started at time 0, simulator and log intervals running
(handles 1 and 2). -/
def App.started : App :=
  startProgressLogUpdate (startProgressAutoUpdate
    { App.initial with
        selectedDevice := some "pMDI", uploadedFile := some "clip.mp4",
        videoId := some "v1", analysisId := some "a1", analysisStartTime := some 0 })

/-- A session between two poll cycles: as `App.started`, with a poll timer
pending (handle 3). -/
def App.polling : App :=
  schedulePoll App.started NORMAL_POLL_INTERVAL

/-! ## Starting an analysis (app.js 195-257) -/

/-- The method `showAnalysisInfo` (app.js 656-670). -/
def showAnalysisInfo (app : App) : App :=
  { app with dom := { app.dom with
      infoDevice := (if truthy app.selectedDevice then app.selectedDevice.getD "-" else "-"),
      infoFile := app.uploadedFile.getD "-",
      infoAgent := (if app.llmModels.length > 0 then String.intercalate ", " app.llmModels
        else "-"),
      analysisAreaHidden := false, uploadAreaHidden := true, resultAreaHidden := true } }

/-- The test that opens `startAnalysis`: device and video handle are both set. -/
def startAnalysisReady (app : App) : Bool :=
  truthy app.selectedDevice && truthy app.videoId

/-- Body of the answer to the start request. -/
structure StartResponse where
  analysisId : Option String
deriving DecidableEq, Repr

/-- The method `startAnalysis` up to its return or its `await` (app.js 195-243):
`now` is the clock reading, `startTimeStr` its rendering by
`toLocaleTimeString`. The flag tells whether the method is suspended at
`await this.api.startAnalysis(...)`. -/
def startAnalysisBegin (app : App) (now : Int) (startTimeStr : String) : App × Bool :=
  if !startAnalysisReady app then
    (showError app "오류" "기기와 파일을 먼저 선택해주세요.", false)
  else
    let a := stopStatusPolling app
    let a : App := { a with dom := { a.dom with
      startBtnDisabled := true,
      progressFillWidth := JsNumber.ofNat 0, progressPercentText := JsNumber.ofNat 0,
      progressStage := "처리 중..." } }
    let a : App := { a with analysisStartTime := some now }
    let a := clearAnalysisLogs a
    let a := addLog a ("시작시간: " ++ startTimeStr)
    let a := showAnalysisInfo a
    let a := startProgressAutoUpdate a
    let a := startProgressLogUpdate a
    (recordCall a "startAnalysis", true)

/-- The method `startAnalysis` after its `await` (app.js 245-256): on an answer
it stores the id and calls `startStatusPolling`, whose closure variables and
first step are returned; on an error it reports and stops the two intervals. -/
def startAnalysisAfter (app : App) (start now : Int) (r : Except String StartResponse) :
    App × Option (PollVars × Step) :=
  match r with
  | .ok response =>
    let a : App := { app with analysisId := response.analysisId }
    ((startStatusPolling a start now).1,
      some ((startStatusPolling a start now).2.1, (startStatusPolling a start now).2.2))
  | .error m =>
    let a := showError app "분석 시작 실패" (if m ≠ "" then m else "분석을 시작할 수 없습니다.")
    let a := stopProgressAutoUpdate a
    let a := stopProgressLogUpdate a
    ({ a with dom := { a.dom with
        startBtnDisabled := !(truthy a.selectedDevice && truthy a.videoId) } }, none)

/-! ## Starting again during an analysis -/

/-- A page on which a video has been uploaded and no device is chosen yet. -/
def App.uploaded : App :=
  { App.initial with uploadedFile := some "clip.mp4", videoId := some "v1" }

/-- A call of `startAnalysis` whose start request is answered with `response`,
run to the end of `startStatusPolling`: the application and the closure
variables and the step of the first call of `poll`. -/
def startAnalysisOk (app : App) (now : Int) (startTimeStr : String) (start pollNow : Int)
    (response : StartResponse) : App × Option (PollVars × Step) :=
  startAnalysisAfter (startAnalysisBegin app now startTimeStr).1 start pollNow (.ok response)

/-- The device is chosen on the page `App.uploaded` and the analysis is started. -/
def firstStart : App × Option (PollVars × Step) :=
  startAnalysisOk (selectDevice App.uploaded "pMDI") 0 "09:00:00" 10 10 ⟨some "a1"⟩

/-- With the first status request unanswered, a device is chosen again and the
analysis is started again. -/
def secondStart : App × Option (PollVars × Step) :=
  startAnalysisOk (selectDevice firstStart.1 "pMDI") 20 "09:00:20" 30 30 ⟨some "a2"⟩

/-! ## One session as a transition system -/

/-- Number of active timers that will call `poll`. -/
def pollTimers (app : App) : Nat :=
  app.loop.timers.countP (fun t => t.callback == .poll)

/-- The calls of `poll` of one call of `startStatusPolling`: the application,
the closure variables these calls share, the `await` at which each of them that
is suspended stands, and the counter of the simulator closure. Calls of `poll`
that belong to another call of `startStatusPolling` are not part of it. -/
structure Session where
  app : App
  vars : PollVars
  waiting : List Step
  currentProgress : Nat
deriving DecidableEq, Repr

/-- What can happen to a session: an active poll timer fires, the awaited call of
the `k`-th suspended `poll` settles (status, health, result), the simulator
interval or the log interval fires. -/
inductive SessionEvent
  | pollTimerFires (id : Nat) (now : Int)
  | statusSettles (k : Nat) (r : Except String StatusBody)
  | healthSettles (k : Nat) (r : Except String Bool)
  | resultSettles (k : Nat) (r : Except String AnalysisResult)
  | progressTimerFires (id : Nat)
  | logTimerFires (id : Nat) (now : Int)

/-- The session after the `k`-th suspended call ran its next segment: a call that
returned or raised is no longer suspended, another stands at its new `await`. -/
def Session.resumed (s : Session) (k : Nat) (r : App × PollVars × Step) : Session :=
  match r.2.2 with
  | .done => { s with app := r.1, vars := r.2.1, waiting := s.waiting.eraseIdx k }
  | .raised _ => { s with app := r.1, vars := r.2.1, waiting := s.waiting.eraseIdx k }
  | st => { s with app := r.1, vars := r.2.1, waiting := s.waiting.set k st }

/-- The session after a new call of `poll` ran its first segment. -/
def Session.called (s : Session) (r : App × PollVars × Step) : Session :=
  match r.2.2 with
  | .done => { s with app := r.1, vars := r.2.1 }
  | .raised _ => { s with app := r.1, vars := r.2.1 }
  | st => { s with app := r.1, vars := r.2.1, waiting := s.waiting ++ [st] }

/-- One event of the session. An event that is not enabled (the timer is not
active, the `k`-th call does not stand at that `await`) changes nothing. -/
def Session.step (s : Session) : SessionEvent → Session
  | .pollTimerFires id now =>
    if s.app.loop.pending id .poll then
      s.called (pollBegin { s.app with loop := s.app.loop.fired id } s.vars now)
    else s
  | .statusSettles k r =>
    if s.waiting.get? k = some .awaitStatus then
      s.resumed k (pollAfterStatus s.app s.vars r)
    else s
  | .healthSettles k r =>
    if s.waiting.get? k = some .awaitHealth then
      match r with
      | .ok alive => s.resumed k (pollAfterHealth s.app s.vars alive)
      | .error m => s.resumed k (s.app, s.vars, .raised m)
    else s
  | .resultSettles k r =>
    if s.waiting.get? k = some .awaitResult then
      s.resumed k (pollAfterResult s.app s.vars r)
    else s
  | .progressTimerFires id =>
    if s.app.loop.pending id .progressTick then
      { s with app := (progressTickApp s.app s.currentProgress).1,
               currentProgress := (progressTickApp s.app s.currentProgress).2 }
    else s
  | .logTimerFires id now =>
    if s.app.loop.pending id .logTick then { s with app := logTick s.app now } else s

/-- The session after the events `es`, in order. -/
def Session.run (s : Session) (es : List SessionEvent) : Session :=
  es.foldl Session.step s

/-- Whether an event is the firing of a poll timer. -/
def SessionEvent.isPollTimer : SessionEvent → Bool
  | .pollTimerFires _ _ => true
  | _ => false

/-- Whether a call stands at an `await`. -/
def Step.suspended : Step → Bool
  | .awaitStatus => true
  | .awaitHealth => true
  | .awaitResult => true
  | _ => false

/-! ## The simulator counter -/

/-- The closure counter of the simulator after it ticked once on each of the
pages `doms` in turn, from 0. -/
def tickCounter (doms : List Dom) : Nat :=
  doms.foldl (fun c d => (progressTick d c).2) 0

/-! ## File validation (app.js 894-912) -/

/-- The properties of a `File` the controller reads. -/
structure FileInfo where
  name : String
  type : String
  size : Nat
deriving DecidableEq, Repr

/-- The accepted MIME types. -/
def validTypes : List String :=
  ["video/mp4", "video/quicktime", "video/x-msvideo", "video/x-matroska"]

/-- The size limit, bytes. -/
def maxSize : Nat := 500 * 1024 * 1024

/-- The method `validateFile` (app.js 894-912). -/
def validateFile (file : FileInfo) : Bool :=
  if !validTypes.contains file.type then false
  else if file.size > maxSize then false
  else true

/-! ## The result request (api.js 143-165) -/

/-- The method `APIClient.getAnalysisResult`: the parsed result, or the message of
the error it throws. -/
def APIClient.getAnalysisResult (o : FetchOutcome AnalysisResult) :
    Except String AnalysisResult :=
  let thrown : Except String AnalysisResult :=
    match o with
    | .failed m => .error m
    | .response status body =>
      if ¬ responseOk status then
        if status = 404 then .error jobNotFoundMessage
        else if status = 400 then .error "분석이 아직 완료되지 않았습니다."
        else if status = 500 then .error "분석 결과가 없습니다."
        else .error ("결과 조회 실패: " ++ toString status)
      else body
  match thrown with
  | .ok b => .ok b
  | .error m => if m ≠ "" then .error m else .error ("결과 조회 중 오류 발생: " ++ m)

/-! ## The CSV exporter (utils/csvExporter.js) -/

/-- The double quote character. -/
def dquote : Char := Char.ofNat 34

/-- A value pushed into a row: a string or a number. The numbers the exporter
pushes are counts, non-negative integers below 10^21, whose JS text is the
decimal numeral. -/
inductive Cell
  | str (s : String)
  | num (n : Nat)
deriving DecidableEq, Repr

/-- The expression `x || ''` for a string that may be missing. -/
def orEmpty (x : Option String) : String :=
  x.getD ""

/-- The expression `x || ''` for a number that may be missing: the number, or
the empty string when it is missing or zero. -/
def numOrEmpty (x : Option Nat) : Cell :=
  match x with
  | some n => if n = 0 then .str "" else .num n
  | none => .str ""

/-- The expression `x || 0` for a number that may be missing. -/
def numOrZero (x : Option Nat) : Cell :=
  .num (x.getD 0)

/-- The block of rows for `result.videoInfo` (csvExporter.js 24-32). -/
def videoInfoRows (videoInfo : Option VideoInfo) : List (List Cell) :=
  match videoInfo with
  | some vi =>
    [[.str "비디오 정보"],
     [.str "파일명", .str (orEmpty vi.fileName)],
     [.str "재생시간", .str (vi.durationText ++ "초")],
     [.str "해상도", .str (orEmpty vi.resolution)],
     [.str "프레임 수", numOrEmpty vi.frameCount],
     [.str "파일 크기", .str vi.sizeText],
     []]
  | none => []

/-- The block of rows for `result.summary` (csvExporter.js 35-42). -/
def summaryRows (summary : Option Summary) : List (List Cell) :=
  match summary with
  | some s =>
    [[.str "요약 정보"],
     [.str "총 단계", numOrZero s.totalSteps],
     [.str "통과 단계", numOrZero s.passedSteps],
     [.str "실패 단계", numOrZero s.failedSteps],
     [.str "점수", .str (s.scoreText ++ "%")],
     []]
  | none => []

/-- The block of rows for `result.modelInfo` (csvExporter.js 45-50). -/
def modelInfoRows (modelInfo : Option ModelInfo) : List (List Cell) :=
  match modelInfo with
  | some mi =>
    [[.str "모델 정보"],
     [.str "사용 모델",
       .str (match mi.models with
         | some ms => ", ".intercalate ms
         | none => "")],
     [.str "분석 시간", .str (mi.analysisTimeText ++ "초")],
     []]
  | none => []

/-- The block of rows for `result.finalSummary` (csvExporter.js 53-62): one row
for each line of the text. -/
def finalSummaryRows (finalSummary : String) : List (List Cell) :=
  [[.str "최종 종합 기술"]]
    ++ (if finalSummary ≠ "" then
          (finalSummary.split (fun c => c == Char.ofNat 10)).map (fun line => [.str line])
        else [[.str "종합 기술 정보가 없습니다."]])
    ++ [[]]

/-- The row of one action step (csvExporter.js 69-91). -/
def actionStepRow (step : ActionStep) : List Cell :=
  let timeStr := if step.time.length > 0 then ", ".intercalate step.time else "미감지"
  let scoreStr := if step.score.length > 0 then ", ".intercalate step.score else "0"
  let resultStr := if step.result = "pass" then "통과" else "실패"
  let confidenceStr :=
    if step.confidenceScore.length > 0 then ", ".intercalate step.confidenceScore else "N/A"
  [numOrEmpty step.order, .str (orEmpty step.id), .str (orEmpty step.name),
    .str (orEmpty step.description), .str timeStr, .str scoreStr, .str resultStr,
    .str confidenceStr]

/-- The array `rows` the method `export` builds (csvExporter.js 12-92). -/
def exportRows (result : AnalysisResult) (deviceType : Option String)
    (file : Option FileInfo) : List (List Cell) :=
  [[.str "항목", .str "값"], [],
   [.str "기기 선택", .str (orEmpty deviceType)],
   [.str "분석한 파일", .str (match file with
     | some f => f.name
     | none => "")],
   []]
    ++ videoInfoRows result.videoInfo
    ++ summaryRows result.summary
    ++ modelInfoRows result.modelInfo
    ++ finalSummaryRows result.finalSummary
    ++ [[.str "행동 단계 상세"],
        [.str "순서", .str "ID", .str "이름", .str "설명", .str "시간", .str "점수",
          .str "결과", .str "신뢰도"]]
    ++ result.actionSteps.map actionStepRow

/-- The text `String(cell || '')` of a cell (csvExporter.js 97): a string is
itself; a number is its decimal text, except that `0`, being falsy, gives the
empty string. -/
def cellStr (cell : Cell) : String :=
  match cell with
  | .str s => s
  | .num n => if n = 0 then "" else toString n

/-- The replacement of every double quote by two double quotes, the call
`replace(/"/g, '""')` of csvExporter.js 99, on the characters of a string. -/
def replaceQuotes : List Char → List Char
  | [] => []
  | c :: cs =>
    if c = dquote then dquote :: dquote :: replaceQuotes cs else c :: replaceQuotes cs

/-- The field emitted for one cell (csvExporter.js 96-100). -/
def emitCell (cell : Cell) : String :=
  let escaped := replaceQuotes (cellStr cell).data
  String.mk (dquote :: escaped ++ [dquote])

/-- The line emitted for one row: its fields joined by commas (csvExporter.js 101). -/
def emitRow (row : List Cell) : String :=
  ",".intercalate (row.map emitCell)

/-- The value `csvContent` (csvExporter.js 95-102): the lines joined by newlines. -/
def csvContent (rows : List (List Cell)) : String :=
  (String.singleton (Char.ofNat 10)).intercalate (rows.map emitRow)

/-- The text of the file `export` offers for download (csvExporter.js 105-108):
a byte order mark and the CSV content. -/
def exportText (result : AnalysisResult) (deviceType : Option String)
    (file : Option FileInfo) : String :=
  String.singleton (Char.ofNat 65279) ++ csvContent (exportRows result deviceType file)

/-- The inverse reading of a field: the characters between its first and its
last character. -/
def unquoteField (field : List Char) : List Char :=
  field.tail.dropLast

/-- The inverse reading of an escaped text: each pair of double quotes, from the
left, becomes one. -/
def undoubleQuotes : List Char → List Char
  | [] => []
  | [c] => [c]
  | c :: d :: cs =>
    if c = dquote ∧ d = dquote then dquote :: undoubleQuotes cs
    else c :: undoubleQuotes (d :: cs)

/-- A text enclosed in double quotes. -/
def quoted (s : String) : String :=
  String.mk (dquote :: s.data ++ [dquote])

/-! ## Theorems -/

/-! ### The progress bar -/

theorem parseIntOrZero_cssPercent_ofNat (m : Nat) (h : m ≤ 100) :
    parseIntOrZero (cssPercent (JsNumber.ofNat m)) = (m : Int) := by
  interval_cases m <;> rfl

theorem updateProgressBar_width (dom : Dom) (p : JsNumber) (stage : String) :
    (updateProgressBar dom p stage).progressFillWidth =
      if p.gtInt (parseIntOrZero (cssPercent dom.progressFillWidth)) then p
      else dom.progressFillWidth := by
  unfold updateProgressBar
  by_cases h1 : p.gtInt (parseIntOrZero (cssPercent dom.progressFillWidth)) = true
  · simp only [h1, if_true]
    split_ifs <;> rfl
  · simp only [h1, if_false]
    split_ifs <;> rfl

theorem updateProgressBar_integer_width (dom : Dom) (m p : Nat) (stage : String)
    (hm : m ≤ 100) (hw : dom.progressFillWidth = JsNumber.ofNat m) :
    (updateProgressBar dom (JsNumber.ofNat p) stage).progressFillWidth =
      JsNumber.ofNat (max m p) := by
  rw [updateProgressBar_width, hw, parseIntOrZero_cssPercent_ofNat m hm]
  by_cases h : m < p
  · have : (JsNumber.ofNat p).gtInt (m : Int) = true := by
      simp only [JsNumber.gtInt, JsNumber.ofNat, decide_eq_true_eq]
      push_cast
      omega
    rw [if_pos this, max_eq_right (le_of_lt h)]
  · have : ¬ (JsNumber.ofNat p).gtInt (m : Int) = true := by
      simp only [JsNumber.gtInt, JsNumber.ofNat, decide_eq_true_eq]
      push_cast
      omega
    rw [if_neg this, max_eq_left (not_lt.mp h)]

theorem maxFrom_le (ps : List (Nat × String)) :
    ∀ m : Nat, m ≤ 100 → (∀ q ∈ ps, q.1 ≤ 100) → maxFrom m ps ≤ 100 := by
  induction ps with
  | nil => intro m hm _; simpa [maxFrom] using hm
  | cons q qs ih =>
    intro m hm h
    have hq : q.1 ≤ 100 := h q (List.mem_cons_self _ _)
    have := ih (max m q.1) (max_le hm hq) (fun r hr => h r (List.mem_cons_of_mem _ hr))
    simpa [maxFrom] using this

theorem le_maxFrom (ps : List (Nat × String)) : ∀ m : Nat, m ≤ maxFrom m ps := by
  induction ps with
  | nil => intro m; simp [maxFrom]
  | cons q qs ih =>
    intro m
    have := ih (max m q.1)
    simp only [maxFrom, List.foldl_cons] at this ⊢
    exact le_trans (le_max_left _ _) this

theorem maxFrom_append (ps : List (Nat × String)) (p : Nat × String) (m : Nat) :
    maxFrom m (ps ++ [p]) = max (maxFrom m ps) p.1 := by
  simp [maxFrom, List.foldl_append]

theorem deliverAll_integer_width (ps : List (Nat × String)) :
    ∀ (dom : Dom) (m : Nat), m ≤ 100 → dom.progressFillWidth = JsNumber.ofNat m →
      (∀ q ∈ ps, q.1 ≤ 100) →
      (deliverAll dom (intDeliveries ps)).progressFillWidth = JsNumber.ofNat (maxFrom m ps) := by
  induction ps with
  | nil => intro dom m _ hw _; simpa [deliverAll, intDeliveries, maxFrom] using hw
  | cons q qs ih =>
    intro dom m hm hw h
    have hq : q.1 ≤ 100 := h q (List.mem_cons_self _ _)
    have step := updateProgressBar_integer_width dom m q.1 q.2 hm hw
    have := ih (updateProgressBar dom (JsNumber.ofNat q.1) q.2) (max m q.1) (max_le hm hq) step
      (fun r hr => h r (List.mem_cons_of_mem _ hr))
    simpa [deliverAll, intDeliveries, maxFrom] using this

/-- Integer percentages are merged as the maximum: from a bar showing `0%`,
after the integer progress values `ps` (each in 0..100) and one more value `p`
have been passed to `updateProgressBar`, the bar shows the largest value
delivered so far, and it shows no less than it did before `p` was delivered. -/
theorem updateProgressBar_integer_monotone_max (dom : Dom) (ps : List (Nat × String))
    (p : Nat × String) (h0 : dom.progressFillWidth = JsNumber.ofNat 0)
    (hps : ∀ q ∈ ps, q.1 ≤ 100) (hp : p.1 ≤ 100) :
    (deliverAll dom (intDeliveries (ps ++ [p]))).progressFillWidth
        = JsNumber.ofNat (maxFrom 0 (ps ++ [p]))
      ∧ (deliverAll dom (intDeliveries ps)).progressFillWidth.hundredths
        ≤ (deliverAll dom (intDeliveries (ps ++ [p]))).progressFillWidth.hundredths := by
  have hall : ∀ q ∈ ps ++ [p], q.1 ≤ 100 := by
    intro q hq
    rcases List.mem_append.mp hq with h | h
    · exact hps q h
    · rw [List.mem_singleton.mp h]; exact hp
  have h1 := deliverAll_integer_width (ps ++ [p]) dom 0 (by omega) h0 hall
  have h2 := deliverAll_integer_width ps dom 0 (by omega) h0 hps
  refine ⟨h1, ?_⟩
  rw [h1, h2, maxFrom_append]
  simp only [JsNumber.ofNat]
  have := le_max_left (maxFrom 0 ps) p.1
  omega

/-- Deliveries 10, 4, 30 show 10, 10, 30: the last step of the run. -/
theorem updateProgressBar_integer_monotone_max_witness :
    (deliverAll Dom.initial (intDeliveries ([(10, ""), (4, "")] ++ [(30, "")]))).progressFillWidth
        = JsNumber.ofNat (maxFrom 0 ([(10, ""), (4, "")] ++ [(30, "")]))
      ∧ (deliverAll Dom.initial (intDeliveries [(10, ""), (4, "")])).progressFillWidth.hundredths
        ≤ (deliverAll Dom.initial
            (intDeliveries ([(10, ""), (4, "")] ++ [(30, "")]))).progressFillWidth.hundredths :=
  updateProgressBar_integer_monotone_max Dom.initial [(10, ""), (4, "")] (30, "") rfl
    (by decide) (by decide)

/-- C1 fails for fractional values: delivering 10.5 and then 10.25 from a bar
showing `0%` leaves the bar at 10.25, lower than the 10.5 it showed before and
different from the largest value delivered. The comparison reads the bar back
with `parseInt`, and `parseInt("10.5%")` is 10, so the lower value passes the
test `progress > currentWidth` of app.js 685. -/
theorem updateProgressBar_fraction_lowers_display :
    (displayedAfter [(⟨1050⟩, ""), (⟨1025⟩, "")]).hundredths
        < (displayedAfter [(⟨1050⟩, "")]).hundredths
      ∧ (displayedAfter [(⟨1050⟩, ""), (⟨1025⟩, "")]).hundredths
        ≠ maxDelivered [(⟨1050⟩, ""), (⟨1025⟩, "")] := by
  decide

/-- C2: a server delivery of 50 followed by the first simulator tick leaves the
bar at 1: the tick writes its counter without comparing it with the value shown. -/
theorem progressTick_overwrites_server_value :
    (updateProgressBar Dom.initial (JsNumber.ofNat 50) "").progressFillWidth = JsNumber.ofNat 50
      ∧ (progressTick (updateProgressBar Dom.initial (JsNumber.ofNat 50) "") 0).1.progressFillWidth
        = JsNumber.ofNat 1 := by
  decide

/-! ### Polling: single cycles and runs -/

theorem effectiveMaxErrors_of_class (m : String) (tc : Bool) (h : isTimeout m = tc) :
    effectiveMaxErrors m = if tc then 45 else 30 := by
  subst h
  unfold effectiveMaxErrors MAX_CONSECUTIVE_ERRORS
  cases isTimeout m <;> simp

theorem schedulePoll_pollPending (app : App) (d : Nat) : pollPending (schedulePoll app d) = true := by
  simp [pollPending, schedulePoll, EventLoop.add, EventLoop.pending]

theorem pollBegin_within (app : App) (v : PollVars) (now : Int)
    (h : now - v.pollStartTime ≤ MAX_POLL_DURATION_MS) :
    pollBegin app v now = (recordCall app "getAnalysisStatus", v, .awaitStatus) := by
  unfold pollBegin
  rw [if_neg (not_lt.mpr h)]

theorem pollAfterStatus_failed_below (app : App) (v : PollVars) (m : String)
    (hn : isJobNotFound m = false) (hb : v.consecutiveErrors + 1 < effectiveMaxErrors m) :
    pollAfterStatus app v (.error m) =
      (schedulePoll
        (if v.consecutiveErrors + 1 ≥ NETWORK_WARNING_THRESHOLD then
          showNetworkWarning app "네트워크 연결이 불안정합니다. 자동으로 재시도 중..."
        else app) v.currentPollInterval,
        { v with consecutiveErrors := v.consecutiveErrors + 1 }, .done) := by
  unfold pollAfterStatus
  simp only [hn, Bool.false_eq_true, if_false, ge_iff_le, not_le.mpr hb]

theorem pollTimerFires_pending (app : App) (v : PollVars) (i : CycleInput)
    (hp : pollPending app = true) :
    ∃ id, app.statusPollInterval = some id ∧
      pollTimerFires app v i = pollCycle { app with loop := app.loop.fired id } v i := by
  unfold pollPending at hp
  cases h : app.statusPollInterval with
  | none => simp [h] at hp
  | some id =>
    refine ⟨id, rfl, ?_⟩
    simp only [h] at hp
    simp [pollTimerFires, h, hp]

theorem failedPoll_spec (start : Int) (tc : Bool) (i : CycleInput) (h : failedPoll start tc i = true) :
    ∃ m, i.status = .error m ∧ isJobNotFound m = false ∧ isTimeout m = tc
      ∧ i.now - start ≤ MAX_POLL_DURATION_MS := by
  unfold failedPoll at h
  cases hs : i.status with
  | ok b => simp [hs] at h
  | error m =>
    simp only [hs, Bool.and_eq_true, Bool.not_eq_true', beq_iff_eq, decide_eq_true_eq] at h
    exact ⟨m, rfl, h.1.1, h.1.2, h.2⟩

/-- Facts about one failing cycle that stays below the error budget. -/
theorem pollTimerFires_failed_below (app : App) (v : PollVars) (tc : Bool) (i : CycleInput)
    (hp : pollPending app = true)
    (hf : failedPoll v.pollStartTime tc i = true)
    (hb : v.consecutiveErrors + 1 < if tc then 45 else 30) :
    (pollTimerFires app v i).2.2 = .done
      ∧ (pollTimerFires app v i).2.1 = { v with consecutiveErrors := v.consecutiveErrors + 1 }
      ∧ pollPending (pollTimerFires app v i).1 = true
      ∧ callCount (pollTimerFires app v i).1 "checkHealth" = callCount app "checkHealth" := by
  obtain ⟨m, hs, hn, ht, hnow⟩ := failedPoll_spec _ _ _ hf
  obtain ⟨id, _, hfire⟩ := pollTimerFires_pending app v i hp
  have hbud : v.consecutiveErrors + 1 < effectiveMaxErrors m := by
    rw [effectiveMaxErrors_of_class m tc ht]; exact hb
  rw [hfire]
  unfold pollCycle
  rw [pollBegin_within _ _ _ hnow]
  simp only [recordCall, hs]
  rw [pollAfterStatus_failed_below _ _ _ hn hbud]
  refine ⟨rfl, rfl, schedulePoll_pollPending _ _, ?_⟩
  split_ifs <;> simp [callCount, schedulePoll, showNetworkWarning]

theorem stopProgressAutoUpdate_frame (app : App) :
    (stopProgressAutoUpdate app).apiCalls = app.apiCalls
      ∧ (stopProgressAutoUpdate app).dom = app.dom
      ∧ (stopProgressAutoUpdate app).statusPollInterval = app.statusPollInterval
      ∧ (stopProgressAutoUpdate app).progressUpdateInterval = app.progressUpdateInterval
      ∧ (stopProgressAutoUpdate app).progressInterval = none
      ∧ (stopProgressAutoUpdate app).loop.lastId = app.loop.lastId := by
  unfold stopProgressAutoUpdate
  split
  · next h => exact ⟨rfl, rfl, rfl, rfl, rfl, rfl⟩
  · next h => exact ⟨rfl, rfl, rfl, rfl, h, rfl⟩

theorem stopProgressLogUpdate_frame (app : App) :
    (stopProgressLogUpdate app).apiCalls = app.apiCalls
      ∧ (stopProgressLogUpdate app).dom = app.dom
      ∧ (stopProgressLogUpdate app).statusPollInterval = app.statusPollInterval
      ∧ (stopProgressLogUpdate app).progressInterval = app.progressInterval
      ∧ (stopProgressLogUpdate app).progressUpdateInterval = none
      ∧ (stopProgressLogUpdate app).loop.lastId = app.loop.lastId := by
  unfold stopProgressLogUpdate
  split
  · next h => exact ⟨rfl, rfl, rfl, rfl, rfl, rfl⟩
  · next h => exact ⟨rfl, rfl, rfl, rfl, h, rfl⟩

theorem stopStatusPolling_frame (app : App) :
    (stopStatusPolling app).apiCalls = app.apiCalls
      ∧ (stopStatusPolling app).dom = app.dom
      ∧ (stopStatusPolling app).statusPollInterval = none
      ∧ (stopStatusPolling app).progressInterval = none
      ∧ (stopStatusPolling app).progressUpdateInterval = none
      ∧ (stopStatusPolling app).loop.lastId = app.loop.lastId := by
  unfold stopStatusPolling
  obtain ⟨l1, l2, l3, l4, l5, l6⟩ := stopProgressLogUpdate_frame
    (stopProgressAutoUpdate
      (match app.statusPollInterval with
      | some id => { app with loop := app.loop.clear id, statusPollInterval := none }
      | none => app))
  obtain ⟨a1, a2, a3, _, a5, a6⟩ := stopProgressAutoUpdate_frame
    (match app.statusPollInterval with
      | some id => { app with loop := app.loop.clear id, statusPollInterval := none }
      | none => app)
  simp only at l1 l2 l3 l4 l5 l6 a1 a2 a3 a5 a6 ⊢
  rw [l1, l2, l3, l4, l5, l6, a1, a2, a3, a5, a6]
  split
  · exact ⟨rfl, rfl, rfl, rfl, rfl, rfl⟩
  · next h => exact ⟨rfl, rfl, h, rfl, rfl, rfl⟩

theorem pollAfterHealth_apiCalls (app : App) (v : PollVars) (alive : Bool) :
    (pollAfterHealth app v alive).1.apiCalls = app.apiCalls := by
  unfold pollAfterHealth
  cases alive
  · simp only [Bool.false_eq_true, if_false]
    split_ifs
    · simp [showError, updateButtonStates, hideNetworkWarning,
        (stopStatusPolling_frame app).1]
    · rfl
  · rfl

/-- A failing cycle that reaches the error budget calls the health method once. -/
theorem pollTimerFires_failed_at_budget (app : App) (v : PollVars) (tc : Bool) (i : CycleInput)
    (hp : pollPending app = true)
    (hf : failedPoll v.pollStartTime tc i = true)
    (hb : (if tc then 45 else 30) ≤ v.consecutiveErrors + 1) :
    callCount (pollTimerFires app v i).1 "checkHealth" = callCount app "checkHealth" + 1 := by
  obtain ⟨m, hs, hn, ht, hnow⟩ := failedPoll_spec _ _ _ hf
  obtain ⟨id, _, hfire⟩ := pollTimerFires_pending app v i hp
  have hbud : effectiveMaxErrors m ≤ v.consecutiveErrors + 1 := by
    rw [effectiveMaxErrors_of_class m tc ht]; exact hb
  rw [hfire]
  unfold pollCycle
  rw [pollBegin_within _ _ _ hnow]
  simp only [recordCall, hs]
  unfold pollAfterStatus
  simp only [hn, Bool.false_eq_true, if_false, ge_iff_le, hbud, if_true, recordCall]
  split_ifs <;> cases i.health <;>
    simp [callCount, showNetworkWarning, pollAfterHealth_apiCalls]

theorem runTimerCycles_cons_done (app : App) (v : PollVars) (i : CycleInput) (rest : List CycleInput)
    (h : (pollTimerFires app v i).2.2 = .done) :
    runTimerCycles app v (i :: rest) =
      runTimerCycles (pollTimerFires app v i).1 (pollTimerFires app v i).2.1 rest := by
  rcases hr : pollTimerFires app v i with ⟨a, w, st⟩
  rw [hr] at h
  simp only at h
  subst h
  simp [runTimerCycles, hr]

theorem runTimerCycles_single (app : App) (v : PollVars) (i : CycleInput) :
    runTimerCycles app v [i] = pollTimerFires app v i := by
  rcases hr : pollTimerFires app v i with ⟨a, w, st⟩
  cases st <;> simp [runTimerCycles, hr]

theorem runTimerCycles_append (js ks : List CycleInput) :
    ∀ (app : App) (v : PollVars), (runTimerCycles app v js).2.2 = .done →
      runTimerCycles app v (js ++ ks) =
        runTimerCycles (runTimerCycles app v js).1 (runTimerCycles app v js).2.1 ks := by
  induction js with
  | nil => intro app v _; rfl
  | cons j js ih =>
    intro app v h
    rcases hr : pollTimerFires app v j with ⟨a, w, st⟩
    cases st with
    | done =>
      have hd : (pollTimerFires app v j).2.2 = .done := by rw [hr]
      rw [runTimerCycles_cons_done app v j js hd] at h ⊢
      rw [List.cons_append, runTimerCycles_cons_done app v j (js ++ ks) hd]
      exact ih _ _ h
    | awaitStatus => simp [runTimerCycles, hr] at h
    | awaitHealth => simp [runTimerCycles, hr] at h
    | awaitResult => simp [runTimerCycles, hr] at h
    | raised m => simp [runTimerCycles, hr] at h

/-- A run of failing cycles that stays below the error budget: every cycle
schedules a retry and none calls the health method. -/
theorem runTimerCycles_failed_below (tc : Bool) (is : List CycleInput) :
    ∀ (app : App) (v : PollVars),
      pollPending app = true → (∀ j ∈ is, failedPoll v.pollStartTime tc j = true) →
      v.consecutiveErrors + is.length < (if tc then 45 else 30) →
      (runTimerCycles app v is).2.2 = .done
        ∧ (runTimerCycles app v is).2.1
            = { v with consecutiveErrors := v.consecutiveErrors + is.length }
        ∧ pollPending (runTimerCycles app v is).1 = true
        ∧ callCount (runTimerCycles app v is).1 "checkHealth" = callCount app "checkHealth" := by
  induction is with
  | nil => intro app v hp _ _; exact ⟨rfl, rfl, hp, rfl⟩
  | cons i rest ih =>
    intro app v hp hall hb
    simp only [List.length_cons] at hb
    obtain ⟨h1, h2, h3, h5⟩ := pollTimerFires_failed_below app v tc i hp
      (hall i (List.mem_cons_self _ _)) (by omega)
    rw [runTimerCycles_cons_done app v i rest h1]
    have hstart : (pollTimerFires app v i).2.1.pollStartTime = v.pollStartTime := by rw [h2]
    have hce : (pollTimerFires app v i).2.1.consecutiveErrors = v.consecutiveErrors + 1 := by
      rw [h2]
    obtain ⟨g1, g2, g3, g5⟩ := ih (pollTimerFires app v i).1 (pollTimerFires app v i).2.1
      h3
      (by intro j hj; rw [hstart]; exact hall j (List.mem_cons_of_mem _ hj))
      (by rw [hce]; omega)
    refine ⟨g1, ?_, g3, by rw [g5, h5]⟩
    rw [g2, h2]
    simp only [List.length_cons, PollVars.mk.injEq, true_and, and_true]
    omega


theorem pollCycle_failed_below (app : App) (v : PollVars) (tc : Bool) (i : CycleInput)
    (hf : failedPoll v.pollStartTime tc i = true)
    (hb : v.consecutiveErrors + 1 < if tc then 45 else 30) :
    (pollCycle app v i).2.2 = .done
      ∧ (pollCycle app v i).2.1 = { v with consecutiveErrors := v.consecutiveErrors + 1 }
      ∧ pollPending (pollCycle app v i).1 = true
      ∧ callCount (pollCycle app v i).1 "checkHealth" = callCount app "checkHealth" := by
  obtain ⟨m, hs, hn, ht, hnow⟩ := failedPoll_spec _ _ _ hf
  have hbud : v.consecutiveErrors + 1 < effectiveMaxErrors m := by
    rw [effectiveMaxErrors_of_class m tc ht]; exact hb
  unfold pollCycle
  rw [pollBegin_within _ _ _ hnow]
  simp only [recordCall, hs]
  rw [pollAfterStatus_failed_below _ _ _ hn hbud]
  refine ⟨rfl, rfl, schedulePoll_pollPending _ _, ?_⟩
  split_ifs <;> simp [callCount, schedulePoll, showNetworkWarning]

theorem runCycles_cons_done (app : App) (v : PollVars) (i : CycleInput) (rest : List CycleInput)
    (h : (pollCycle app v i).2.2 = .done) :
    runCycles app v (i :: rest) =
      runTimerCycles (pollCycle app v i).1 (pollCycle app v i).2.1 rest := by
  rcases hr : pollCycle app v i with ⟨a, w, st⟩
  rw [hr] at h
  simp only at h
  subst h
  simp [runCycles, hr]

/-- A run of failing cycles from a call of `poll` that stays below the error
budget: no cycle calls the health method, and a retry is pending at the end. -/
theorem runCycles_failed_below (tc : Bool) (app : App) (v : PollVars) (is : List CycleInput)
    (hall : ∀ j ∈ is, failedPoll v.pollStartTime tc j = true)
    (hb : v.consecutiveErrors + is.length < (if tc then 45 else 30)) :
    (runCycles app v is).2.2 = .done
      ∧ (runCycles app v is).2.1 = { v with consecutiveErrors := v.consecutiveErrors + is.length }
      ∧ (is ≠ [] → pollPending (runCycles app v is).1 = true)
      ∧ callCount (runCycles app v is).1 "checkHealth" = callCount app "checkHealth" := by
  cases is with
  | nil => exact ⟨rfl, rfl, fun h => absurd rfl h, rfl⟩
  | cons i rest =>
    simp only [List.length_cons] at hb
    obtain ⟨h1, h2, h3, h5⟩ := pollCycle_failed_below app v tc i
      (hall i (List.mem_cons_self _ _)) (by omega)
    rw [runCycles_cons_done app v i rest h1]
    have hstart : (pollCycle app v i).2.1.pollStartTime = v.pollStartTime := by rw [h2]
    have hce : (pollCycle app v i).2.1.consecutiveErrors = v.consecutiveErrors + 1 := by rw [h2]
    obtain ⟨g1, g2, g3, g5⟩ := runTimerCycles_failed_below tc rest (pollCycle app v i).1
      (pollCycle app v i).2.1 h3
      (by intro j hj; rw [hstart]; exact hall j (List.mem_cons_of_mem _ hj))
      (by rw [hce]; omega)
    refine ⟨g1, ?_, fun _ => g3, by rw [g5, h5]⟩
    rw [g2, h2]
    simp only [List.length_cons, PollVars.mk.injEq, true_and, and_true]
    omega

theorem runCycles_append_single (app : App) (v : PollVars) (js : List CycleInput)
    (i : CycleInput) (hne : js ≠ []) (h : (runCycles app v js).2.2 = .done) :
    runCycles app v (js ++ [i]) =
      pollTimerFires (runCycles app v js).1 (runCycles app v js).2.1 i := by
  cases js with
  | nil => exact absurd rfl hne
  | cons j rest =>
    rcases hr : pollCycle app v j with ⟨a, w, st⟩
    cases st with
    | done =>
      have hd : (pollCycle app v j).2.2 = .done := by rw [hr]
      rw [runCycles_cons_done app v j rest hd] at h ⊢
      rw [List.cons_append, runCycles_cons_done app v j (rest ++ [i]) hd,
        runTimerCycles_append _ _ _ _ h, runTimerCycles_single]
    | awaitStatus => simp [runCycles, hr] at h
    | awaitHealth => simp [runCycles, hr] at h
    | awaitResult => simp [runCycles, hr] at h
    | raised m => simp [runCycles, hr] at h

/-- C3: from `consecutiveErrors = 0`, in a run of failed polls that all have the
same timeout classification (none job-not-found), the poll cycle makes its
health call `this.api.checkHealth()` in none of the cycles before the last of a
run of 30 plain failures (45 timeout-classified failures), and makes it once in
that last cycle. -/
theorem health_check_at_error_budget (app : App) (v : PollVars) (tc : Bool)
    (is : List CycleInput)
    (h0 : v.consecutiveErrors = 0)
    (hlen : is.length = if tc then 45 else 30)
    (hall : ∀ j ∈ is, failedPoll v.pollStartTime tc j = true) :
    (∀ k, k < is.length →
        callCount (runCycles app v (is.take k)).1 "checkHealth" = callCount app "checkHealth")
      ∧ callCount (runCycles app v is).1 "checkHealth" = callCount app "checkHealth" + 1 := by
  have below : ∀ k, k < is.length →
      (runCycles app v (is.take k)).2.2 = .done
        ∧ (runCycles app v (is.take k)).2.1 = { v with consecutiveErrors := k }
        ∧ (is.take k ≠ [] → pollPending (runCycles app v (is.take k)).1 = true)
        ∧ callCount (runCycles app v (is.take k)).1 "checkHealth"
            = callCount app "checkHealth" := by
    intro k hk
    have hlk : (is.take k).length = k := by
      rw [List.length_take]; omega
    have := runCycles_failed_below tc app v (is.take k)
      (fun j hj => hall j (List.mem_of_mem_take hj)) (by rw [hlk, h0, ← hlen]; omega)
    rw [hlk, h0, Nat.zero_add] at this
    exact this
  refine ⟨fun k hk => (below k hk).2.2.2, ?_⟩
  have hbig : 30 ≤ is.length := by rw [hlen]; split_ifs <;> omega
  have hpos : 0 < is.length := by omega
  obtain ⟨g1, g2, g3, g5⟩ := below (is.length - 1) (by omega)
  have hne : is.take (is.length - 1) ≠ [] := by
    intro hnil
    have := congrArg List.length hnil
    rw [List.length_take] at this
    simp only [List.length_nil] at this
    omega
  have hsplit : is = is.take (is.length - 1) ++ [is.getLast (List.ne_nil_of_length_pos hpos)] := by
    rw [← List.dropLast_eq_take]
    exact (List.dropLast_append_getLast _).symm
  have hlast := hall _ (List.getLast_mem (List.ne_nil_of_length_pos hpos))
  conv_lhs => rw [hsplit]
  rw [runCycles_append_single _ _ _ _ hne g1]
  rw [pollTimerFires_failed_at_budget _ _ tc _ (g3 hne)
    (by rw [g2]; exact hlast) (by rw [g2]; simp only; rw [← hlen]; omega), g5]

/-- Thirty plain failures (HTTP 500) from the start of polling: the health call
is made in the thirtieth cycle only. -/
theorem health_check_at_error_budget_witness :
    (∀ k, k < (List.replicate 30
          (failedPollInput 1000 "상태 조회 실패: 500" (.error ""))).length →
        callCount (runCycles App.started ⟨0, 0, 0, 2000⟩
          ((List.replicate 30
            (failedPollInput 1000 "상태 조회 실패: 500" (.error ""))).take k)).1 "checkHealth"
          = callCount App.started "checkHealth")
      ∧ callCount (runCycles App.started ⟨0, 0, 0, 2000⟩
          (List.replicate 30
            (failedPollInput 1000 "상태 조회 실패: 500" (.error "")))).1 "checkHealth"
        = callCount App.started "checkHealth" + 1 :=
  health_check_at_error_budget App.started ⟨0, 0, 0, 2000⟩ false
    (List.replicate 30 (failedPollInput 1000 "상태 조회 실패: 500" (.error "")))
    rfl (by simp)
    (by
      intro j hj
      rw [List.eq_of_mem_replicate hj]
      decide)

/-! ### Stopping the timers -/


theorem stopStatusPolling_timers (app : App) :
    (stopStatusPolling app).loop.timers = app.loop.timers.filter (fun t => !ownTimer app t.id) := by
  unfold stopStatusPolling stopProgressLogUpdate stopProgressAutoUpdate ownTimer
  cases h1 : app.statusPollInterval <;> cases h2 : app.progressInterval <;>
    cases h3 : app.progressUpdateInterval <;>
    simp only [EventLoop.clear, List.filter_filter, h1, h2, h3] <;>
    (try simp) <;>
    (congr 1; funext t; rw [Bool.eq_iff_iff];
     simp only [Bool.and_eq_true, Bool.not_eq_true', bne_iff_ne, beq_eq_false_iff_ne, ne_eq];
     omega)

/-! ### Session timeout and job-not-found -/


/-- The terminal branches of `poll` stop the timers and report: the three handles
are `null`, the timers they named are gone from the loop, no timer is
registered, no call is made on `this.api`, and the error dialog shows the text. -/
theorem stop_and_report (app : App) (title message : String) :
    timersStopped
        (showError (updateButtonStates (hideNetworkWarning (stopStatusPolling app)))
          title message) = true
      ∧ (showError (updateButtonStates (hideNetworkWarning (stopStatusPolling app)))
          title message).loop.timers = app.loop.timers.filter (fun t => !ownTimer app t.id)
      ∧ (showError (updateButtonStates (hideNetworkWarning (stopStatusPolling app)))
          title message).loop.lastId = app.loop.lastId
      ∧ (showError (updateButtonStates (hideNetworkWarning (stopStatusPolling app)))
          title message).apiCalls = app.apiCalls
      ∧ (showError (updateButtonStates (hideNetworkWarning (stopStatusPolling app)))
          title message).dom.errorTitle = title
      ∧ (showError (updateButtonStates (hideNetworkWarning (stopStatusPolling app)))
          title message).dom.errorModalHidden = false := by
  obtain ⟨h1, _, h4, h5, h6, h7⟩ := stopStatusPolling_frame app
  refine ⟨?_, ?_, ?_, ?_, rfl, rfl⟩
  · simp [timersStopped, showError, updateButtonStates, hideNetworkWarning, h4, h5, h6]
  · simp only [showError, updateButtonStates, hideNetworkWarning]
    exact stopStatusPolling_timers app
  · simp only [showError, updateButtonStates, hideNetworkWarning]
    exact h7
  · simp only [showError, updateButtonStates, hideNetworkWarning]
    exact h1

/-- C8: a poll cycle that begins more than 2,400,000 ms after polling started
makes no status call, stops the three timers, registers none and shows the
timeout dialog, whatever the counters are; a cycle that begins at or before the
limit makes exactly one status call and touches no timer. -/
theorem pollBegin_session_timeout (app : App) (v : PollVars) (now : Int) :
    (now - v.pollStartTime > 2400000 →
        (pollBegin app v now).1.apiCalls = app.apiCalls
          ∧ timersStopped (pollBegin app v now).1 = true
          ∧ (pollBegin app v now).1.loop.timers
              = app.loop.timers.filter (fun t => !ownTimer app t.id)
          ∧ (pollBegin app v now).1.loop.lastId = app.loop.lastId
          ∧ (pollBegin app v now).1.dom.errorTitle = "분석 시간 초과"
          ∧ (pollBegin app v now).1.dom.errorModalHidden = false
          ∧ (pollBegin app v now).2.2 = .done)
      ∧ (now - v.pollStartTime ≤ 2400000 →
        (pollBegin app v now).1.apiCalls = app.apiCalls ++ ["getAnalysisStatus"]
          ∧ (pollBegin app v now).1.loop = app.loop
          ∧ (pollBegin app v now).2.2 = .awaitStatus) := by
  constructor
  · intro h
    have h2 : now - v.pollStartTime > MAX_POLL_DURATION_MS := by
      unfold MAX_POLL_DURATION_MS; omega
    unfold pollBegin
    rw [if_pos h2]
    obtain ⟨g1, g2, g3, g4, g5, g6⟩ := stop_and_report app "분석 시간 초과"
      "서버 응답 대기 시간이 초과되었습니다. 페이지를 새로고침한 후 다시 시도해주세요."
    exact ⟨g4, g1, g2, g3, g5, g6, rfl⟩
  · intro h
    have h2 : now - v.pollStartTime ≤ MAX_POLL_DURATION_MS := by
      unfold MAX_POLL_DURATION_MS; omega
    rw [pollBegin_within app v now h2]
    exact ⟨rfl, rfl, rfl⟩

/-- A cycle begun one millisecond after the limit, after polls that all succeeded
(counters 0), and a cycle begun exactly at the limit. -/
theorem pollBegin_session_timeout_witness :
    ((2400001 : Int) - 0 > 2400000 ∧ (2400000 : Int) - 0 ≤ 2400000)
      ∧ (pollBegin App.polling ⟨0, 0, 0, 2000⟩ 2400001).1.apiCalls = App.polling.apiCalls
      ∧ timersStopped (pollBegin App.polling ⟨0, 0, 0, 2000⟩ 2400001).1 = true
      ∧ (pollBegin App.polling ⟨0, 0, 0, 2000⟩ 2400001).2.2 = .done
      ∧ (pollBegin App.polling ⟨0, 0, 0, 2000⟩ 2400000).1.apiCalls
          = App.polling.apiCalls ++ ["getAnalysisStatus"]
      ∧ (pollBegin App.polling ⟨0, 0, 0, 2000⟩ 2400000).2.2 = .awaitStatus :=
  ⟨by decide,
    ((pollBegin_session_timeout App.polling ⟨0, 0, 0, 2000⟩ 2400001).1 (by decide)).1,
    ((pollBegin_session_timeout App.polling ⟨0, 0, 0, 2000⟩ 2400001).1 (by decide)).2.1,
    ((pollBegin_session_timeout App.polling ⟨0, 0, 0, 2000⟩ 2400001).1 (by decide)).2.2.2.2.2.2,
    ((pollBegin_session_timeout App.polling ⟨0, 0, 0, 2000⟩ 2400000).2 (by decide)).1,
    ((pollBegin_session_timeout App.polling ⟨0, 0, 0, 2000⟩ 2400000).2 (by decide)).2.2⟩

/-- C9: on the application as built, a status request answered with HTTP 404
makes `getAnalysisStatus` throw the job-unknown error, and from any poll state
the poll cycle then ends the session at once: the counters are left as they
were, no call is made on `this.api`, the three timers are stopped, none is
registered, and the data-lost dialog is shown. -/
theorem job_not_found_terminates (app : App) (v : PollVars) (now : Int)
    (body : Except String StatusBody) (health : Except String Bool)
    (result : Except String AnalysisResult) :
    (builtCycleInput now (.response 404 body) health result).status = .error jobNotFoundMessage
      ∧ isJobNotFound jobNotFoundMessage = true
      ∧ (pollAfterStatus app v
          (builtCycleInput now (.response 404 body) health result).status).2.1 = v
      ∧ (pollAfterStatus app v
          (builtCycleInput now (.response 404 body) health result).status).1.apiCalls
          = app.apiCalls
      ∧ timersStopped (pollAfterStatus app v
          (builtCycleInput now (.response 404 body) health result).status).1 = true
      ∧ (pollAfterStatus app v
          (builtCycleInput now (.response 404 body) health result).status).1.loop.timers
          = app.loop.timers.filter (fun t => !ownTimer app t.id)
      ∧ (pollAfterStatus app v
          (builtCycleInput now (.response 404 body) health result).status).1.loop.lastId
          = app.loop.lastId
      ∧ (pollAfterStatus app v
          (builtCycleInput now (.response 404 body) health result).status).1.dom.errorTitle
          = "분석 데이터 유실"
      ∧ (pollAfterStatus app v
          (builtCycleInput now (.response 404 body) health result).status).1.dom.errorModalHidden
          = false
      ∧ (pollAfterStatus app v
          (builtCycleInput now (.response 404 body) health result).status).2.2 = .done := by
  have hg : APIClient.defines "getAnalysisStatus" = true := by decide
  have h404 : (builtCycleInput now (.response 404 body) health result).status
      = .error jobNotFoundMessage := by
    simp [builtCycleInput, awaitCall, hg, APIClient.getAnalysisStatus, responseOk,
      jobNotFoundMessage]
  have hnf : isJobNotFound jobNotFoundMessage = true := by decide
  rw [h404]
  obtain ⟨g1, g2, g3, g4, g5, g6⟩ := stop_and_report app "분석 데이터 유실"
    "서버가 재시작되어 분석 데이터가 유실되었습니다. 다시 분석을 시작해주세요."
  have heq : pollAfterStatus app v (.error jobNotFoundMessage) =
      (showError (updateButtonStates (hideNetworkWarning (stopStatusPolling app)))
        "분석 데이터 유실"
        "서버가 재시작되어 분석 데이터가 유실되었습니다. 다시 분석을 시작해주세요.", v, .done) := by
    unfold pollAfterStatus
    simp only [hnf, if_true]
  rw [heq]
  exact ⟨rfl, hnf, rfl, g4, g1, g2, g3, g5, g6, rfl⟩

/-! ### The health check -/


/-- C4: `InhalerAnalysisApp` calls `checkHealth` on `this.api`, a name `APIClient`
does not define, so on the application as built the call raises whatever the
server would answer. A failed poll (not job-not-found) that reaches the error
budget makes that call once; the error leaves `poll`: neither branch of the
health check runs, the counter stays at the budget, no timer is registered and
none is cleared. -/
theorem checkHealth_missing_on_APIClient (app : App) (v : PollVars) (now : Int)
    (statusFetch : FetchOutcome StatusBody) (health : Except String Bool)
    (result : Except String AnalysisResult) (m : String)
    (hnow : now - v.pollStartTime ≤ MAX_POLL_DURATION_MS)
    (hs : APIClient.getAnalysisStatus statusFetch = .error m)
    (hn : isJobNotFound m = false)
    (hb : effectiveMaxErrors m ≤ v.consecutiveErrors + 1) :
    "checkHealth" ∈ appApiCallSites
      ∧ APIClient.defines "checkHealth" = false
      ∧ (builtCycleInput now statusFetch health result).health
          = .error "this.api.checkHealth is not a function"
      ∧ (pollCycle app v (builtCycleInput now statusFetch health result)).1.apiCalls
          = app.apiCalls ++ ["getAnalysisStatus", "checkHealth"]
      ∧ (pollCycle app v (builtCycleInput now statusFetch health result)).2.2
          = .raised "this.api.checkHealth is not a function"
      ∧ (pollCycle app v (builtCycleInput now statusFetch health result)).1.loop = app.loop
      ∧ (pollCycle app v
          (builtCycleInput now statusFetch health result)).2.1.consecutiveErrors
          = v.consecutiveErrors + 1 := by
  have hd : APIClient.defines "checkHealth" = false := by decide
  have hg : APIClient.defines "getAnalysisStatus" = true := by decide
  have hh : (builtCycleInput now statusFetch health result).health
      = .error "this.api.checkHealth is not a function" := by
    simp only [builtCycleInput, awaitCall, hd, Bool.false_eq_true, if_false]
    rfl
  have hst : (builtCycleInput now statusFetch health result).status = .error m := by
    simp only [builtCycleInput, awaitCall, hg, if_true, hs]
  have hcyc : pollCycle app v (builtCycleInput now statusFetch health result)
      = ((pollAfterStatus (recordCall app "getAnalysisStatus") v (.error m)).1,
          (pollAfterStatus (recordCall app "getAnalysisStatus") v (.error m)).2.1,
          .raised "this.api.checkHealth is not a function") := by
    have hnw : (builtCycleInput now statusFetch health result).now = now := rfl
    unfold pollCycle
    rw [hnw, pollBegin_within _ _ _ hnow]
    simp only [hh, hst]
    unfold pollAfterStatus
    simp only [hn, Bool.false_eq_true, if_false, ge_iff_le, hb, if_true]
  refine ⟨by decide, hd, hh, ?_, ?_, ?_, ?_⟩ <;> rw [hcyc]
  all_goals
    unfold pollAfterStatus
    simp only [hn, Bool.false_eq_true, if_false, ge_iff_le, hb, if_true, recordCall]
    try (split_ifs <;> simp [showNetworkWarning])

/-- The thirtieth plain failure (HTTP 500) of a session, the server being up: a
health request would have been answered. -/
theorem checkHealth_missing_on_APIClient_witness :
    "checkHealth" ∈ appApiCallSites
      ∧ APIClient.defines "checkHealth" = false
      ∧ (builtCycleInput 1000 (.response 500 (.error "")) (.ok true) (.error "")).health
          = .error "this.api.checkHealth is not a function"
      ∧ (pollCycle App.started ⟨0, 29, 0, 2000⟩
          (builtCycleInput 1000 (.response 500 (.error "")) (.ok true) (.error ""))).1.apiCalls
          = App.started.apiCalls ++ ["getAnalysisStatus", "checkHealth"]
      ∧ (pollCycle App.started ⟨0, 29, 0, 2000⟩
          (builtCycleInput 1000 (.response 500 (.error "")) (.ok true) (.error ""))).2.2
          = .raised "this.api.checkHealth is not a function"
      ∧ (pollCycle App.started ⟨0, 29, 0, 2000⟩
          (builtCycleInput 1000 (.response 500 (.error "")) (.ok true) (.error ""))).1.loop
          = App.started.loop
      ∧ (pollCycle App.started ⟨0, 29, 0, 2000⟩
          (builtCycleInput 1000 (.response 500 (.error "")) (.ok true)
            (.error ""))).2.1.consecutiveErrors = 29 + 1 :=
  checkHealth_missing_on_APIClient App.started ⟨0, 29, 0, 2000⟩ 1000
    (.response 500 (.error "")) (.ok true) (.error "") "상태 조회 실패: 500"
    (by decide) (by rfl) (by decide) (by decide)

/-- The branch of `poll` for a truthy value of the awaited health call, as it is
written (app.js 399-405): it sets `consecutiveErrors` and `healthCheckFailCount`
to 0 and `currentPollInterval` to 5000, registers exactly one timer, a one-shot
call of `poll` after 5000 ms, keeps its handle, and returns. The application as
built does not reach this branch: the call raises. -/
theorem pollAfterHealth_alive_recovers (app : App) (v : PollVars) :
    (pollAfterHealth app v true).2.1.consecutiveErrors = 0
      ∧ (pollAfterHealth app v true).2.1.healthCheckFailCount = 0
      ∧ (pollAfterHealth app v true).2.1.currentPollInterval = 5000
      ∧ (pollAfterHealth app v true).1.loop.timers
          = app.loop.timers ++ [⟨app.loop.lastId + 1, .poll, 5000, false⟩]
      ∧ (pollAfterHealth app v true).1.statusPollInterval = some (app.loop.lastId + 1)
      ∧ (pollAfterHealth app v true).2.2 = .done :=
  ⟨rfl, rfl, rfl, rfl, rfl, rfl⟩

/-- The branch of `poll` for a falsy value of the awaited health call that
leaves `healthCheckFailCount` below 3, as it is written (app.js 406-426): it
resets `consecutiveErrors` to 0, sets `currentPollInterval` to 5000 and registers
exactly one timer, a one-shot call of `poll` after `3000 * healthCheckFailCount`
ms (3000 for the first, 6000 for the second). The application as built does not
reach this branch: the call raises. -/
theorem pollAfterHealth_dead_backoff (app : App) (v : PollVars)
    (h : v.healthCheckFailCount + 1 < 3) :
    (pollAfterHealth app v false).2.1.healthCheckFailCount = v.healthCheckFailCount + 1
      ∧ (pollAfterHealth app v false).2.1.consecutiveErrors = 0
      ∧ (pollAfterHealth app v false).2.1.currentPollInterval = 5000
      ∧ (pollAfterHealth app v false).1.loop.timers
          = app.loop.timers
            ++ [⟨app.loop.lastId + 1, .poll, 3000 * (v.healthCheckFailCount + 1), false⟩]
      ∧ (pollAfterHealth app v false).1.statusPollInterval = some (app.loop.lastId + 1)
      ∧ (pollAfterHealth app v false).2.2 = .done
      ∧ (3000 * (v.healthCheckFailCount + 1) = 3000 ∨ 3000 * (v.healthCheckFailCount + 1) = 6000) := by
  have hlt : ¬ (v.healthCheckFailCount + 1 ≥ MAX_HEALTH_CHECK_FAILS) := by
    unfold MAX_HEALTH_CHECK_FAILS; omega
  have heq : pollAfterHealth app v false =
      (schedulePoll app (3000 * (v.healthCheckFailCount + 1)),
        { v with healthCheckFailCount := v.healthCheckFailCount + 1, consecutiveErrors := 0,
                 currentPollInterval := SLOW_POLL_INTERVAL }, .done) := by
    unfold pollAfterHealth
    simp only [Bool.false_eq_true, if_false, hlt]
  rw [heq]
  refine ⟨rfl, rfl, rfl, rfl, rfl, rfl, ?_⟩
  omega

theorem pollAfterHealth_dead_backoff_witness :
    (pollAfterHealth App.started ⟨0, 30, 1, 2000⟩ false).2.1.healthCheckFailCount = 1 + 1
      ∧ (pollAfterHealth App.started ⟨0, 30, 1, 2000⟩ false).2.1.consecutiveErrors = 0
      ∧ (pollAfterHealth App.started ⟨0, 30, 1, 2000⟩ false).2.1.currentPollInterval = 5000
      ∧ (pollAfterHealth App.started ⟨0, 30, 1, 2000⟩ false).1.loop.timers
          = App.started.loop.timers
            ++ [⟨App.started.loop.lastId + 1, .poll, 3000 * (1 + 1), false⟩]
      ∧ (pollAfterHealth App.started ⟨0, 30, 1, 2000⟩ false).1.statusPollInterval
          = some (App.started.loop.lastId + 1)
      ∧ (pollAfterHealth App.started ⟨0, 30, 1, 2000⟩ false).2.2 = .done
      ∧ (3000 * (1 + 1) = 3000 ∨ 3000 * (1 + 1) = 6000) :=
  pollAfterHealth_dead_backoff App.started ⟨0, 30, 1, 2000⟩ (by decide)

/-! ### Three dead health answers -/


theorem failedPollAny_class (start : Int) (i : CycleInput) (h : failedPollAny start i = true) :
    ∃ tc, failedPoll start tc i = true := by
  unfold failedPollAny at h
  rcases Bool.or_eq_true _ _ |>.mp h with h | h
  · exact ⟨false, h⟩
  · exact ⟨true, h⟩

theorem ownsTimers_fired (app : App) (id : Nat) (h : ownsTimers app = true) :
    ownsTimers { app with loop := app.loop.fired id } = true := by
  unfold ownsTimers at h ⊢
  simp only [EventLoop.fired, List.all_eq_true, List.mem_filter] at h ⊢
  intro t ht
  exact h t ht.1

/-- After the poll timer fired and a new one is registered, every timer is still
owned by its handle. -/
theorem ownsTimers_schedulePoll (app a : App) (id d : Nat) (h : ownsTimers app = true)
    (hid : app.statusPollInterval = some id) (hl : a.loop = app.loop.fired id)
    (hp : a.progressInterval = app.progressInterval)
    (hu : a.progressUpdateInterval = app.progressUpdateInterval) :
    ownsTimers (schedulePoll a d) = true := by
  unfold ownsTimers at h ⊢
  simp only [schedulePoll, EventLoop.add, hl, EventLoop.fired, List.all_append, List.all_eq_true,
    List.mem_filter, Bool.and_eq_true, List.all_cons, List.all_nil, Bool.and_true, hp, hu,
    Bool.not_false, beq_self_eq_true, and_true] at h ⊢
  intro t ht
  have := h t ht.1
  have hs := ht.2
  rw [hid] at this
  cases hc : t.callback <;> simp only [hc] at this ⊢
  · simp only [Bool.and_eq_true, Bool.not_eq_true', beq_iff_eq, Option.some.injEq] at this
    simp [this.1, this.2] at hs
  · exact this
  · exact this

theorem stopStatusPolling_timers_nil (a : App) (h : ownsTimers a = true) :
    (stopStatusPolling a).loop.timers = [] := by
  rw [stopStatusPolling_timers, List.filter_eq_nil_iff]
  intro t ht
  unfold ownsTimers at h
  have := (List.all_eq_true.mp h) t ht
  unfold ownTimer
  cases hc : t.callback <;> simp only [hc] at this <;> simp_all

/-- A failing cycle below the error budget keeps every timer owned. -/
theorem pollTimerFires_failed_below_owns (app : App) (v : PollVars) (tc : Bool) (i : CycleInput)
    (hp : pollPending app = true) (ho : ownsTimers app = true)
    (hf : failedPoll v.pollStartTime tc i = true)
    (hb : v.consecutiveErrors + 1 < if tc then 45 else 30) :
    ownsTimers (pollTimerFires app v i).1 = true := by
  obtain ⟨m, hs, hn, ht, hnow⟩ := failedPoll_spec _ _ _ hf
  obtain ⟨id, hid, hfire⟩ := pollTimerFires_pending app v i hp
  have hbud : v.consecutiveErrors + 1 < effectiveMaxErrors m := by
    rw [effectiveMaxErrors_of_class m tc ht]; exact hb
  rw [hfire]
  unfold pollCycle
  rw [pollBegin_within _ _ _ hnow]
  simp only [recordCall, hs]
  rw [pollAfterStatus_failed_below _ _ _ hn hbud]
  apply ownsTimers_schedulePoll app _ id _ ho hid <;> split_ifs <;> rfl

/-- A failing cycle that reaches the error budget continues with the value of
the awaited health call. -/
theorem pollTimerFires_failed_exhausted (app : App) (v : PollVars) (tc : Bool) (i : CycleInput)
    (alive : Bool) (hp : pollPending app = true)
    (hf : failedPoll v.pollStartTime tc i = true)
    (hb : (if tc then 45 else 30) ≤ v.consecutiveErrors + 1)
    (hh : i.health = .ok alive) :
    ∃ (a : App) (id : Nat), app.statusPollInterval = some id
      ∧ a.loop = app.loop.fired id
      ∧ a.statusPollInterval = app.statusPollInterval
      ∧ a.progressInterval = app.progressInterval
      ∧ a.progressUpdateInterval = app.progressUpdateInterval
      ∧ a.apiCalls = app.apiCalls ++ ["getAnalysisStatus", "checkHealth"]
      ∧ pollTimerFires app v i
          = pollAfterHealth a { v with consecutiveErrors := v.consecutiveErrors + 1 } alive := by
  obtain ⟨m, hs, hn, ht, hnow⟩ := failedPoll_spec _ _ _ hf
  obtain ⟨id, hid, hfire⟩ := pollTimerFires_pending app v i hp
  have hbud : effectiveMaxErrors m ≤ v.consecutiveErrors + 1 := by
    rw [effectiveMaxErrors_of_class m tc ht]; exact hb
  rw [hfire]
  unfold pollCycle
  rw [pollBegin_within _ _ _ hnow]
  simp only [recordCall, hs]
  unfold pollAfterStatus
  simp only [hn, Bool.false_eq_true, if_false, ge_iff_le, hbud, if_true, recordCall]
  by_cases hw : NETWORK_WARNING_THRESHOLD ≤ v.consecutiveErrors + 1
  · simp only [hw, if_true, showNetworkWarning, hh]
    refine ⟨_, id, hid, ?_, ?_, ?_, ?_, ?_, rfl⟩ <;> simp
  · simp only [hw, if_false, hh]
    refine ⟨_, id, hid, ?_, ?_, ?_, ?_, ?_, rfl⟩ <;> simp

theorem pollAfterHealth_dead_continue (a : App) (w : PollVars)
    (h : w.healthCheckFailCount + 1 < 3) :
    pollAfterHealth a w false =
      (schedulePoll a (3000 * (w.healthCheckFailCount + 1)),
        { w with healthCheckFailCount := w.healthCheckFailCount + 1, consecutiveErrors := 0,
                 currentPollInterval := SLOW_POLL_INTERVAL }, .done) := by
  have hlt : ¬ (w.healthCheckFailCount + 1 ≥ MAX_HEALTH_CHECK_FAILS) := by
    unfold MAX_HEALTH_CHECK_FAILS; omega
  unfold pollAfterHealth
  simp only [Bool.false_eq_true, if_false, hlt]

theorem pollAfterHealth_dead_final (a : App) (w : PollVars)
    (h : 3 ≤ w.healthCheckFailCount + 1) :
    pollAfterHealth a w false =
      (showError (updateButtonStates (hideNetworkWarning (stopStatusPolling a)))
        "서버 연결 오류"
        "서버와의 연결이 끊어졌습니다. 페이지를 새로고침한 후 다시 시도해주세요.",
        { w with healthCheckFailCount := w.healthCheckFailCount + 1 }, .done) := by
  have hge : w.healthCheckFailCount + 1 ≥ MAX_HEALTH_CHECK_FAILS := by
    unfold MAX_HEALTH_CHECK_FAILS; omega
  unfold pollAfterHealth
  simp only [Bool.false_eq_true, if_false, hge, if_true]

/-- Once the poll handle is `null`, a timer cycle is a no-op. -/
theorem runTimerCycles_stopped (is : List CycleInput) (app : App) (v : PollVars)
    (h : app.statusPollInterval = none) : runTimerCycles app v is = (app, v, .done) := by
  induction is with
  | nil => rfl
  | cons i rest ih =>
    have : pollTimerFires app v i = (app, v, .done) := by
      simp [pollTimerFires, h]
    simp [runTimerCycles, this, ih]

theorem ownsTimers_congr (a b : App) (hl : a.loop = b.loop)
    (hs : a.statusPollInterval = b.statusPollInterval)
    (hp : a.progressInterval = b.progressInterval)
    (hu : a.progressUpdateInterval = b.progressUpdateInterval) :
    ownsTimers a = ownsTimers b := by
  unfold ownsTimers
  rw [hl, hs, hp, hu]

theorem pollPending_of_stopped (a : App) (h : timersStopped a = true) : pollPending a = false := by
  unfold timersStopped at h
  simp only [Bool.and_eq_true, Option.isNone_iff_eq_none] at h
  simp [pollPending, h.1.1]

/-- Along a run of failing cycles in which every health call reports dead, the
counter `healthCheckFailCount` counts the health calls made; the session keeps
polling while the count is below 3 and is stopped with the server-unreachable
dialog when it reaches 3. -/
theorem runTimerCycles_dead_probes (is : List CycleInput) :
    ∀ (app : App) (v : PollVars),
      pollPending app = true → ownsTimers app = true → v.healthCheckFailCount < 3 →
      (∀ j ∈ is, failedPollAny v.pollStartTime j = true ∧ j.health = .ok false) →
      ∃ n, callCount (runTimerCycles app v is).1 "checkHealth"
            = callCount app "checkHealth" + n
        ∧ (runTimerCycles app v is).2.2 = .done
        ∧ ((v.healthCheckFailCount + n < 3
              ∧ pollPending (runTimerCycles app v is).1 = true
              ∧ (runTimerCycles app v is).2.1.healthCheckFailCount
                  = v.healthCheckFailCount + n)
            ∨ (v.healthCheckFailCount + n = 3
              ∧ timersStopped (runTimerCycles app v is).1 = true
              ∧ (runTimerCycles app v is).1.loop.timers = []
              ∧ pollPending (runTimerCycles app v is).1 = false
              ∧ (runTimerCycles app v is).1.dom.errorTitle = "서버 연결 오류"
              ∧ (runTimerCycles app v is).1.dom.errorModalHidden = false)) := by
  induction is with
  | nil =>
    intro app v hp _ hh _
    exact ⟨0, rfl, rfl, Or.inl ⟨by omega, hp, rfl⟩⟩
  | cons i rest ih =>
    intro app v hp ho hh hall
    obtain ⟨hfa, hdead⟩ := hall i (List.mem_cons_self _ _)
    obtain ⟨tc, hf⟩ := failedPollAny_class _ _ hfa
    have hrest : ∀ j ∈ rest, failedPollAny v.pollStartTime j = true ∧ j.health = .ok false :=
      fun j hj => hall j (List.mem_cons_of_mem _ hj)
    by_cases hb : v.consecutiveErrors + 1 < if tc then 45 else 30
    · -- below the budget: a retry is scheduled
      obtain ⟨h1, h2, h3, h5⟩ := pollTimerFires_failed_below app v tc i hp hf hb
      have h6 := pollTimerFires_failed_below_owns app v tc i hp ho hf hb
      rw [runTimerCycles_cons_done app v i rest h1]
      have hst : (pollTimerFires app v i).2.1.pollStartTime = v.pollStartTime := by rw [h2]
      have hhc : (pollTimerFires app v i).2.1.healthCheckFailCount = v.healthCheckFailCount := by
        rw [h2]
      obtain ⟨n, g1, g2, g3⟩ := ih (pollTimerFires app v i).1 (pollTimerFires app v i).2.1
        h3 h6 (by rw [hhc]; exact hh) (by rw [hst]; exact hrest)
      rw [hhc] at g3
      exact ⟨n, by rw [g1, h5], g2, g3⟩
    · -- the budget is reached: the health method is called and reports dead
      obtain ⟨a, id, hid, hl, hs, hpi, hui, hcalls, heq⟩ :=
        pollTimerFires_failed_exhausted app v tc i false hp hf (not_lt.mp hb) hdead
      have hcount : callCount a "checkHealth" = callCount app "checkHealth" + 1 := by
        simp [callCount, hcalls]
      have hoa : ownsTimers a = true := by
        rw [ownsTimers_congr a { app with loop := app.loop.fired id } hl hs hpi hui]
        exact ownsTimers_fired app id ho
      by_cases hc2 : v.healthCheckFailCount + 1 < 3
      · have hres := pollAfterHealth_dead_continue a
          { v with consecutiveErrors := v.consecutiveErrors + 1 } hc2
        rw [← heq] at hres
        have h1 : (pollTimerFires app v i).2.2 = .done := by rw [hres]
        rw [runTimerCycles_cons_done app v i rest h1]
        obtain ⟨n, g1, g2, g3⟩ := ih (pollTimerFires app v i).1 (pollTimerFires app v i).2.1
          (by rw [hres]; exact schedulePoll_pollPending _ _)
          (by rw [hres]; exact ownsTimers_schedulePoll app a id _ ho hid hl hpi hui)
          (by rw [hres]; exact hc2)
          (by rw [hres]; exact hrest)
        have hc1 : callCount (pollTimerFires app v i).1 "checkHealth"
            = callCount app "checkHealth" + 1 := by
          rw [hres]; exact hcount
        have hhc : (pollTimerFires app v i).2.1.healthCheckFailCount
            = v.healthCheckFailCount + 1 := by rw [hres]
        rw [hhc] at g3
        refine ⟨n + 1, by rw [g1, hc1]; omega, g2, ?_⟩
        rcases g3 with ⟨k1, k2, k3⟩ | ⟨k1, k2⟩
        · exact Or.inl ⟨by omega, k2, by rw [k3]; omega⟩
        · exact Or.inr ⟨by omega, k2⟩
      · have hres := pollAfterHealth_dead_final a
          { v with consecutiveErrors := v.consecutiveErrors + 1 } (not_lt.mp hc2)
        rw [← heq] at hres
        obtain ⟨r1, r2, r3, r4, r5, r6⟩ := stop_and_report a "서버 연결 오류"
          "서버와의 연결이 끊어졌습니다. 페이지를 새로고침한 후 다시 시도해주세요."
        have h1 : (pollTimerFires app v i).2.2 = .done := by rw [hres]
        have hnone : (pollTimerFires app v i).1.statusPollInterval = none := by
          rw [hres]
          have := r1
          unfold timersStopped at this
          simp only [Bool.and_eq_true, Option.isNone_iff_eq_none] at this
          exact this.1.1
        rw [runTimerCycles_cons_done app v i rest h1, runTimerCycles_stopped rest _ _ hnone, hres]
        refine ⟨1, by rw [← hcount]; simp only [callCount]; rw [r4], rfl, Or.inr
          ⟨by omega, r1, ?_, pollPending_of_stopped _ r1, r5, r6⟩⟩
        rw [r2, ← stopStatusPolling_timers]
        exact stopStatusPolling_timers_nil a hoa

/-! ### Reset -/


/-- C10: `resetAll` called while a status request is in flight stops the timers
and shows `0%`, but when the answer arrives (status running, progress 40) the
suspended `poll` resumes: it writes 40 and the stage to the reset page and
registers a new poll timer. -/
theorem resetAll_leaves_inflight_poll :
    (startStatusPolling App.started 0 0).2.2 = .awaitStatus
      ∧ (resetAll (startStatusPolling App.started 0 0).1).dom.progressFillWidth = JsNumber.ofNat 0
      ∧ (resetAll (startStatusPolling App.started 0 0).1).loop.timers = []
      ∧ timersStopped (resetAll (startStatusPolling App.started 0 0).1) = true
      ∧ (pollAfterStatus (resetAll (startStatusPolling App.started 0 0).1)
            (startStatusPolling App.started 0 0).2.1
            (.ok ⟨"running", JsNumber.ofNat 40, "분석 중", ""⟩)).1.dom.progressFillWidth
          = JsNumber.ofNat 40
      ∧ pollPending (pollAfterStatus (resetAll (startStatusPolling App.started 0 0).1)
            (startStatusPolling App.started 0 0).2.1
            (.ok ⟨"running", JsNumber.ofNat 40, "분석 중", ""⟩)).1 = true
      ∧ (pollAfterStatus (resetAll (startStatusPolling App.started 0 0).1)
            (startStatusPolling App.started 0 0).2.1
            (.ok ⟨"running", JsNumber.ofNat 40, "분석 중", ""⟩)).1.loop.timers
          = [⟨3, .poll, 2000, false⟩]
      ∧ (pollAfterStatus (resetAll (startStatusPolling App.started 0 0).1)
            (startStatusPolling App.started 0 0).2.1
            (.ok ⟨"running", JsNumber.ofNat 40, "분석 중", ""⟩)).1.dom.progressStage
          = "분석 중" := by
  decide

/-! ### The branches of a poll cycle -/

theorem stopProgressAutoUpdate_stopped (app : App) (h : app.progressInterval = none) :
    stopProgressAutoUpdate app = app := by
  unfold stopProgressAutoUpdate
  rw [h]

theorem stopProgressLogUpdate_stopped (app : App) (h : app.progressUpdateInterval = none) :
    stopProgressLogUpdate app = app := by
  unfold stopProgressLogUpdate
  rw [h]

theorem stopStatusPolling_stopped (app : App) (h : timersStopped app = true) :
    stopStatusPolling app = app := by
  unfold timersStopped at h
  simp only [Bool.and_eq_true, Option.isNone_iff_eq_none] at h
  unfold stopStatusPolling
  simp only [h.1.1]
  rw [stopProgressAutoUpdate_stopped app h.1.2, stopProgressLogUpdate_stopped app h.2]

theorem timersStopped_stopStatusPolling (app : App) :
    timersStopped (stopStatusPolling app) = true := by
  obtain ⟨_, _, h3, h4, h5, _⟩ := stopStatusPolling_frame app
  simp [timersStopped, h3, h4, h5]

/-- The success branch of `poll`: the page after the banner is hidden and the
progress merged. -/
theorem pollAfterStatus_ok_running (app : App) (v : PollVars) (status : StatusBody)
    (hc : status.status ≠ "completed") (he : status.status ≠ "error") :
    pollAfterStatus app v (.ok status) =
      (schedulePoll
        { hideNetworkWarning app with
          dom := updateProgressBar (hideNetworkWarning app).dom status.progress
            status.current_stage } NORMAL_POLL_INTERVAL,
        { v with consecutiveErrors := 0, healthCheckFailCount := 0,
                 currentPollInterval := NORMAL_POLL_INTERVAL }, .done) := by
  unfold pollAfterStatus
  simp only [hc, he, if_false]

theorem updateProgressBar_networkWarningHidden (dom : Dom) (p : JsNumber) (stage : String) :
    (updateProgressBar dom p stage).networkWarningHidden = dom.networkWarningHidden := by
  unfold updateProgressBar
  by_cases h1 : p.gtInt (parseIntOrZero (cssPercent dom.progressFillWidth)) = true
  · simp only [h1, if_true]
    split_ifs <;> rfl
  · simp only [h1, if_false]
    split_ifs <;> rfl

/-- C13: from every poll state, a successful status answer sets
`consecutiveErrors` and `healthCheckFailCount` to 0 and `currentPollInterval`
to 2000 and hides the network banner; when the status is neither `completed`
nor `error`, exactly one timer is registered, a one-shot call of `poll` after
2000 ms, whatever the interval was before. -/
theorem pollAfterStatus_success_resets (app : App) (v : PollVars) (status : StatusBody) :
    (pollAfterStatus app v (.ok status)).2.1.consecutiveErrors = 0
      ∧ (pollAfterStatus app v (.ok status)).2.1.healthCheckFailCount = 0
      ∧ (pollAfterStatus app v (.ok status)).2.1.currentPollInterval = 2000
      ∧ (pollAfterStatus app v (.ok status)).1.dom.networkWarningHidden = true
      ∧ (status.status ≠ "completed" → status.status ≠ "error" →
          (pollAfterStatus app v (.ok status)).1.loop.timers
              = app.loop.timers ++ [⟨app.loop.lastId + 1, .poll, 2000, false⟩]
            ∧ (pollAfterStatus app v (.ok status)).1.statusPollInterval
              = some (app.loop.lastId + 1)
            ∧ (pollAfterStatus app v (.ok status)).2.2 = .done) := by
  have hw : (updateProgressBar (hideNetworkWarning app).dom status.progress
      status.current_stage).networkWarningHidden = true := by
    rw [updateProgressBar_networkWarningHidden]; rfl
  by_cases hc : status.status = "completed"
  · have heq : pollAfterStatus app v (.ok status) =
        (loadAnalysisResultBegin (stopProgressLogUpdate (stopProgressAutoUpdate
          (stopStatusPolling { hideNetworkWarning app with
            dom := updateProgressBar (hideNetworkWarning app).dom status.progress
              status.current_stage }))),
          { v with consecutiveErrors := 0, healthCheckFailCount := 0,
                   currentPollInterval := NORMAL_POLL_INTERVAL }, .awaitResult) := by
      unfold pollAfterStatus
      simp only [hc, if_true]
    rw [heq]
    refine ⟨rfl, rfl, rfl, ?_, fun h => absurd hc h⟩
    simp only [loadAnalysisResultBegin, recordCall, (stopProgressLogUpdate_frame _).2.1,
      (stopProgressAutoUpdate_frame _).2.1, (stopStatusPolling_frame _).2.1]
    exact hw
  · by_cases he : status.status = "error"
    · have heq : (pollAfterStatus app v (.ok status)) =
          (showError (updateButtonStates (stopProgressLogUpdate (stopProgressAutoUpdate
            (stopStatusPolling { hideNetworkWarning app with
              dom := updateProgressBar (hideNetworkWarning app).dom status.progress
                status.current_stage })))) "분석 오류"
              (if status.error ≠ "" then status.error else "알 수 없는 오류가 발생했습니다."),
            { v with consecutiveErrors := 0, healthCheckFailCount := 0,
                     currentPollInterval := NORMAL_POLL_INTERVAL }, .done) := by
        unfold pollAfterStatus
        dsimp only
        rw [if_neg hc, if_pos he]
      rw [heq]
      refine ⟨rfl, rfl, rfl, ?_, fun _ h => absurd he h⟩
      simp only [showError, updateButtonStates, (stopProgressLogUpdate_frame _).2.1,
        (stopProgressAutoUpdate_frame _).2.1, (stopStatusPolling_frame _).2.1]
      exact hw
    · rw [pollAfterStatus_ok_running app v status hc he]
      exact ⟨rfl, rfl, rfl, hw, fun _ _ => ⟨rfl, rfl, rfl⟩⟩

/-- A running status at 40% met with the slow interval in force and the banner up. -/
theorem pollAfterStatus_success_resets_witness :
    (pollAfterStatus (showNetworkWarning App.started "x") ⟨0, 7, 1, 5000⟩
        (.ok ⟨"running", JsNumber.ofNat 40, "분석 중", ""⟩)).1.loop.timers
        = (showNetworkWarning App.started "x").loop.timers
          ++ [⟨(showNetworkWarning App.started "x").loop.lastId + 1, .poll, 2000, false⟩]
      ∧ (pollAfterStatus (showNetworkWarning App.started "x") ⟨0, 7, 1, 5000⟩
        (.ok ⟨"running", JsNumber.ofNat 40, "분석 중", ""⟩)).1.statusPollInterval
        = some ((showNetworkWarning App.started "x").loop.lastId + 1)
      ∧ (pollAfterStatus (showNetworkWarning App.started "x") ⟨0, 7, 1, 5000⟩
        (.ok ⟨"running", JsNumber.ofNat 40, "분석 중", ""⟩)).2.2 = .done :=
  (pollAfterStatus_success_resets (showNetworkWarning App.started "x") ⟨0, 7, 1, 5000⟩
    ⟨"running", JsNumber.ofNat 40, "분석 중", ""⟩).2.2.2.2 (by decide) (by decide)

/-- The three stop calls of the `completed` and `error` branches amount to
`stopStatusPolling`. -/
theorem stop_three (a : App) :
    stopProgressLogUpdate (stopProgressAutoUpdate (stopStatusPolling a)) = stopStatusPolling a := by
  obtain ⟨_, _, _, h4, h5, _⟩ := stopStatusPolling_frame a
  rw [stopProgressAutoUpdate_stopped _ h4, stopProgressLogUpdate_stopped _ h5]

theorem pollAfterStatus_completed (app : App) (v : PollVars) (status : StatusBody)
    (hc : status.status = "completed") :
    pollAfterStatus app v (.ok status) =
      (recordCall (stopStatusPolling { hideNetworkWarning app with
          dom := updateProgressBar (hideNetworkWarning app).dom status.progress
            status.current_stage }) "getAnalysisResult",
        { v with consecutiveErrors := 0, healthCheckFailCount := 0,
                 currentPollInterval := NORMAL_POLL_INTERVAL }, .awaitResult) := by
  unfold pollAfterStatus
  dsimp only
  rw [if_pos hc, stop_three]
  rfl

theorem pollAfterStatus_error (app : App) (v : PollVars) (status : StatusBody)
    (he : status.status = "error") :
    pollAfterStatus app v (.ok status) =
      (showError (updateButtonStates (stopStatusPolling { hideNetworkWarning app with
          dom := updateProgressBar (hideNetworkWarning app).dom status.progress
            status.current_stage })) "분석 오류"
          (if status.error ≠ "" then status.error else "알 수 없는 오류가 발생했습니다."),
        { v with consecutiveErrors := 0, healthCheckFailCount := 0,
                 currentPollInterval := NORMAL_POLL_INTERVAL }, .done) := by
  have hc : status.status ≠ "completed" := by rw [he]; decide
  unfold pollAfterStatus
  dsimp only
  rw [if_neg hc, if_pos he, stop_three]

theorem pollAfterStatus_jobNotFound (app : App) (v : PollVars) (m : String)
    (h : isJobNotFound m = true) :
    pollAfterStatus app v (.error m) =
      (showError (updateButtonStates (hideNetworkWarning (stopStatusPolling app)))
        "분석 데이터 유실"
        "서버가 재시작되어 분석 데이터가 유실되었습니다. 다시 분석을 시작해주세요.", v, .done) := by
  unfold pollAfterStatus
  simp only [h, if_true]

theorem loadAnalysisResultAfter_frame (a : App) (r : Except String AnalysisResult) :
    (loadAnalysisResultAfter a r).loop = a.loop
      ∧ (loadAnalysisResultAfter a r).statusPollInterval = a.statusPollInterval
      ∧ (loadAnalysisResultAfter a r).progressInterval = a.progressInterval
      ∧ (loadAnalysisResultAfter a r).progressUpdateInterval = a.progressUpdateInterval
      ∧ (loadAnalysisResultAfter a r).apiCalls = a.apiCalls := by
  cases r <;> exact ⟨rfl, rfl, rfl, rfl, rfl⟩

theorem pollPending_congr (a b : App) (hl : a.loop = b.loop)
    (hs : a.statusPollInterval = b.statusPollInterval) : pollPending a = pollPending b := by
  unfold pollPending
  rw [hl, hs]

theorem timersStopped_congr (a b : App) (hs : a.statusPollInterval = b.statusPollInterval)
    (hp : a.progressInterval = b.progressInterval)
    (hu : a.progressUpdateInterval = b.progressUpdateInterval) :
    timersStopped a = timersStopped b := by
  unfold timersStopped
  rw [hs, hp, hu]

/-- The state a terminal branch leaves, seen after any further page update. -/
theorem ended_after_stop (app a : App) (hs : a.statusPollInterval = none)
    (hp : a.progressInterval = none) (hu : a.progressUpdateInterval = none)
    (hl : a.loop.lastId = app.loop.lastId) :
    timersStopped a = true ∧ a.loop.lastId = app.loop.lastId ∧ pollPending a = false := by
  have ht : timersStopped a = true := by simp [timersStopped, hs, hp, hu]
  exact ⟨ht, hl, pollPending_of_stopped a ht⟩

/-- C14: every branch of `poll` that ends the session leaves the three timer
handles `null`, registers no timer and leaves no poll timer pending: the
session timeout, status `completed` (before and after the result is loaded),
status `error`, job not found, and the third dead health answer. -/
theorem terminal_branches_stop_timers (app : App) (v : PollVars) (now : Int)
    (status : StatusBody) (m : String) (r : Except String AnalysisResult) :
    (now - v.pollStartTime > MAX_POLL_DURATION_MS →
        timersStopped (pollBegin app v now).1 = true
          ∧ (pollBegin app v now).1.loop.lastId = app.loop.lastId
          ∧ pollPending (pollBegin app v now).1 = false
          ∧ (pollBegin app v now).2.2 = .done)
      ∧ (status.status = "completed" →
        timersStopped (pollAfterStatus app v (.ok status)).1 = true
          ∧ (pollAfterStatus app v (.ok status)).1.loop.lastId = app.loop.lastId
          ∧ pollPending (pollAfterStatus app v (.ok status)).1 = false
          ∧ (pollAfterStatus app v (.ok status)).2.2 = .awaitResult
          ∧ timersStopped (pollAfterResult (pollAfterStatus app v (.ok status)).1
              (pollAfterStatus app v (.ok status)).2.1 r).1 = true
          ∧ (pollAfterResult (pollAfterStatus app v (.ok status)).1
              (pollAfterStatus app v (.ok status)).2.1 r).1.loop.lastId = app.loop.lastId
          ∧ pollPending (pollAfterResult (pollAfterStatus app v (.ok status)).1
              (pollAfterStatus app v (.ok status)).2.1 r).1 = false
          ∧ (pollAfterResult (pollAfterStatus app v (.ok status)).1
              (pollAfterStatus app v (.ok status)).2.1 r).2.2 = .done)
      ∧ (status.status = "error" →
        timersStopped (pollAfterStatus app v (.ok status)).1 = true
          ∧ (pollAfterStatus app v (.ok status)).1.loop.lastId = app.loop.lastId
          ∧ pollPending (pollAfterStatus app v (.ok status)).1 = false
          ∧ (pollAfterStatus app v (.ok status)).2.2 = .done)
      ∧ (isJobNotFound m = true →
        timersStopped (pollAfterStatus app v (.error m)).1 = true
          ∧ (pollAfterStatus app v (.error m)).1.loop.lastId = app.loop.lastId
          ∧ pollPending (pollAfterStatus app v (.error m)).1 = false
          ∧ (pollAfterStatus app v (.error m)).2.2 = .done)
      ∧ (MAX_HEALTH_CHECK_FAILS ≤ v.healthCheckFailCount + 1 →
        timersStopped (pollAfterHealth app v false).1 = true
          ∧ (pollAfterHealth app v false).1.loop.lastId = app.loop.lastId
          ∧ pollPending (pollAfterHealth app v false).1 = false
          ∧ (pollAfterHealth app v false).2.2 = .done) := by
  refine ⟨?_, ?_, ?_, ?_, ?_⟩
  · intro h
    unfold pollBegin
    rw [if_pos h]
    obtain ⟨g1, _, g3, _, _, _⟩ := stop_and_report app "분석 시간 초과"
      "서버 응답 대기 시간이 초과되었습니다. 페이지를 새로고침한 후 다시 시도해주세요."
    exact ⟨g1, g3, pollPending_of_stopped _ g1, rfl⟩
  · intro h
    rw [pollAfterStatus_completed app v status h]
    obtain ⟨_, _, h3, h4, h5, h6⟩ := stopStatusPolling_frame { hideNetworkWarning app with
      dom := updateProgressBar (hideNetworkWarning app).dom status.progress status.current_stage }
    obtain ⟨e1, e2, e3⟩ := ended_after_stop app
      (recordCall (stopStatusPolling { hideNetworkWarning app with
        dom := updateProgressBar (hideNetworkWarning app).dom status.progress
          status.current_stage }) "getAnalysisResult") h3 h4 h5 h6
    obtain ⟨f1, f2, f3, f4, _⟩ := loadAnalysisResultAfter_frame
      (recordCall (stopStatusPolling { hideNetworkWarning app with
        dom := updateProgressBar (hideNetworkWarning app).dom status.progress
          status.current_stage }) "getAnalysisResult") r
    refine ⟨e1, e2, e3, rfl, ?_⟩
    have := ended_after_stop app (loadAnalysisResultAfter
      (recordCall (stopStatusPolling { hideNetworkWarning app with
        dom := updateProgressBar (hideNetworkWarning app).dom status.progress
          status.current_stage }) "getAnalysisResult") r)
      (by rw [f2]; exact h3) (by rw [f3]; exact h4) (by rw [f4]; exact h5)
      (by rw [f1]; exact h6)
    exact ⟨this.1, this.2.1, this.2.2, rfl⟩
  · intro h
    rw [pollAfterStatus_error app v status h]
    obtain ⟨_, _, h3, h4, h5, h6⟩ := stopStatusPolling_frame { hideNetworkWarning app with
      dom := updateProgressBar (hideNetworkWarning app).dom status.progress status.current_stage }
    obtain ⟨e1, e2, e3⟩ := ended_after_stop app
      (showError (updateButtonStates (stopStatusPolling { hideNetworkWarning app with
        dom := updateProgressBar (hideNetworkWarning app).dom status.progress
          status.current_stage })) "분석 오류"
        (if status.error ≠ "" then status.error else "알 수 없는 오류가 발생했습니다."))
      h3 h4 h5 h6
    exact ⟨e1, e2, e3, rfl⟩
  · intro h
    rw [pollAfterStatus_jobNotFound app v m h]
    obtain ⟨g1, _, g3, _, _, _⟩ := stop_and_report app "분석 데이터 유실"
      "서버가 재시작되어 분석 데이터가 유실되었습니다. 다시 분석을 시작해주세요."
    exact ⟨g1, g3, pollPending_of_stopped _ g1, rfl⟩
  · intro h
    rw [pollAfterHealth_dead_final app v (by unfold MAX_HEALTH_CHECK_FAILS at h; omega)]
    obtain ⟨g1, _, g3, _, _, _⟩ := stop_and_report app "서버 연결 오류"
      "서버와의 연결이 끊어졌습니다. 페이지를 새로고침한 후 다시 시도해주세요."
    exact ⟨g1, g3, pollPending_of_stopped _ g1, rfl⟩

/-- A cycle begun after the limit, and a job-not-found answer, in a running
session. -/
theorem terminal_branches_stop_timers_witness :
    (timersStopped (pollBegin App.polling ⟨0, 3, 1, 2000⟩ 2400001).1 = true
        ∧ (pollBegin App.polling ⟨0, 3, 1, 2000⟩ 2400001).1.loop.lastId
          = App.polling.loop.lastId
        ∧ pollPending (pollBegin App.polling ⟨0, 3, 1, 2000⟩ 2400001).1 = false
        ∧ (pollBegin App.polling ⟨0, 3, 1, 2000⟩ 2400001).2.2 = .done)
      ∧ (timersStopped (pollAfterStatus App.polling ⟨0, 3, 1, 2000⟩
            (.error jobNotFoundMessage)).1 = true
        ∧ (pollAfterStatus App.polling ⟨0, 3, 1, 2000⟩
            (.error jobNotFoundMessage)).1.loop.lastId = App.polling.loop.lastId
        ∧ pollPending (pollAfterStatus App.polling ⟨0, 3, 1, 2000⟩
            (.error jobNotFoundMessage)).1 = false
        ∧ (pollAfterStatus App.polling ⟨0, 3, 1, 2000⟩ (.error jobNotFoundMessage)).2.2
          = .done) :=
  ⟨(terminal_branches_stop_timers App.polling ⟨0, 3, 1, 2000⟩ 2400001
      ⟨"running", JsNumber.ofNat 1, "", ""⟩ jobNotFoundMessage (.error "")).1 (by decide),
    (terminal_branches_stop_timers App.polling ⟨0, 3, 1, 2000⟩ 2400001
      ⟨"running", JsNumber.ofNat 1, "", ""⟩ jobNotFoundMessage (.error "")).2.2.2.1
      (by decide)⟩

theorem stopStatusPolling_fields (a : App) :
    (stopStatusPolling a).analysisResult = a.analysisResult
      ∧ (stopStatusPolling a).selectedDevice = a.selectedDevice
      ∧ (stopStatusPolling a).videoId = a.videoId
      ∧ (stopStatusPolling a).analysisId = a.analysisId
      ∧ (stopStatusPolling a).analysisStartTime = a.analysisStartTime
      ∧ (stopStatusPolling a).uploadedFile = a.uploadedFile
      ∧ (stopStatusPolling a).llmModels = a.llmModels := by
  unfold stopStatusPolling stopProgressLogUpdate stopProgressAutoUpdate
  cases h1 : a.statusPollInterval <;> cases h2 : a.progressInterval <;>
    cases h3 : a.progressUpdateInterval <;> simp [h1, h2, h3]

/-- C16: when a poll returns status `completed`, the three timers are stopped and
`getAnalysisResult` is called once. If that call fails, the failure dialog is
shown with the message of the error (or the default text), `analysisResult` is
left as it was (unset, if it was unset), no call is added and no timer is
registered: nothing is polled or requested again. -/
theorem completed_requests_result_once (app : App) (v : PollVars) (status : StatusBody)
    (m : String) (h : status.status = "completed") :
    timersStopped (pollAfterStatus app v (.ok status)).1 = true
      ∧ (pollAfterStatus app v (.ok status)).1.loop.timers
          = app.loop.timers.filter (fun t => !ownTimer app t.id)
      ∧ (pollAfterStatus app v (.ok status)).1.loop.lastId = app.loop.lastId
      ∧ (pollAfterStatus app v (.ok status)).1.apiCalls
          = app.apiCalls ++ ["getAnalysisResult"]
      ∧ (pollAfterStatus app v (.ok status)).2.2 = .awaitResult
      ∧ (pollAfterResult (pollAfterStatus app v (.ok status)).1
          (pollAfterStatus app v (.ok status)).2.1 (.error m)).1.apiCalls
          = app.apiCalls ++ ["getAnalysisResult"]
      ∧ (pollAfterResult (pollAfterStatus app v (.ok status)).1
          (pollAfterStatus app v (.ok status)).2.1 (.error m)).1.analysisResult
          = app.analysisResult
      ∧ (pollAfterResult (pollAfterStatus app v (.ok status)).1
          (pollAfterStatus app v (.ok status)).2.1 (.error m)).1.loop
          = (pollAfterStatus app v (.ok status)).1.loop
      ∧ timersStopped (pollAfterResult (pollAfterStatus app v (.ok status)).1
          (pollAfterStatus app v (.ok status)).2.1 (.error m)).1 = true
      ∧ (pollAfterResult (pollAfterStatus app v (.ok status)).1
          (pollAfterStatus app v (.ok status)).2.1 (.error m)).1.dom.errorTitle
          = "결과 로드 실패"
      ∧ (pollAfterResult (pollAfterStatus app v (.ok status)).1
          (pollAfterStatus app v (.ok status)).2.1 (.error m)).1.dom.errorMessage
          = (if m ≠ "" then m else "분석 결과를 불러올 수 없습니다.")
      ∧ (pollAfterResult (pollAfterStatus app v (.ok status)).1
          (pollAfterStatus app v (.ok status)).2.1 (.error m)).1.dom.errorModalHidden = false
      ∧ (pollAfterResult (pollAfterStatus app v (.ok status)).1
          (pollAfterStatus app v (.ok status)).2.1 (.error m)).2.2 = .done := by
  rw [pollAfterStatus_completed app v status h]
  have hfr := stopStatusPolling_frame { hideNetworkWarning app with
    dom := updateProgressBar (hideNetworkWarning app).dom status.progress status.current_stage }
  have htm := stopStatusPolling_timers { hideNetworkWarning app with
    dom := updateProgressBar (hideNetworkWarning app).dom status.progress status.current_stage }
  have hst := timersStopped_stopStatusPolling { hideNetworkWarning app with
    dom := updateProgressBar (hideNetworkWarning app).dom status.progress status.current_stage }
  obtain ⟨h1, _, _, _, _, h6⟩ := hfr
  have hres : (stopStatusPolling { hideNetworkWarning app with
      dom := updateProgressBar (hideNetworkWarning app).dom status.progress
        status.current_stage }).analysisResult = app.analysisResult :=
    (stopStatusPolling_fields _).1
  refine ⟨hst, htm, h6, ?_, rfl, ?_, hres, rfl, hst, rfl, rfl, rfl, rfl⟩
  · simp only [recordCall]
    rw [h1]
    rfl
  · simp only [pollAfterResult, loadAnalysisResultAfter, showError, recordCall]
    rw [h1]
    rfl

/-- A session whose result request is answered with HTTP 500. -/
theorem completed_requests_result_once_witness :
    APIClient.getAnalysisResult (.response 500 (.error "")) = .error "분석 결과가 없습니다."
      ∧ (pollAfterStatus App.polling ⟨0, 0, 0, 2000⟩
          (.ok ⟨"completed", JsNumber.ofNat 100, "완료", ""⟩)).1.apiCalls
        = App.polling.apiCalls ++ ["getAnalysisResult"]
      ∧ (pollAfterResult
          (pollAfterStatus App.polling ⟨0, 0, 0, 2000⟩
            (.ok ⟨"completed", JsNumber.ofNat 100, "완료", ""⟩)).1
          (pollAfterStatus App.polling ⟨0, 0, 0, 2000⟩
            (.ok ⟨"completed", JsNumber.ofNat 100, "완료", ""⟩)).2.1
          (.error "분석 결과가 없습니다.")).1.analysisResult = App.polling.analysisResult
      ∧ (pollAfterResult
          (pollAfterStatus App.polling ⟨0, 0, 0, 2000⟩
            (.ok ⟨"completed", JsNumber.ofNat 100, "완료", ""⟩)).1
          (pollAfterStatus App.polling ⟨0, 0, 0, 2000⟩
            (.ok ⟨"completed", JsNumber.ofNat 100, "완료", ""⟩)).2.1
          (.error "분석 결과가 없습니다.")).1.apiCalls
        = App.polling.apiCalls ++ ["getAnalysisResult"] :=
  ⟨rfl,
    (completed_requests_result_once App.polling ⟨0, 0, 0, 2000⟩
      ⟨"completed", JsNumber.ofNat 100, "완료", ""⟩ "분석 결과가 없습니다." rfl).2.2.2.1,
    (completed_requests_result_once App.polling ⟨0, 0, 0, 2000⟩
      ⟨"completed", JsNumber.ofNat 100, "완료", ""⟩ "분석 결과가 없습니다." rfl).2.2.2.2.2.2.1,
    (completed_requests_result_once App.polling ⟨0, 0, 0, 2000⟩
      ⟨"completed", JsNumber.ofNat 100, "완료", ""⟩ "분석 결과가 없습니다." rfl).2.2.2.2.2.1⟩

/-! ### File validation -/

/-- C20: `validateFile` accepts a file exactly when its type is one of the four
video types and its size is at most 524,288,000 bytes; the limit itself is
accepted and one byte more is rejected. -/
theorem validateFile_iff (file : FileInfo) :
    (validateFile file = true ↔
        (file.type = "video/mp4" ∨ file.type = "video/quicktime"
          ∨ file.type = "video/x-msvideo" ∨ file.type = "video/x-matroska")
        ∧ file.size ≤ 524288000)
      ∧ maxSize = 524288000
      ∧ validateFile ⟨"clip.mp4", "video/mp4", 524288000⟩ = true
      ∧ validateFile ⟨"clip.mp4", "video/mp4", 524288001⟩ = false := by
  refine ⟨?_, by decide, by decide, by decide⟩
  unfold validateFile validTypes maxSize
  simp only [List.contains_eq_any_beq, List.any_cons, List.any_nil, Bool.or_false,
    Bool.not_eq_true', gt_iff_lt]
  by_cases h1 : file.type = "video/mp4" <;> by_cases h2 : file.type = "video/quicktime" <;>
    by_cases h3 : file.type = "video/x-msvideo" <;>
    by_cases h4 : file.type = "video/x-matroska" <;>
    by_cases h5 : file.size ≤ 524288000 <;>
    simp [h1, h2, h3, h4, h5]

/-! ### Start and reset -/

/-- C12: `startAnalysis` called with the device or the video handle absent shows
the precondition dialog and returns: no call is made on `this.api`, the event
loop and the timer handles, `analysisId`, `analysisStartTime` and the progress
bar are as they were; only the three fields of the error dialog change. -/
theorem startAnalysis_precondition (app : App) (now : Int) (startTimeStr : String)
    (h : truthy app.selectedDevice = false ∨ truthy app.videoId = false) :
    startAnalysisBegin app now startTimeStr
        = (showError app "오류" "기기와 파일을 먼저 선택해주세요.", false)
      ∧ (startAnalysisBegin app now startTimeStr).1
        = { app with dom := { app.dom with
            errorTitle := "오류", errorMessage := "기기와 파일을 먼저 선택해주세요.",
            errorModalHidden := false } }
      ∧ (startAnalysisBegin app now startTimeStr).1.apiCalls = app.apiCalls
      ∧ (startAnalysisBegin app now startTimeStr).1.loop = app.loop
      ∧ (startAnalysisBegin app now startTimeStr).1.statusPollInterval = app.statusPollInterval
      ∧ (startAnalysisBegin app now startTimeStr).1.progressInterval = app.progressInterval
      ∧ (startAnalysisBegin app now startTimeStr).1.progressUpdateInterval
          = app.progressUpdateInterval
      ∧ (startAnalysisBegin app now startTimeStr).1.analysisId = app.analysisId
      ∧ (startAnalysisBegin app now startTimeStr).1.analysisStartTime = app.analysisStartTime
      ∧ (startAnalysisBegin app now startTimeStr).1.dom.progressFillWidth
          = app.dom.progressFillWidth
      ∧ (startAnalysisBegin app now startTimeStr).1.dom.progressPercentText
          = app.dom.progressPercentText
      ∧ (startAnalysisBegin app now startTimeStr).1.dom.progressStage
          = app.dom.progressStage := by
  have hr : startAnalysisReady app = false := by
    unfold startAnalysisReady
    rcases h with h | h <;> simp [h]
  have heq : startAnalysisBegin app now startTimeStr
      = (showError app "오류" "기기와 파일을 먼저 선택해주세요.", false) := by
    unfold startAnalysisBegin
    simp [hr]
  rw [heq]
  exact ⟨rfl, rfl, rfl, rfl, rfl, rfl, rfl, rfl, rfl, rfl, rfl, rfl⟩

/-- A page with a video uploaded and no device chosen. -/
theorem startAnalysis_precondition_witness :
    startAnalysisBegin { App.initial with videoId := some "v1" } 0 "12:00:00"
        = (showError { App.initial with videoId := some "v1" }
            "오류" "기기와 파일을 먼저 선택해주세요.", false)
      ∧ (startAnalysisBegin { App.initial with videoId := some "v1" } 0 "12:00:00").1.apiCalls
        = [] :=
  ⟨(startAnalysis_precondition { App.initial with videoId := some "v1" } 0 "12:00:00"
      (Or.inl rfl)).1,
    (startAnalysis_precondition { App.initial with videoId := some "v1" } 0 "12:00:00"
      (Or.inl rfl)).2.2.1⟩

theorem resetAll_timersStopped (app : App) : timersStopped (resetAll app) = true := by
  have := timersStopped_stopStatusPolling app
  unfold timersStopped at this ⊢
  simpa [resetAll, updateButtonStates, clearAnalysisLogs] using this

/-- On an application whose timers are stopped, `resetAll` only assigns fields. -/
theorem resetAll_of_stopped (a : App) (h : timersStopped a = true) :
    resetAll a =
      { a with
        selectedDevice := none, uploadedFile := none, videoId := none, analysisId := none,
        analysisResult := none, analysisStartTime := none,
        dom := { a.dom with
          fileInputValue := "", videoSnapshotSrc := "",
          uploadAreaHidden := false, analysisAreaHidden := true, resultAreaHidden := true,
          uploadPromptHidden := false,
          uploadedFileInfoHidden := true, fileInfoDisplayHidden := true,
          videoSnapshotDisplayHidden := true,
          progressFillWidth := JsNumber.ofNat 0, progressPercentText := JsNumber.ofNat 0,
          progressStage := "처리 중...", logs := [],
          deviceSelectBtnText := "1. 기기 선택 ▼", errorModalHidden := true,
          startBtnDisabled := true, saveBtnDisabled := true } } := by
  unfold resetAll
  rw [stopStatusPolling_stopped a h]
  rfl

/-- C15: from any state, `resetAll` leaves the three timer handles `null` and
`selectedDevice`, `uploadedFile`, `videoId`, `analysisId`, `analysisResult` and
`analysisStartTime` `null`; a call of `startAnalysis` that follows shows the
precondition dialog and returns; a second `resetAll` changes nothing. -/
theorem resetAll_clears_session (app : App) (now : Int) (startTimeStr : String) :
    (resetAll app).statusPollInterval = none
      ∧ (resetAll app).progressInterval = none
      ∧ (resetAll app).progressUpdateInterval = none
      ∧ (resetAll app).selectedDevice = none
      ∧ (resetAll app).uploadedFile = none
      ∧ (resetAll app).videoId = none
      ∧ (resetAll app).analysisId = none
      ∧ (resetAll app).analysisResult = none
      ∧ (resetAll app).analysisStartTime = none
      ∧ (resetAll app).loop.timers = app.loop.timers.filter (fun t => !ownTimer app t.id)
      ∧ startAnalysisBegin (resetAll app) now startTimeStr
          = (showError (resetAll app) "오류" "기기와 파일을 먼저 선택해주세요.", false)
      ∧ resetAll (resetAll app) = resetAll app := by
  have ht := resetAll_timersStopped app
  have ht2 := ht
  unfold timersStopped at ht2
  simp only [Bool.and_eq_true, Option.isNone_iff_eq_none] at ht2
  have hsel : (resetAll app).selectedDevice = none := rfl
  refine ⟨ht2.1.1, ht2.1.2, ht2.2, rfl, rfl, rfl, rfl, rfl, rfl, ?_, ?_, ?_⟩
  · simp only [resetAll, updateButtonStates, clearAnalysisLogs]
    exact stopStatusPolling_timers app
  · unfold startAnalysisBegin startAnalysisReady
    simp [hsel, truthy]
  · rw [resetAll_of_stopped (resetAll app) ht]
    unfold resetAll
    rfl

/-! ### The simulator counter -/

theorem progressTick_counter (d : Dom) (c : Nat) (h : c ≤ 95) :
    (progressTick d c).2 = min (c + 1) 95 := by
  unfold progressTick
  by_cases hc : c < 95
  · simp only [hc, if_true]; omega
  · simp only [hc, if_false]; omega

theorem tickCounter_append (doms : List Dom) (d : Dom) :
    tickCounter (doms ++ [d]) = (progressTick d (tickCounter doms)).2 := by
  simp [tickCounter, List.foldl_append]

theorem tickCounter_eq (doms : List Dom) : tickCounter doms = min doms.length 95 := by
  induction doms using List.reverseRecOn with
  | nil => rfl
  | append_singleton doms d ih =>
    rw [tickCounter_append, progressTick_counter d _ (by rw [ih]; omega), ih]
    simp only [List.length_append, List.length_singleton]
    omega

/-- C19: the simulator interval is registered with a period of 7000 ms. After it
ticked `n` times in a session, on whatever pages, its counter is `min n 95`. The
tick number `n + 1` with `n < 95` writes `n + 1` to the bar, one more than the
tick before it and at most 95; from tick 96 on a tick changes neither the page
nor the counter. -/
theorem progressTick_counter_min (app : App) (doms : List Dom) (d : Dom) :
    (startProgressAutoUpdate app).loop.timers
        = app.loop.timers ++ [⟨app.loop.lastId + 1, .progressTick, 7000, true⟩]
      ∧ (startProgressAutoUpdate app).progressInterval = some (app.loop.lastId + 1)
      ∧ tickCounter doms = min doms.length 95
      ∧ (doms.length < 95 →
          (progressTick d (tickCounter doms)).1.progressFillWidth
              = JsNumber.ofNat (doms.length + 1)
            ∧ (progressTick d (tickCounter doms)).1.progressPercentText
              = JsNumber.ofNat (doms.length + 1)
            ∧ doms.length + 1 ≤ 95)
      ∧ (95 ≤ doms.length → progressTick d (tickCounter doms) = (d, 95)) := by
  refine ⟨rfl, rfl, tickCounter_eq doms, ?_, ?_⟩
  · intro h
    have hc : tickCounter doms = doms.length := by rw [tickCounter_eq]; omega
    rw [hc]
    unfold progressTick
    simp only [h, if_true]
    refine ⟨?_, ?_, by omega⟩ <;> split_ifs <;> rfl
  · intro h
    have hc : tickCounter doms = 95 := by rw [tickCounter_eq]; omega
    rw [hc]
    rfl

/-- Ticks 95 and 96 of a session. -/
theorem progressTick_counter_min_witness :
    ((progressTick Dom.initial (tickCounter (List.replicate 94 Dom.initial))).1.progressFillWidth
        = JsNumber.ofNat ((List.replicate 94 Dom.initial).length + 1)
      ∧ (progressTick Dom.initial
          (tickCounter (List.replicate 94 Dom.initial))).1.progressPercentText
        = JsNumber.ofNat ((List.replicate 94 Dom.initial).length + 1)
      ∧ (List.replicate 94 Dom.initial).length + 1 ≤ 95)
      ∧ progressTick Dom.initial (tickCounter (List.replicate 95 Dom.initial))
        = (Dom.initial, 95) :=
  ⟨(progressTick_counter_min App.initial (List.replicate 94 Dom.initial) Dom.initial).2.2.2.1
      (by simp),
    (progressTick_counter_min App.initial (List.replicate 95 Dom.initial) Dom.initial).2.2.2.2
      (by simp)⟩

/-! ### The health method of the client -/

/-- C18 as stated fails: a response with status 200 whose body does not parse as
JSON makes `checkServerHealth` throw, as for a dead server. -/
theorem checkServerHealth_2xx_unparsable_fails :
    responseOk 200 = true
      ∧ APIClient.checkServerHealth
          (FetchOutcome.response 200 (Except.error "Unexpected token < in JSON" : Except String Unit))
        = .error "서버 연결 실패: Unexpected token < in JSON" := by
  exact ⟨by decide, rfl⟩

/-- C18 (amended): `checkServerHealth` returns the parsed body for every response
with a 2xx status whose body parses, and throws for every response with another
status, for every network failure, and for a 2xx response whose body does not
parse. -/
theorem checkServerHealth_alive_dead {α : Type} (status : Nat) (b : α) (body : Except String α)
    (m : String) :
    (200 ≤ status ∧ status ≤ 299 →
        APIClient.checkServerHealth (.response status (.ok b)) = .ok b)
      ∧ (200 ≤ status ∧ status ≤ 299 →
        APIClient.checkServerHealth (.response status (.error m : Except String α))
          = .error ("서버 연결 실패: " ++ m))
      ∧ (¬ (200 ≤ status ∧ status ≤ 299) →
        APIClient.checkServerHealth (.response status body)
          = .error ("서버 연결 실패: " ++ ("서버 응답 오류: " ++ toString status)))
      ∧ APIClient.checkServerHealth (.failed m : FetchOutcome α)
          = .error ("서버 연결 실패: " ++ m) := by
  refine ⟨?_, ?_, ?_, rfl⟩
  · intro h
    have : responseOk status = true := by simp [responseOk, h]
    simp [APIClient.checkServerHealth, this]
  · intro h
    have : responseOk status = true := by simp [responseOk, h]
    simp [APIClient.checkServerHealth, this]
  · intro h
    have : responseOk status = false := by
      simp only [responseOk, decide_eq_false_iff_not]; exact h
    simp [APIClient.checkServerHealth, this]

/-- Status 204 with a parsed body, and status 503. -/
theorem checkServerHealth_alive_dead_witness :
    APIClient.checkServerHealth (.response 204 (.ok "up")) = .ok "up"
      ∧ APIClient.checkServerHealth (.response 503 (.ok "busy"))
        = .error ("서버 연결 실패: " ++ ("서버 응답 오류: " ++ toString 503)) :=
  ⟨(checkServerHealth_alive_dead 204 "up" (.ok "up") "").1 (by decide),
    (checkServerHealth_alive_dead 503 "busy" (.ok "busy") "").2.2.1 (by decide)⟩

/-! ### The network banner -/

/-- A failed cycle (not job-not-found) whose counter stays below 30 schedules a
retry, whatever its timeout classification. -/
theorem pollCycle_failed_short (app : App) (v : PollVars) (i : CycleInput)
    (hf : failedPollAny v.pollStartTime i = true) (hb : v.consecutiveErrors + 1 < 30) :
    pollCycle app v i =
      (schedulePoll
        (if v.consecutiveErrors + 1 ≥ NETWORK_WARNING_THRESHOLD then
          showNetworkWarning (recordCall app "getAnalysisStatus")
            "네트워크 연결이 불안정합니다. 자동으로 재시도 중..."
        else recordCall app "getAnalysisStatus") v.currentPollInterval,
        { v with consecutiveErrors := v.consecutiveErrors + 1 }, .done) := by
  obtain ⟨tc, hfc⟩ := failedPollAny_class _ _ hf
  obtain ⟨m, hs, hn, ht, hnow⟩ := failedPoll_spec _ _ _ hfc
  have hbud : v.consecutiveErrors + 1 < effectiveMaxErrors m := by
    rw [effectiveMaxErrors_of_class m tc ht]
    split_ifs <;> omega
  unfold pollCycle
  rw [pollBegin_within _ _ _ hnow]
  simp only [hs]
  rw [pollAfterStatus_failed_below _ _ _ hn hbud]

/-- The banner after such a cycle: raised from the fifth consecutive failure on,
untouched before; the cycle ends with a retry registered. -/
theorem banner_after_failed_short (app : App) (v : PollVars) (i : CycleInput)
    (hf : failedPollAny v.pollStartTime i = true) (hb : v.consecutiveErrors + 1 < 30) :
    ((pollCycle app v i).1.dom.networkWarningHidden, (pollCycle app v i).1.dom.networkWarningText)
        = (if 5 ≤ v.consecutiveErrors + 1 then
            (false, "네트워크 연결이 불안정합니다. 자동으로 재시도 중...")
          else (app.dom.networkWarningHidden, app.dom.networkWarningText))
      ∧ (pollCycle app v i).2.2 = .done
      ∧ (pollCycle app v i).2.1 = { v with consecutiveErrors := v.consecutiveErrors + 1 }
      ∧ pollPending (pollCycle app v i).1 = true := by
  rw [pollCycle_failed_short app v i hf hb]
  refine ⟨?_, rfl, rfl, schedulePoll_pollPending _ _⟩
  unfold NETWORK_WARNING_THRESHOLD
  by_cases h : 5 ≤ v.consecutiveErrors + 1
  · simp only [ge_iff_le, h, if_true]; rfl
  · simp only [ge_iff_le, h, if_false]; rfl

theorem banner_after_timer_failed_short (app : App) (v : PollVars) (i : CycleInput)
    (hp : pollPending app = true)
    (hf : failedPollAny v.pollStartTime i = true) (hb : v.consecutiveErrors + 1 < 30) :
    ((pollTimerFires app v i).1.dom.networkWarningHidden,
        (pollTimerFires app v i).1.dom.networkWarningText)
        = (if 5 ≤ v.consecutiveErrors + 1 then
            (false, "네트워크 연결이 불안정합니다. 자동으로 재시도 중...")
          else (app.dom.networkWarningHidden, app.dom.networkWarningText))
      ∧ (pollTimerFires app v i).2.2 = .done
      ∧ (pollTimerFires app v i).2.1 = { v with consecutiveErrors := v.consecutiveErrors + 1 }
      ∧ pollPending (pollTimerFires app v i).1 = true := by
  obtain ⟨id, _, hfire⟩ := pollTimerFires_pending app v i hp
  rw [hfire]
  exact banner_after_failed_short _ v i hf hb

theorem banner_after_timer_run (is : List CycleInput) :
    ∀ (app : App) (v : PollVars), pollPending app = true →
      (∀ j ∈ is, failedPollAny v.pollStartTime j = true) →
      v.consecutiveErrors + is.length < 30 →
      ((runTimerCycles app v is).1.dom.networkWarningHidden,
          (runTimerCycles app v is).1.dom.networkWarningText)
          = (if 0 < is.length ∧ 5 ≤ v.consecutiveErrors + is.length then
              (false, "네트워크 연결이 불안정합니다. 자동으로 재시도 중...")
            else (app.dom.networkWarningHidden, app.dom.networkWarningText))
        ∧ (runTimerCycles app v is).2.2 = .done
        ∧ pollPending (runTimerCycles app v is).1 = true := by
  induction is with
  | nil => intro app v hp _ _; simp [runTimerCycles, hp]
  | cons i rest ih =>
    intro app v hp hall hb
    simp only [List.length_cons] at hb
    obtain ⟨h1, h2, h3, h4⟩ := banner_after_timer_failed_short app v i hp
      (hall i (List.mem_cons_self _ _)) (by omega)
    rw [runTimerCycles_cons_done app v i rest h2]
    have hst : (pollTimerFires app v i).2.1.pollStartTime = v.pollStartTime := by rw [h3]
    have hce : (pollTimerFires app v i).2.1.consecutiveErrors = v.consecutiveErrors + 1 := by
      rw [h3]
    obtain ⟨g1, g2, g3⟩ := ih (pollTimerFires app v i).1 (pollTimerFires app v i).2.1 h4
      (by intro j hj; rw [hst]; exact hall j (List.mem_cons_of_mem _ hj))
      (by rw [hce]; omega)
    refine ⟨?_, g2, g3⟩
    rw [g1, hce, h1]
    simp only [List.length_cons, Nat.zero_lt_succ, true_and]
    by_cases hr : rest = []
    · subst hr
      simp
    · by_cases h5 : 5 ≤ v.consecutiveErrors + 1
      · have : 5 ≤ v.consecutiveErrors + 1 + rest.length := by omega
        have h6 : 5 ≤ v.consecutiveErrors + (rest.length + 1) := by omega
        simp [hr, h5, this, h6]
      · by_cases h7 : 5 ≤ v.consecutiveErrors + 1 + rest.length
        · have h6 : 5 ≤ v.consecutiveErrors + (rest.length + 1) := by omega
          simp [hr, h7, h6]
        · have h6 : ¬ 5 ≤ v.consecutiveErrors + (rest.length + 1) := by omega
          simp [hr, h5, h7, h6]

/-- A successful status answer leaves the banner hidden and the failure counter
at zero, whatever its status field. -/
theorem pollAfterStatus_ok_banner (app : App) (v : PollVars) (status : StatusBody) :
    (pollAfterStatus app v (.ok status)).1.dom.networkWarningHidden = true
      ∧ (pollAfterStatus app v (.ok status)).2.1.consecutiveErrors = 0 := by
  have hw : (updateProgressBar (hideNetworkWarning app).dom status.progress
      status.current_stage).networkWarningHidden = true := by
    rw [updateProgressBar_networkWarningHidden]; rfl
  by_cases hc : status.status = "completed"
  · rw [pollAfterStatus_completed app v status hc]
    refine ⟨?_, rfl⟩
    simp only [recordCall, (stopStatusPolling_frame _).2.1]
    exact hw
  · by_cases he : status.status = "error"
    · rw [pollAfterStatus_error app v status he]
      refine ⟨?_, rfl⟩
      simp only [showError, updateButtonStates, (stopStatusPolling_frame _).2.1]
      exact hw
    · rw [pollAfterStatus_ok_running app v status hc he]
      exact ⟨hw, rfl⟩

/-- A failed status answer that is not job-not-found is followed by a retry timer
or by the health call. -/
theorem pollAfterStatus_failed_continues (app : App) (v : PollVars) (m : String)
    (hn : isJobNotFound m = false) :
    ((pollAfterStatus app v (.error m)).2.2 = .done
        ∧ pollPending (pollAfterStatus app v (.error m)).1 = true)
      ∨ ((pollAfterStatus app v (.error m)).2.2 = .awaitHealth
        ∧ (pollAfterStatus app v (.error m)).1.apiCalls = app.apiCalls ++ ["checkHealth"]) := by
  by_cases hb : v.consecutiveErrors + 1 < effectiveMaxErrors m
  · left
    rw [pollAfterStatus_failed_below app v m hn hb]
    exact ⟨rfl, schedulePoll_pollPending _ _⟩
  · right
    have heq : pollAfterStatus app v (.error m) =
        (recordCall
          (if v.consecutiveErrors + 1 ≥ NETWORK_WARNING_THRESHOLD then
            showNetworkWarning app "네트워크 연결이 불안정합니다. 자동으로 재시도 중..."
          else app) "checkHealth",
          { v with consecutiveErrors := v.consecutiveErrors + 1 }, .awaitHealth) := by
      unfold pollAfterStatus
      simp only [hn, Bool.false_eq_true, if_false, ge_iff_le, not_lt.mp hb, if_true]
    rw [heq]
    refine ⟨rfl, ?_⟩
    split_ifs <;> rfl

/-- C17: counting consecutive failed polls (none job-not-found) from a state
whose failure counter is zero, the network banner is left as it was by each of
the first four and is shown, with its fixed text, by the fifth; after the fifth
the cycle has ended with a retry timer pending; every failed answer that is not
job-not-found is followed by a retry or by the health call; showing the banner
twice is the same as showing it once, and a further failure leaves it shown
with the same text; a successful answer hides it and zeroes the counter. -/
theorem network_warning_at_fifth_failure (app : App) (v : PollVars) (is : List CycleInput)
    (hp : pollPending app = true) (h0 : v.consecutiveErrors = 0) (hlen : is.length = 5)
    (hall : ∀ j ∈ is, failedPollAny v.pollStartTime j = true) :
    (∀ k, k ≤ 4 →
        (runTimerCycles app v (is.take k)).1.dom.networkWarningHidden
            = app.dom.networkWarningHidden
          ∧ (runTimerCycles app v (is.take k)).1.dom.networkWarningText
            = app.dom.networkWarningText)
      ∧ (runTimerCycles app v is).1.dom.networkWarningHidden = false
      ∧ (runTimerCycles app v is).1.dom.networkWarningText
          = "네트워크 연결이 불안정합니다. 자동으로 재시도 중..."
      ∧ (runTimerCycles app v is).2.2 = .done
      ∧ pollPending (runTimerCycles app v is).1 = true
      ∧ (∀ (a : App) (w : PollVars) (m : String), isJobNotFound m = false →
          ((pollAfterStatus a w (.error m)).2.2 = .done
              ∧ pollPending (pollAfterStatus a w (.error m)).1 = true)
            ∨ ((pollAfterStatus a w (.error m)).2.2 = .awaitHealth
              ∧ (pollAfterStatus a w (.error m)).1.apiCalls = a.apiCalls ++ ["checkHealth"]))
      ∧ (∀ (a : App) (m : String),
          showNetworkWarning (showNetworkWarning a m) m = showNetworkWarning a m)
      ∧ (∀ j, failedPollAny v.pollStartTime j = true →
          (runTimerCycles app v (is ++ [j])).1.dom.networkWarningHidden = false
            ∧ (runTimerCycles app v (is ++ [j])).1.dom.networkWarningText
              = "네트워크 연결이 불안정합니다. 자동으로 재시도 중...")
      ∧ (∀ (a : App) (w : PollVars) (status : StatusBody),
          (pollAfterStatus a w (.ok status)).1.dom.networkWarningHidden = true
            ∧ (pollAfterStatus a w (.ok status)).2.1.consecutiveErrors = 0) := by
  refine ⟨?_, ?_, ?_, ?_, ?_, pollAfterStatus_failed_continues, fun _ _ => rfl, ?_,
    pollAfterStatus_ok_banner⟩
  · intro k hk
    have hlk : (is.take k).length = k := by
      rw [List.length_take, hlen]; omega
    obtain ⟨g1, _, _⟩ := banner_after_timer_run (is.take k) app v hp
      (fun j hj => hall j (List.mem_of_mem_take hj)) (by rw [hlk, h0]; omega)
    rw [hlk, h0, if_neg (by omega)] at g1
    exact ⟨congrArg Prod.fst g1, congrArg Prod.snd g1⟩
  · obtain ⟨g1, _, _⟩ := banner_after_timer_run is app v hp hall (by rw [hlen, h0]; omega)
    rw [hlen, h0, if_pos (by omega)] at g1
    exact congrArg Prod.fst g1
  · obtain ⟨g1, _, _⟩ := banner_after_timer_run is app v hp hall (by rw [hlen, h0]; omega)
    rw [hlen, h0, if_pos (by omega)] at g1
    exact congrArg Prod.snd g1
  · exact (banner_after_timer_run is app v hp hall (by rw [hlen, h0]; omega)).2.1
  · exact (banner_after_timer_run is app v hp hall (by rw [hlen, h0]; omega)).2.2
  · intro j hj
    have hl6 : (is ++ [j]).length = 6 := by rw [List.length_append, hlen]; rfl
    obtain ⟨g1, _, _⟩ := banner_after_timer_run (is ++ [j]) app v hp
      (by
        intro x hx
        rcases List.mem_append.mp hx with h | h
        · exact hall x h
        · rw [List.mem_singleton.mp h]; exact hj)
      (by rw [hl6, h0]; omega)
    rw [hl6, h0, if_pos (by omega)] at g1
    exact ⟨congrArg Prod.fst g1, congrArg Prod.snd g1⟩

/-- Five connection failures in a row from a session between two polls: the
banner appears at the fifth. -/
theorem network_warning_at_fifth_failure_witness :
    (runTimerCycles App.polling ⟨0, 0, 0, 2000⟩
        (List.replicate 5 (failedPollInput 1000 "서버 연결 실패: Failed to fetch" (.ok true)))
      ).1.dom.networkWarningHidden = false
      ∧ (runTimerCycles App.polling ⟨0, 0, 0, 2000⟩
        (List.replicate 4 (failedPollInput 1000 "서버 연결 실패: Failed to fetch" (.ok true)))
      ).1.dom.networkWarningHidden = true :=
  have h := network_warning_at_fifth_failure App.polling ⟨0, 0, 0, 2000⟩
    (List.replicate 5 (failedPollInput 1000 "서버 연결 실패: Failed to fetch" (.ok true)))
    (by decide) rfl (by decide)
    (by intro j hj; rw [List.eq_of_mem_replicate hj]; decide)
  ⟨h.2.1, (h.1 4 (by decide)).1⟩

/-! ### One poll in flight -/

theorem pollTimers_congr (a b : App) (hl : a.loop = b.loop) : pollTimers a = pollTimers b := by
  unfold pollTimers
  rw [hl]

theorem pollTimers_schedulePoll (a : App) (d : Nat) :
    pollTimers (schedulePoll a d) = pollTimers a + 1 := by
  simp [pollTimers, schedulePoll, EventLoop.add, List.countP_append]

theorem stopStatusPolling_quiet (a : App) (ho : ownsTimers a = true) :
    ownsTimers (stopStatusPolling a) = true ∧ pollTimers (stopStatusPolling a) = 0 := by
  have h := stopStatusPolling_timers_nil a ho
  constructor
  · unfold ownsTimers
    rw [h]
    rfl
  · unfold pollTimers
    rw [h]
    rfl

theorem ownsTimers_schedulePoll_quiet (a : App) (d : Nat) (ho : ownsTimers a = true)
    (hq : pollTimers a = 0) : ownsTimers (schedulePoll a d) = true := by
  unfold pollTimers at hq
  rw [List.countP_eq_zero] at hq
  unfold ownsTimers at ho ⊢
  simp only [schedulePoll, EventLoop.add, List.all_append, List.all_eq_true, Bool.and_eq_true,
    List.all_cons, List.all_nil, Bool.and_true, Bool.not_false, beq_self_eq_true, and_true] at ho ⊢
  intro t ht
  have h1 := ho t ht
  have h2 := hq t ht
  cases hc : t.callback <;> simp only [hc] at h1 h2 ⊢
  · simp at h2
  · exact h1
  · exact h1

theorem pollTimers_fired (app : App) (id : Nat) (ho : ownsTimers app = true)
    (hp : app.loop.pending id .poll = true) :
    pollTimers { app with loop := app.loop.fired id } = 0 := by
  unfold pollTimers
  rw [List.countP_eq_zero]
  unfold ownsTimers at ho
  simp only [EventLoop.pending, List.any_eq_true, Bool.and_eq_true, beq_iff_eq] at hp
  obtain ⟨t0, ht0, hid0, hc0⟩ := hp
  have h0 := (List.all_eq_true.mp ho) t0 ht0
  simp only [hc0, Bool.and_eq_true, Bool.not_eq_true', beq_iff_eq] at h0
  simp only [EventLoop.fired, List.mem_filter, Bool.or_eq_true, bne_iff_ne, ne_eq, beq_iff_eq,
    and_imp]
  intro t ht hor hc
  have h1 := (List.all_eq_true.mp ho) t ht
  simp only [hc, Bool.and_eq_true, Bool.not_eq_true', beq_iff_eq] at h1
  rw [h0.2] at h1
  have : t.id = id := by
    have := h1.2
    simp only [Option.some.injEq] at this
    omega
  rcases hor with h | h
  · exact h this
  · rw [h1.1] at h; exact Bool.noConfusion h

theorem pollTimers_pos_of_pending (app : App) (id : Nat)
    (hp : app.loop.pending id .poll = true) : 0 < pollTimers app := by
  unfold pollTimers
  rw [List.countP_pos_iff]
  simp only [EventLoop.pending, List.any_eq_true, Bool.and_eq_true, beq_iff_eq] at hp
  obtain ⟨t0, ht0, _, hc0⟩ := hp
  exact ⟨t0, ht0, by simp [hc0]⟩


/-- A segment that ends in `setTimeout(poll, d)` on a page with no poll timer. -/
theorem segment_schedule (app a : App) (d : Nat) (ho : ownsTimers app = true)
    (hq : pollTimers app = 0) (hl : a.loop = app.loop)
    (hs : a.statusPollInterval = app.statusPollInterval)
    (hp : a.progressInterval = app.progressInterval)
    (hu : a.progressUpdateInterval = app.progressUpdateInterval)
    (hc : a.apiCalls = app.apiCalls) :
    ownsTimers (schedulePoll a d) = true ∧ pollTimers (schedulePoll a d) = 1
      ∧ callCount (schedulePoll a d) "getAnalysisStatus" = callCount app "getAnalysisStatus" := by
  have ho1 : ownsTimers a = true := by rw [ownsTimers_congr a app hl hs hp hu]; exact ho
  have hq1 : pollTimers a = 0 := by rw [pollTimers_congr a app hl]; exact hq
  refine ⟨ownsTimers_schedulePoll_quiet a d ho1 hq1, ?_, ?_⟩
  · rw [pollTimers_schedulePoll, hq1]
  · unfold callCount
    rw [← hc]
    rfl

/-- A segment that ends after `stopStatusPolling` and updates of the page. -/
theorem segment_stop (app b : App) (ho : ownsTimers app = true)
    (hl : b.loop = (stopStatusPolling app).loop)
    (hs : b.statusPollInterval = (stopStatusPolling app).statusPollInterval)
    (hp : b.progressInterval = (stopStatusPolling app).progressInterval)
    (hu : b.progressUpdateInterval = (stopStatusPolling app).progressUpdateInterval) :
    ownsTimers b = true ∧ pollTimers b = 0 := by
  obtain ⟨h1, h2⟩ := stopStatusPolling_quiet app ho
  exact ⟨by rw [ownsTimers_congr b _ hl hs hp hu]; exact h1,
    by rw [pollTimers_congr b _ hl]; exact h2⟩

theorem pollBegin_segment (app : App) (v : PollVars) (now : Int) (ho : ownsTimers app = true)
    (hq : pollTimers app = 0) :
    ownsTimers (pollBegin app v now).1 = true
      ∧ pollTimers (pollBegin app v now).1
          + (if (pollBegin app v now).2.2.suspended then 1 else 0) ≤ 1
      ∧ callCount (pollBegin app v now).1 "getAnalysisStatus"
          ≤ callCount app "getAnalysisStatus" + 1 := by
  by_cases h : now - v.pollStartTime > MAX_POLL_DURATION_MS
  · have heq : pollBegin app v now =
        (showError (updateButtonStates (hideNetworkWarning (stopStatusPolling app)))
          "분석 시간 초과"
          "서버 응답 대기 시간이 초과되었습니다. 페이지를 새로고침한 후 다시 시도해주세요.", v, .done) := by
      unfold pollBegin
      rw [if_pos h]
    rw [heq]
    obtain ⟨h1, h2⟩ := segment_stop app
      (showError (updateButtonStates (hideNetworkWarning (stopStatusPolling app)))
        "분석 시간 초과"
        "서버 응답 대기 시간이 초과되었습니다. 페이지를 새로고침한 후 다시 시도해주세요.")
      ho rfl rfl rfl rfl
    refine ⟨h1, ?_, ?_⟩
    · rw [h2]; simp [Step.suspended]
    · simp only [callCount, showError, updateButtonStates, hideNetworkWarning,
        (stopStatusPolling_frame app).1]
      omega
  · rw [pollBegin_within app v now (not_lt.mp h)]
    refine ⟨?_, ?_, ?_⟩
    · rw [ownsTimers_congr (recordCall app "getAnalysisStatus") app rfl rfl rfl rfl]; exact ho
    · rw [pollTimers_congr (recordCall app "getAnalysisStatus") app rfl, hq]; simp [Step.suspended]
    · simp [callCount, recordCall, List.count_append]

theorem pollAfterStatus_segment (app : App) (v : PollVars) (r : Except String StatusBody)
    (ho : ownsTimers app = true) (hq : pollTimers app = 0) :
    ownsTimers (pollAfterStatus app v r).1 = true
      ∧ pollTimers (pollAfterStatus app v r).1
          + (if (pollAfterStatus app v r).2.2.suspended then 1 else 0) ≤ 1
      ∧ callCount (pollAfterStatus app v r).1 "getAnalysisStatus"
          = callCount app "getAnalysisStatus" := by
  cases r with
  | ok status =>
    by_cases hc : status.status = "completed"
    · rw [pollAfterStatus_completed app v status hc]
      obtain ⟨h1, h2⟩ := segment_stop
        { hideNetworkWarning app with
          dom := updateProgressBar (hideNetworkWarning app).dom status.progress
            status.current_stage }
        (recordCall (stopStatusPolling { hideNetworkWarning app with
          dom := updateProgressBar (hideNetworkWarning app).dom status.progress
            status.current_stage }) "getAnalysisResult")
        ((ownsTimers_congr _ app rfl rfl rfl rfl).trans ho) rfl rfl rfl rfl
      refine ⟨h1, ?_, ?_⟩
      · rw [h2]; simp [Step.suspended]
      · simp [callCount, recordCall, (stopStatusPolling_frame _).1, List.count_append,
          hideNetworkWarning]
    · by_cases he : status.status = "error"
      · rw [pollAfterStatus_error app v status he]
        obtain ⟨h1, h2⟩ := segment_stop
          { hideNetworkWarning app with
            dom := updateProgressBar (hideNetworkWarning app).dom status.progress
              status.current_stage }
          (showError (updateButtonStates (stopStatusPolling { hideNetworkWarning app with
            dom := updateProgressBar (hideNetworkWarning app).dom status.progress
              status.current_stage })) "분석 오류"
            (if status.error ≠ "" then status.error else "알 수 없는 오류가 발생했습니다."))
          ((ownsTimers_congr _ app rfl rfl rfl rfl).trans ho) rfl rfl rfl rfl
        refine ⟨h1, ?_, ?_⟩
        · rw [h2]; simp [Step.suspended]
        · simp only [callCount, showError, updateButtonStates, (stopStatusPolling_frame _).1]
          rfl
      · rw [pollAfterStatus_ok_running app v status hc he]
        obtain ⟨h1, h2, h3⟩ := segment_schedule app
          { hideNetworkWarning app with
            dom := updateProgressBar (hideNetworkWarning app).dom status.progress
              status.current_stage } NORMAL_POLL_INTERVAL ho hq rfl rfl rfl rfl rfl
        refine ⟨h1, ?_, h3⟩
        rw [h2]; simp [Step.suspended]
  | error m =>
    by_cases hj : isJobNotFound m = true
    · rw [pollAfterStatus_jobNotFound app v m hj]
      obtain ⟨h1, h2⟩ := segment_stop app
        (showError (updateButtonStates (hideNetworkWarning (stopStatusPolling app)))
          "분석 데이터 유실"
          "서버가 재시작되어 분석 데이터가 유실되었습니다. 다시 분석을 시작해주세요.")
        ho rfl rfl rfl rfl
      refine ⟨h1, ?_, ?_⟩
      · rw [h2]; simp [Step.suspended]
      · simp only [callCount, showError, updateButtonStates, hideNetworkWarning,
          (stopStatusPolling_frame app).1]
    · have hn : isJobNotFound m = false := by simpa using hj
      by_cases hb : v.consecutiveErrors + 1 < effectiveMaxErrors m
      · rw [pollAfterStatus_failed_below app v m hn hb]
        obtain ⟨h1, h2, h3⟩ := segment_schedule app
          (if v.consecutiveErrors + 1 ≥ NETWORK_WARNING_THRESHOLD then
            showNetworkWarning app "네트워크 연결이 불안정합니다. 자동으로 재시도 중..."
          else app) v.currentPollInterval ho hq
          (by split_ifs <;> rfl) (by split_ifs <;> rfl) (by split_ifs <;> rfl)
          (by split_ifs <;> rfl) (by split_ifs <;> rfl)
        refine ⟨h1, ?_, h3⟩
        rw [h2]; simp [Step.suspended]
      · have heq : pollAfterStatus app v (.error m) =
            (recordCall
              (if v.consecutiveErrors + 1 ≥ NETWORK_WARNING_THRESHOLD then
                showNetworkWarning app "네트워크 연결이 불안정합니다. 자동으로 재시도 중..."
              else app) "checkHealth",
              { v with consecutiveErrors := v.consecutiveErrors + 1 }, .awaitHealth) := by
          unfold pollAfterStatus
          simp only [hn, Bool.false_eq_true, if_false, ge_iff_le, not_lt.mp hb, if_true]
        rw [heq]
        refine ⟨?_, ?_, ?_⟩
        · rw [ownsTimers_congr _ app (by split_ifs <;> rfl) (by split_ifs <;> rfl)
            (by split_ifs <;> rfl) (by split_ifs <;> rfl)]
          exact ho
        · rw [pollTimers_congr _ app (by split_ifs <;> rfl), hq]; simp [Step.suspended]
        · simp only [callCount, recordCall]
          split_ifs <;> simp [showNetworkWarning, List.count_append]

theorem pollAfterHealth_segment (app : App) (v : PollVars) (alive : Bool)
    (ho : ownsTimers app = true) (hq : pollTimers app = 0) :
    ownsTimers (pollAfterHealth app v alive).1 = true
      ∧ pollTimers (pollAfterHealth app v alive).1
          + (if (pollAfterHealth app v alive).2.2.suspended then 1 else 0) ≤ 1
      ∧ callCount (pollAfterHealth app v alive).1 "getAnalysisStatus"
          = callCount app "getAnalysisStatus" := by
  cases alive with
  | true =>
    obtain ⟨h1, h2, h3⟩ := segment_schedule app app SLOW_POLL_INTERVAL ho hq rfl rfl rfl rfl rfl
    have heq : pollAfterHealth app v true =
        (schedulePoll app SLOW_POLL_INTERVAL,
          { v with consecutiveErrors := 0, healthCheckFailCount := 0,
                   currentPollInterval := SLOW_POLL_INTERVAL }, .done) := by
      unfold pollAfterHealth
      simp only [if_true]
    rw [heq]
    refine ⟨h1, ?_, h3⟩
    rw [h2]; simp [Step.suspended]
  | false =>
    by_cases h3 : 3 ≤ v.healthCheckFailCount + 1
    · rw [pollAfterHealth_dead_final app v h3]
      obtain ⟨h1, h2⟩ := segment_stop app
        (showError (updateButtonStates (hideNetworkWarning (stopStatusPolling app)))
          "서버 연결 오류"
          "서버와의 연결이 끊어졌습니다. 페이지를 새로고침한 후 다시 시도해주세요.")
        ho rfl rfl rfl rfl
      refine ⟨h1, ?_, ?_⟩
      · rw [h2]; simp [Step.suspended]
      · simp only [callCount, showError, updateButtonStates, hideNetworkWarning,
          (stopStatusPolling_frame app).1]
    · rw [pollAfterHealth_dead_continue app v (by omega)]
      obtain ⟨h1, h2, h3⟩ := segment_schedule app app (3000 * (v.healthCheckFailCount + 1))
        ho hq rfl rfl rfl rfl rfl
      refine ⟨h1, ?_, h3⟩
      rw [h2]; simp [Step.suspended]

theorem pollAfterResult_segment (app : App) (v : PollVars) (r : Except String AnalysisResult)
    (ho : ownsTimers app = true) (hq : pollTimers app = 0) :
    ownsTimers (pollAfterResult app v r).1 = true
      ∧ pollTimers (pollAfterResult app v r).1
          + (if (pollAfterResult app v r).2.2.suspended then 1 else 0) ≤ 1
      ∧ callCount (pollAfterResult app v r).1 "getAnalysisStatus"
          = callCount app "getAnalysisStatus" := by
  obtain ⟨l1, l2, l3, l4, l5⟩ := loadAnalysisResultAfter_frame app r
  unfold pollAfterResult
  refine ⟨?_, ?_, ?_⟩
  · rw [ownsTimers_congr _ app l1 l2 l3 l4]; exact ho
  · rw [pollTimers_congr _ app l1, hq]; simp [Step.suspended]
  · simp only [callCount, l5]

theorem Session.resumed_single (s : Session) (k : Nat) (r : App × PollVars × Step)
    (hw : s.waiting.length = 1) (hk : k < s.waiting.length) (ho : ownsTimers r.1 = true)
    (hq : pollTimers r.1 + (if r.2.2.suspended then 1 else 0) ≤ 1) :
    ownsTimers (s.resumed k r).app = true
      ∧ (s.resumed k r).waiting.length + pollTimers (s.resumed k r).app ≤ 1
      ∧ (s.resumed k r).app = r.1 := by
  obtain ⟨a, w, st⟩ := r
  have hk0 : k = 0 := by omega
  subst hk0
  have he : (s.waiting.eraseIdx 0).length = 0 := by
    rw [List.length_eraseIdx, if_pos hk, hw]
  have hs : ∀ x, (s.waiting.set 0 x).length = 1 := fun x => by rw [List.length_set, hw]
  cases st <;> simp only [Step.suspended] at hq <;>
    refine ⟨ho, ?_, rfl⟩ <;> simp only [Session.resumed, he, hs] <;>
    simp at hq ⊢ <;> omega

theorem Session.called_single (s : Session) (r : App × PollVars × Step)
    (hw : s.waiting = []) (ho : ownsTimers r.1 = true)
    (hq : pollTimers r.1 + (if r.2.2.suspended then 1 else 0) ≤ 1) :
    ownsTimers (s.called r).app = true
      ∧ (s.called r).waiting.length + pollTimers (s.called r).app ≤ 1
      ∧ (s.called r).app = r.1 := by
  obtain ⟨a, w, st⟩ := r
  cases st <;> simp only [Step.suspended] at hq <;>
    refine ⟨ho, ?_, rfl⟩ <;>
    simp only [Session.called, hw, List.nil_append, List.length_nil, List.length_singleton] <;>
    simp at hq ⊢ <;> omega

theorem waiting_of_get (s : Session) (k : Nat) (st : Step)
    (h : s.waiting.get? k = some st)
    (hi : s.waiting.length + pollTimers s.app ≤ 1) :
    s.waiting.length = 1 ∧ k < s.waiting.length ∧ pollTimers s.app = 0 := by
  have hk : k < s.waiting.length := by
    by_contra hcon
    rw [List.get?_eq_none.mpr (by omega)] at h
    cases h
  omega

/-- One event keeps the single-poll condition and adds a status request only
when it is a poll timer firing. -/
theorem Session.step_single (s : Session) (e : SessionEvent)
    (ho : ownsTimers s.app = true) (hi : s.waiting.length + pollTimers s.app ≤ 1) :
    ownsTimers (s.step e).app = true
      ∧ (s.step e).waiting.length + pollTimers (s.step e).app ≤ 1
      ∧ callCount (s.step e).app "getAnalysisStatus"
          ≤ callCount s.app "getAnalysisStatus" + (if e.isPollTimer then 1 else 0) := by
  cases e with
  | pollTimerFires id now =>
    simp only [Session.step]
    by_cases hp : s.app.loop.pending id .poll = true
    · rw [if_pos hp]
      have hpos := pollTimers_pos_of_pending s.app id hp
      have hw : s.waiting = [] := List.length_eq_zero.mp (by omega)
      obtain ⟨b1, b2, b3⟩ := pollBegin_segment { s.app with loop := s.app.loop.fired id } s.vars now
        (ownsTimers_fired s.app id ho) (pollTimers_fired s.app id ho hp)
      obtain ⟨c1, c2, c3⟩ := Session.called_single s _ hw b1 b2
      refine ⟨c1, c2, ?_⟩
      rw [c3]
      simpa [SessionEvent.isPollTimer, callCount] using b3
    · rw [if_neg hp]
      exact ⟨ho, hi, by omega⟩
  | statusSettles k r =>
    simp only [Session.step]
    by_cases hg : s.waiting.get? k = some .awaitStatus
    · rw [if_pos hg]
      obtain ⟨w1, w2, w3⟩ := waiting_of_get s k _ hg hi
      obtain ⟨b1, b2, b3⟩ := pollAfterStatus_segment s.app s.vars r ho w3
      obtain ⟨c1, c2, c3⟩ := Session.resumed_single s k _ w1 w2 b1 b2
      refine ⟨c1, c2, ?_⟩
      rw [c3, b3]
      omega
    · rw [if_neg hg]
      exact ⟨ho, hi, by omega⟩
  | healthSettles k r =>
    simp only [Session.step]
    by_cases hg : s.waiting.get? k = some .awaitHealth
    · rw [if_pos hg]
      obtain ⟨w1, w2, w3⟩ := waiting_of_get s k _ hg hi
      cases r with
      | ok alive =>
        obtain ⟨b1, b2, b3⟩ := pollAfterHealth_segment s.app s.vars alive ho w3
        obtain ⟨c1, c2, c3⟩ := Session.resumed_single s k _ w1 w2 b1 b2
        refine ⟨c1, c2, ?_⟩
        simp only [c3, b3]
        omega
      | error m =>
        obtain ⟨c1, c2, c3⟩ := Session.resumed_single s k (s.app, s.vars, .raised m) w1 w2 ho
          (by simp [w3, Step.suspended])
        refine ⟨c1, c2, ?_⟩
        simp only [c3]
        omega
    · rw [if_neg hg]
      exact ⟨ho, hi, by omega⟩
  | resultSettles k r =>
    simp only [Session.step]
    by_cases hg : s.waiting.get? k = some .awaitResult
    · rw [if_pos hg]
      obtain ⟨w1, w2, w3⟩ := waiting_of_get s k _ hg hi
      obtain ⟨b1, b2, b3⟩ := pollAfterResult_segment s.app s.vars r ho w3
      obtain ⟨c1, c2, c3⟩ := Session.resumed_single s k _ w1 w2 b1 b2
      refine ⟨c1, c2, ?_⟩
      rw [c3, b3]
      omega
    · rw [if_neg hg]
      exact ⟨ho, hi, by omega⟩
  | progressTimerFires id =>
    simp only [Session.step]
    by_cases hp : s.app.loop.pending id .progressTick = true
    · rw [if_pos hp]
      refine ⟨(ownsTimers_congr _ s.app rfl rfl rfl rfl).trans ho, ?_, ?_⟩
      · exact hi
      · simp [callCount, progressTickApp]
    · rw [if_neg hp]
      exact ⟨ho, hi, by omega⟩
  | logTimerFires id now =>
    simp only [Session.step]
    have hl : (logTick s.app now).loop = s.app.loop
        ∧ (logTick s.app now).statusPollInterval = s.app.statusPollInterval
        ∧ (logTick s.app now).progressInterval = s.app.progressInterval
        ∧ (logTick s.app now).progressUpdateInterval = s.app.progressUpdateInterval
        ∧ (logTick s.app now).apiCalls = s.app.apiCalls := by
      unfold logTick
      cases s.app.analysisStartTime <;> exact ⟨rfl, rfl, rfl, rfl, rfl⟩
    by_cases hp : s.app.loop.pending id .logTick = true
    · rw [if_pos hp]
      refine ⟨(ownsTimers_congr _ s.app hl.1 hl.2.1 hl.2.2.1 hl.2.2.2.1).trans ho, ?_, ?_⟩
      · dsimp only
        rw [pollTimers_congr (logTick s.app now) s.app hl.1]; exact hi
      · simp [callCount, hl.2.2.2.2]
    · rw [if_neg hp]
      exact ⟨ho, hi, by omega⟩

theorem Session.run_single (es : List SessionEvent) :
    ∀ s : Session, ownsTimers s.app = true → s.waiting.length + pollTimers s.app ≤ 1 →
      ownsTimers (s.run es).app = true
        ∧ (s.run es).waiting.length + pollTimers (s.run es).app ≤ 1
        ∧ callCount (s.run es).app "getAnalysisStatus"
            ≤ callCount s.app "getAnalysisStatus" + es.countP SessionEvent.isPollTimer := by
  induction es with
  | nil => intro s ho hi; exact ⟨ho, hi, Nat.le_refl _⟩
  | cons e rest ih =>
    intro s ho hi
    obtain ⟨h1, h2, h3⟩ := Session.step_single s e ho hi
    obtain ⟨g1, g2, g3⟩ := ih (s.step e) h1 h2
    have hrun : s.run (e :: rest) = (s.step e).run rest := rfl
    rw [hrun]
    refine ⟨g1, g2, ?_⟩
    rw [List.countP_cons]
    omega

/-! ### The error budget by classification -/

theorem failedPoll_class_unique (start : Int) (i : CycleInput)
    (h1 : failedPoll start false i = true) (h2 : failedPoll start true i = true) : False := by
  obtain ⟨m, hs, _, ht, _⟩ := failedPoll_spec _ _ _ h1
  obtain ⟨m2, hs2, _, ht2, _⟩ := failedPoll_spec _ _ _ h2
  rw [hs] at hs2
  cases hs2
  rw [ht] at ht2
  exact Bool.noConfusion ht2

/-- A failed cycle at which the probe is not due schedules a retry and makes no
health call, whatever the classifications of the failures before it. -/
theorem pollTimerFires_failed_not_due (app : App) (v : PollVars) (i : CycleInput)
    (hp : pollPending app = true) (hf : failedPollAny v.pollStartTime i = true)
    (hd : ¬ ((30 ≤ v.consecutiveErrors + 1 ∧ failedPoll v.pollStartTime false i = true)
      ∨ 45 ≤ v.consecutiveErrors + 1)) :
    (pollTimerFires app v i).2.2 = .done
      ∧ (pollTimerFires app v i).2.1 = { v with consecutiveErrors := v.consecutiveErrors + 1 }
      ∧ pollPending (pollTimerFires app v i).1 = true
      ∧ callCount (pollTimerFires app v i).1 "checkHealth" = callCount app "checkHealth" := by
  obtain ⟨tc, hfc⟩ := failedPollAny_class _ _ hf
  refine pollTimerFires_failed_below app v tc i hp hfc ?_
  cases tc with
  | true => simp only [if_true]; omega
  | false =>
    simp only [Bool.false_eq_true, if_false]
    by_contra hge
    exact hd (Or.inl ⟨by omega, hfc⟩)

/-- A failed cycle at which the probe is due makes the health call once. -/
theorem pollTimerFires_failed_due (app : App) (v : PollVars) (i : CycleInput)
    (hp : pollPending app = true) (hf : failedPollAny v.pollStartTime i = true)
    (hd : (30 ≤ v.consecutiveErrors + 1 ∧ failedPoll v.pollStartTime false i = true)
      ∨ 45 ≤ v.consecutiveErrors + 1) :
    callCount (pollTimerFires app v i).1 "checkHealth" = callCount app "checkHealth" + 1 := by
  obtain ⟨tc, hfc⟩ := failedPollAny_class _ _ hf
  refine pollTimerFires_failed_at_budget app v tc i hp hfc ?_
  cases tc with
  | true =>
    simp only [if_true]
    rcases hd with ⟨_, hpl⟩ | h45
    · exact absurd hfc (fun h => failedPoll_class_unique _ _ hpl h)
    · exact h45
  | false =>
    simp only [Bool.false_eq_true, if_false]
    rcases hd with ⟨h30, _⟩ | h45
    · exact h30
    · omega

theorem runTimerCycles_failed_not_due (js : List CycleInput) :
    ∀ (app : App) (v : PollVars), pollPending app = true →
      (∀ j ∈ js, failedPollAny v.pollStartTime j = true) →
      (∀ k i, js.get? k = some i →
        ¬ ((30 ≤ v.consecutiveErrors + k + 1 ∧ failedPoll v.pollStartTime false i = true)
          ∨ 45 ≤ v.consecutiveErrors + k + 1)) →
      (runTimerCycles app v js).2.2 = .done
        ∧ (runTimerCycles app v js).2.1
            = { v with consecutiveErrors := v.consecutiveErrors + js.length }
        ∧ pollPending (runTimerCycles app v js).1 = true
        ∧ callCount (runTimerCycles app v js).1 "checkHealth" = callCount app "checkHealth" := by
  induction js with
  | nil => intro app v hp _ _; exact ⟨rfl, rfl, hp, rfl⟩
  | cons i rest ih =>
    intro app v hp hall hnd
    obtain ⟨h1, h2, h3, h5⟩ := pollTimerFires_failed_not_due app v i hp
      (hall i (List.mem_cons_self _ _)) (by simpa using hnd 0 i rfl)
    rw [runTimerCycles_cons_done app v i rest h1]
    have hstart : (pollTimerFires app v i).2.1.pollStartTime = v.pollStartTime := by rw [h2]
    have hce : (pollTimerFires app v i).2.1.consecutiveErrors = v.consecutiveErrors + 1 := by
      rw [h2]
    obtain ⟨g1, g2, g3, g5⟩ := ih (pollTimerFires app v i).1 (pollTimerFires app v i).2.1 h3
      (by intro j hj; rw [hstart]; exact hall j (List.mem_cons_of_mem _ hj))
      (by
        intro k j hk
        rw [hstart, hce]
        have := hnd (k + 1) j (by simpa using hk)
        have e : v.consecutiveErrors + 1 + k + 1 = v.consecutiveErrors + (k + 1) + 1 := by omega
        rw [e]
        exact this)
    refine ⟨g1, ?_, g3, by rw [g5, h5]⟩
    rw [g2, h2]
    simp only [List.length_cons, PollVars.mk.injEq, true_and, and_true]
    omega

/-- C22: in a run of consecutive failed polls (none job-not-found) counted from
`consecutiveErrors = 0`, let the failure number `js.length + 1` be the first at
which either the count is at least 30 and the failure is plain, or the count is
at least 45. Then no health call is made during the failures before it, each of
which ends with a retry pending, and the health call is made once in that
failure; its number is between 30 and 45. Only the classification of the
failure at hand enters the condition, so a plain failure after 30 or more
timeout-classified ones makes the call at once. -/
theorem health_check_at_first_due (app : App) (v : PollVars) (js : List CycleInput)
    (p : CycleInput) (hp : pollPending app = true) (h0 : v.consecutiveErrors = 0)
    (hall : ∀ j ∈ js, failedPollAny v.pollStartTime j = true)
    (hlast : failedPollAny v.pollStartTime p = true)
    (hbefore : ∀ k i, js.get? k = some i →
      ¬ ((30 ≤ k + 1 ∧ failedPoll v.pollStartTime false i = true) ∨ 45 ≤ k + 1))
    (hdue : (30 ≤ js.length + 1 ∧ failedPoll v.pollStartTime false p = true)
      ∨ 45 ≤ js.length + 1) :
    callCount (runTimerCycles app v js).1 "checkHealth" = callCount app "checkHealth"
      ∧ (runTimerCycles app v js).2.2 = .done
      ∧ pollPending (runTimerCycles app v js).1 = true
      ∧ callCount (runTimerCycles app v (js ++ [p])).1 "checkHealth"
          = callCount app "checkHealth" + 1
      ∧ 30 ≤ js.length + 1 ∧ js.length + 1 ≤ 45 := by
  obtain ⟨g1, g2, g3, g5⟩ := runTimerCycles_failed_not_due js app v hp hall
    (by intro k i hk; rw [h0, Nat.zero_add]; exact hbefore k i hk)
  refine ⟨g5, g1, g3, ?_, ?_, ?_⟩
  · rw [runTimerCycles_append js [p] app v g1, runTimerCycles_single]
    have hst : (runTimerCycles app v js).2.1.pollStartTime = v.pollStartTime := by rw [g2]
    have hce : (runTimerCycles app v js).2.1.consecutiveErrors = js.length := by
      rw [g2, h0]; simp
    rw [pollTimerFires_failed_due _ _ p g3 (by rw [hst]; exact hlast)
      (by rw [hst, hce]; exact hdue), g5]
  · rcases hdue with ⟨h, _⟩ | h <;> omega
  · by_contra hgt
    have hlt : 44 < js.length := by omega
    have := hbefore 44 (js.get ⟨44, hlt⟩) (List.get?_eq_get hlt)
    exact this (Or.inr (by omega))

/-- Thirty-five timeout-classified failures, then a plain one: the health call is
made in the 36th failure and in none before. -/
theorem health_check_at_first_due_witness :
    callCount (runTimerCycles App.polling ⟨0, 0, 0, 2000⟩
        (List.replicate 35 (failedPollInput 1000 "요청 시간이 초과되었습니다." (.ok true)))).1
        "checkHealth" = callCount App.polling "checkHealth"
      ∧ callCount (runTimerCycles App.polling ⟨0, 0, 0, 2000⟩
        (List.replicate 35 (failedPollInput 1000 "요청 시간이 초과되었습니다." (.ok true))
          ++ [failedPollInput 1000 "서버 연결 실패: Failed to fetch" (.ok true)])).1
        "checkHealth" = callCount App.polling "checkHealth" + 1 :=
  have h := health_check_at_first_due App.polling ⟨0, 0, 0, 2000⟩
    (List.replicate 35 (failedPollInput 1000 "요청 시간이 초과되었습니다." (.ok true)))
    (failedPollInput 1000 "서버 연결 실패: Failed to fetch" (.ok true))
    (by decide) rfl
    (by intro j hj; rw [List.eq_of_mem_replicate hj]; decide)
    (by decide)
    (by
      intro k i hk
      rw [List.get?_eq_getElem?, List.getElem?_replicate] at hk
      split at hk
      · cases hk
        rintro (⟨_, h⟩ | h)
        · exact absurd h (by decide)
        · omega
      · cases hk)
    (Or.inl ⟨by decide, by decide⟩)
  ⟨h.1, h.2.2.2.1⟩

/-! ### Quoting in the CSV exporter -/

theorem replaceQuotes_count (s : List Char) :
    (replaceQuotes s).count dquote = 2 * s.count dquote := by
  induction s with
  | nil => rfl
  | cons c cs ih =>
    unfold replaceQuotes
    by_cases h : c = dquote
    · rw [if_pos h, h, List.count_cons_self, List.count_cons_self, List.count_cons_self, ih]
      omega
    · rw [if_neg h, List.count_cons_of_ne (Ne.symm h), List.count_cons_of_ne (Ne.symm h), ih]

theorem undoubleQuotes_cons_of_ne (c : Char) (r : List Char) (h : c ≠ dquote) :
    undoubleQuotes (c :: r) = c :: undoubleQuotes r := by
  cases r with
  | nil => rfl
  | cons d cs =>
    rw [undoubleQuotes, if_neg (fun hh => h hh.1)]

theorem undoubleQuotes_replaceQuotes (s : List Char) :
    undoubleQuotes (replaceQuotes s) = s := by
  induction s with
  | nil => rfl
  | cons c cs ih =>
    unfold replaceQuotes
    by_cases h : c = dquote
    · rw [if_pos h, undoubleQuotes, if_pos ⟨rfl, rfl⟩, ih, h]
    · rw [if_neg h, undoubleQuotes_cons_of_ne c _ h, ih]

theorem unquoteField_quoted (x : List Char) : unquoteField (dquote :: x ++ [dquote]) = x := by
  unfold unquoteField
  rw [List.cons_append, List.tail_cons, List.dropLast_concat]

theorem intercalate_go_append (sep : String) (rest : List String) :
    ∀ x acc : String, String.intercalate.go (x ++ acc) sep rest
      = x ++ String.intercalate.go acc sep rest := by
  induction rest with
  | nil => intro x acc; rfl
  | cons a as ih =>
    intro x acc
    show String.intercalate.go (x ++ acc ++ sep ++ a) sep as
      = x ++ String.intercalate.go (acc ++ sep ++ a) sep as
    rw [show x ++ acc ++ sep ++ a = x ++ (acc ++ sep ++ a) by simp only [String.append_assoc]]
    exact ih _ _

theorem intercalate_cons_cons (sep a b : String) (rest : List String) :
    sep.intercalate (a :: b :: rest) = a ++ sep ++ sep.intercalate (b :: rest) := by
  simp only [String.intercalate, String.intercalate.go]
  rw [intercalate_go_append]

/-- C21: the field emitted for a cell is a double quote, the text of the cell
with every double quote replaced by two, and a double quote; a row is its fields
joined by commas and the content is the rows joined by newlines. For every text
`s`, dropping the first and the last character of the field and turning each
pair of double quotes into one gives `s` back, and the number of double quotes
in the field is even. -/
theorem csv_field_quoting (cell : Cell) (s : String) (c d : Cell) (row : List Cell)
    (r q : List Cell) (rows : List (List Cell)) :
    (emitCell cell).data = dquote :: replaceQuotes (cellStr cell).data ++ [dquote]
      ∧ replaceQuotes (cellStr cell).data
          = ((cellStr cell).data.map (fun x => if x = dquote then [dquote, dquote] else [x])).flatten
      ∧ undoubleQuotes (unquoteField (emitCell cell).data) = (cellStr cell).data
      ∧ (emitCell cell).data.count dquote % 2 = 0
      ∧ cellStr (.str s) = s
      ∧ undoubleQuotes (unquoteField (emitCell (.str s)).data) = s.data
      ∧ (emitCell (.str s)).data.count dquote = 2 + 2 * s.data.count dquote
      ∧ emitRow [] = ""
      ∧ emitRow [c] = emitCell c
      ∧ emitRow (c :: d :: row) = emitCell c ++ "," ++ emitRow (d :: row)
      ∧ csvContent [] = ""
      ∧ csvContent [r] = emitRow r
      ∧ csvContent (r :: q :: rows)
          = emitRow r ++ String.singleton (Char.ofNat 10) ++ csvContent (q :: rows) := by
  have hcount : ∀ t : Cell, (emitCell t).data.count dquote
      = 2 + 2 * (cellStr t).data.count dquote := by
    intro t
    show (dquote :: replaceQuotes (cellStr t).data ++ [dquote]).count dquote = _
    rw [List.cons_append, List.count_cons_self, List.count_append, replaceQuotes_count]
    simp only [List.count_cons_self, List.count_nil]
    omega
  have hback : ∀ t : Cell, undoubleQuotes (unquoteField (emitCell t).data)
      = (cellStr t).data := by
    intro t
    show undoubleQuotes (unquoteField (dquote :: replaceQuotes (cellStr t).data ++ [dquote])) = _
    rw [unquoteField_quoted, undoubleQuotes_replaceQuotes]
  refine ⟨rfl, ?_, hback cell, ?_, rfl, hback (.str s), hcount (.str s), rfl, rfl, ?_, rfl, rfl, ?_⟩
  · generalize (cellStr cell).data = l
    induction l with
    | nil => rfl
    | cons x xs ih =>
      rw [replaceQuotes, ih]
      split_ifs <;> simp [*]
  · rw [hcount]; omega
  · exact intercalate_cons_cons _ _ _ _
  · exact intercalate_cons_cons _ _ _ _

/-! ### Number cells in the CSV exporter -/

theorem replaceQuotes_of_not_mem (l : List Char) (h : dquote ∉ l) : replaceQuotes l = l := by
  induction l with
  | nil => rfl
  | cons c cs ih =>
    have hc : c ≠ dquote := fun e => h (e ▸ List.mem_cons_self _ _)
    rw [replaceQuotes, if_neg hc, ih (fun hm => h (List.mem_cons_of_mem _ hm))]

theorem digitChar_ne_dquote : ∀ k, k < 10 → Nat.digitChar k ≠ dquote := by
  decide

theorem toDigitsCore_not_mem (fuel : Nat) :
    ∀ (n : Nat) (acc : List Char), dquote ∉ acc → dquote ∉ Nat.toDigitsCore 10 fuel n acc := by
  induction fuel with
  | zero => intro n acc h; simpa [Nat.toDigitsCore] using h
  | succ f ih =>
    intro n acc h
    unfold Nat.toDigitsCore
    have hacc : dquote ∉ Nat.digitChar (n % 10) :: acc := by
      intro hm
      rcases List.mem_cons.mp hm with e | e
      · exact digitChar_ne_dquote _ (Nat.mod_lt _ (by decide)) e.symm
      · exact h e
    dsimp only
    split_ifs
    · exact hacc
    · exact ih _ _ hacc

theorem toString_not_mem (n : Nat) : dquote ∉ (toString n).data := by
  show dquote ∉ (Nat.repr n).data
  unfold Nat.repr Nat.toDigits
  simpa [List.asString] using toDigitsCore_not_mem (n + 1) n [] (by simp)

/-- The field of a number cell: the decimal text of a positive count in double
quotes, and two double quotes with nothing between them for the count zero. -/
theorem emitCell_num (n : Nat) :
    emitCell (.num (n + 1)) = quoted (toString (n + 1)) ∧ emitCell (.num 0) = quoted "" := by
  refine ⟨?_, rfl⟩
  have h : cellStr (.num (n + 1)) = toString (n + 1) := by
    simp [cellStr]
  unfold emitCell quoted
  rw [h, replaceQuotes_of_not_mem _ (toString_not_mem (n + 1))]

/-- C23 fails for the count zero: the rows of the summary block are among the
exported rows and a positive count is emitted as its decimal text, but a count
that is zero or missing is emitted as the empty field, not as the field `0`.
For a result with 3 steps, 3 passed and 0 failed, the line of the failed steps
ends in an empty field. -/
theorem export_zero_count_emitted_empty (r : AnalysisResult) (s : Summary)
    (d : Option String) (f : Option FileInfo) (n : Nat) :
    [.str "총 단계", numOrZero s.totalSteps] ∈ exportRows { r with summary := some s } d f
      ∧ [.str "통과 단계", numOrZero s.passedSteps] ∈ exportRows { r with summary := some s } d f
      ∧ [.str "실패 단계", numOrZero s.failedSteps] ∈ exportRows { r with summary := some s } d f
      ∧ emitRow [.str "실패 단계", numOrZero (some (n + 1))]
          = quoted "실패 단계" ++ "," ++ quoted (toString (n + 1))
      ∧ emitRow [.str "실패 단계", numOrZero (some 0)] = quoted "실패 단계" ++ "," ++ quoted ""
      ∧ emitRow [.str "실패 단계", numOrZero none] = quoted "실패 단계" ++ "," ++ quoted ""
      ∧ quoted "" ≠ quoted "0"
      ∧ (exportRows { finalSummary := "", summary := some ⟨some 3, some 3, some 0, "100.0"⟩ }
            (some "pMDI") none).map emitRow
          = [quoted "항목" ++ "," ++ quoted "값", "",
             quoted "기기 선택" ++ "," ++ quoted "pMDI",
             quoted "분석한 파일" ++ "," ++ quoted "", "",
             quoted "요약 정보",
             quoted "총 단계" ++ "," ++ quoted "3",
             quoted "통과 단계" ++ "," ++ quoted "3",
             quoted "실패 단계" ++ "," ++ quoted "",
             quoted "점수" ++ "," ++ quoted "100.0%", "",
             quoted "최종 종합 기술", quoted "종합 기술 정보가 없습니다.", "",
             quoted "행동 단계 상세",
             quoted "순서" ++ "," ++ quoted "ID" ++ "," ++ quoted "이름" ++ "," ++ quoted "설명"
               ++ "," ++ quoted "시간" ++ "," ++ quoted "점수" ++ "," ++ quoted "결과"
               ++ "," ++ quoted "신뢰도"] := by
  refine ⟨?_, ?_, ?_, ?_, rfl, rfl, by decide, by decide⟩
  · simp [exportRows, summaryRows]
  · simp [exportRows, summaryRows]
  · simp [exportRows, summaryRows]
  · have h1 : emitCell (.str "실패 단계") = quoted "실패 단계" := rfl
    have h2 := (emitCell_num n).1
    show ",".intercalate [emitCell (.str "실패 단계"), emitCell (.num (n + 1))] = _
    rw [h1, h2]
    rfl

/-! ### The health call on the application as built -/

/-- On the application as built, a failed status request (not job-not-found) that
reaches the error budget ends the call of `poll` in the `TypeError` of
`this.api.checkHealth()`, whatever a health method would have answered: the
state is the one left by the two recorded calls and the banner. -/
theorem pollTimerFires_built_at_budget (app : App) (v : PollVars) (now : Int)
    (statusFetch : FetchOutcome StatusBody) (health : Except String Bool)
    (result : Except String AnalysisResult) (m : String)
    (hp : pollPending app = true)
    (hnow : now - v.pollStartTime ≤ MAX_POLL_DURATION_MS)
    (hs : APIClient.getAnalysisStatus statusFetch = .error m)
    (hn : isJobNotFound m = false)
    (hb : effectiveMaxErrors m ≤ v.consecutiveErrors + 1) :
    ∃ id, app.statusPollInterval = some id ∧ app.loop.pending id .poll = true
      ∧ pollTimerFires app v (builtCycleInput now statusFetch health result)
        = (recordCall (showNetworkWarning
              (recordCall { app with loop := app.loop.fired id } "getAnalysisStatus")
              "네트워크 연결이 불안정합니다. 자동으로 재시도 중...") "checkHealth",
            { v with consecutiveErrors := v.consecutiveErrors + 1 },
            .raised "this.api.checkHealth is not a function") := by
  have hd : APIClient.defines "checkHealth" = false := by decide
  have hg : APIClient.defines "getAnalysisStatus" = true := by decide
  have hh : (builtCycleInput now statusFetch health result).health
      = .error "this.api.checkHealth is not a function" := by
    simp only [builtCycleInput, awaitCall, hd, Bool.false_eq_true, if_false]
    rfl
  have hst : (builtCycleInput now statusFetch health result).status = .error m := by
    simp only [builtCycleInput, awaitCall, hg, if_true, hs]
  have hnw : (builtCycleInput now statusFetch health result).now = now := rfl
  have h30 : 30 ≤ effectiveMaxErrors m := by
    unfold effectiveMaxErrors MAX_CONSECUTIVE_ERRORS
    split_ifs <;> decide
  have h5 : v.consecutiveErrors + 1 ≥ NETWORK_WARNING_THRESHOLD := by
    unfold NETWORK_WARNING_THRESHOLD; omega
  obtain ⟨id, hid, hfire⟩ := pollTimerFires_pending app v
    (builtCycleInput now statusFetch health result) hp
  have hpend : app.loop.pending id .poll = true := by
    unfold pollPending at hp
    rw [hid] at hp
    exact hp
  refine ⟨id, hid, hpend, ?_⟩
  rw [hfire]
  unfold pollCycle
  rw [hnw, pollBegin_within _ _ _ hnow]
  simp only [hh, hst]
  unfold pollAfterStatus
  simp only [hn, Bool.false_eq_true, if_false, h5, ge_iff_le, hb, if_true]

theorem pollPending_of_pollTimers_zero (a : App) (h : pollTimers a = 0) :
    pollPending a = false := by
  unfold pollPending
  cases hs : a.statusPollInterval with
  | none => rfl
  | some id =>
    simp only
    by_contra hne
    have hp : a.loop.pending id .poll = true := by simpa using hne
    have := pollTimers_pos_of_pending a id hp
    omega

/-- The state the `TypeError` leaves: no poll timer, nothing registered, the two
intervals still running, the dialog as it was. -/
theorem built_at_budget_state (app : App) (id : Nat) (ho : ownsTimers app = true)
    (hid : app.statusPollInterval = some id) (hpend : app.loop.pending id .poll = true) :
    pollTimers (recordCall (showNetworkWarning
        (recordCall { app with loop := app.loop.fired id } "getAnalysisStatus")
        "네트워크 연결이 불안정합니다. 자동으로 재시도 중...") "checkHealth") = 0
      ∧ pollPending (recordCall (showNetworkWarning
        (recordCall { app with loop := app.loop.fired id } "getAnalysisStatus")
        "네트워크 연결이 불안정합니다. 자동으로 재시도 중...") "checkHealth") = false
      ∧ timersStopped (recordCall (showNetworkWarning
        (recordCall { app with loop := app.loop.fired id } "getAnalysisStatus")
        "네트워크 연결이 불안정합니다. 자동으로 재시도 중...") "checkHealth") = false := by
  have h0 : pollTimers (recordCall (showNetworkWarning
        (recordCall { app with loop := app.loop.fired id } "getAnalysisStatus")
        "네트워크 연결이 불안정합니다. 자동으로 재시도 중...") "checkHealth") = 0 :=
    pollTimers_fired app id ho hpend
  refine ⟨h0, pollPending_of_pollTimers_zero _ h0, ?_⟩
  simp [timersStopped, recordCall, showNetworkWarning, hid]

/-- C5: on the application as built no poll state at an exhausted budget is
followed by the health recovery. When the status request fails (not
job-not-found) with the budget reached, the call `this.api.checkHealth()` raises
although the server is alive: `consecutiveErrors` is not 0 but one more than
before, `healthCheckFailCount` and `currentPollInterval` are as they were (not
5000), no timer is registered and no poll timer is active, so no next poll is
scheduled, after 5000 ms or at all. -/
theorem alive_server_recovery_not_reached (app : App) (v : PollVars) (now : Int)
    (statusFetch : FetchOutcome StatusBody) (result : Except String AnalysisResult)
    (m : String) (hp : pollPending app = true) (ho : ownsTimers app = true)
    (hnow : now - v.pollStartTime ≤ MAX_POLL_DURATION_MS)
    (hs : APIClient.getAnalysisStatus statusFetch = .error m)
    (hn : isJobNotFound m = false)
    (hb : effectiveMaxErrors m ≤ v.consecutiveErrors + 1) :
    (pollTimerFires app v (builtCycleInput now statusFetch (.ok true) result)).2.2
        = .raised "this.api.checkHealth is not a function"
      ∧ (pollTimerFires app v
          (builtCycleInput now statusFetch (.ok true) result)).2.1.consecutiveErrors
          = v.consecutiveErrors + 1
      ∧ (pollTimerFires app v
          (builtCycleInput now statusFetch (.ok true) result)).2.1.healthCheckFailCount
          = v.healthCheckFailCount
      ∧ (pollTimerFires app v
          (builtCycleInput now statusFetch (.ok true) result)).2.1.currentPollInterval
          = v.currentPollInterval
      ∧ (pollTimerFires app v
          (builtCycleInput now statusFetch (.ok true) result)).1.loop.lastId = app.loop.lastId
      ∧ pollTimers (pollTimerFires app v
          (builtCycleInput now statusFetch (.ok true) result)).1 = 0
      ∧ pollPending (pollTimerFires app v
          (builtCycleInput now statusFetch (.ok true) result)).1 = false := by
  obtain ⟨id, hid, hpend, heq⟩ := pollTimerFires_built_at_budget app v now statusFetch
    (.ok true) result m hp hnow hs hn hb
  obtain ⟨s1, s2, _⟩ := built_at_budget_state app id ho hid hpend
  rw [heq]
  exact ⟨rfl, rfl, rfl, rfl, rfl, s1, s2⟩

/-- The thirtieth plain failure (HTTP 500) of a session polling every 2000 ms,
the server being alive. -/
theorem alive_server_recovery_not_reached_witness :
    (pollTimerFires App.polling ⟨0, 29, 0, 2000⟩
        (builtCycleInput 1000 (.response 500 (.error "")) (.ok true) (.error ""))).2.2
        = .raised "this.api.checkHealth is not a function"
      ∧ (pollTimerFires App.polling ⟨0, 29, 0, 2000⟩
        (builtCycleInput 1000 (.response 500 (.error "")) (.ok true)
          (.error ""))).2.1.consecutiveErrors = 29 + 1
      ∧ (pollTimerFires App.polling ⟨0, 29, 0, 2000⟩
        (builtCycleInput 1000 (.response 500 (.error "")) (.ok true)
          (.error ""))).2.1.currentPollInterval = 2000
      ∧ pollTimers (pollTimerFires App.polling ⟨0, 29, 0, 2000⟩
        (builtCycleInput 1000 (.response 500 (.error "")) (.ok true) (.error ""))).1 = 0 :=
  have h := alive_server_recovery_not_reached App.polling ⟨0, 29, 0, 2000⟩ 1000
    (.response 500 (.error "")) (.error "") "상태 조회 실패: 500"
    (by decide) (by decide) (by decide) (by rfl) (by decide) (by decide)
  ⟨h.1, h.2.1, h.2.2.2.1, h.2.2.2.2.2.1⟩

/-- C7: on the application as built a dead server is never met by the back-off.
When the status request fails (not job-not-found) with the budget reached,
whatever `healthCheckFailCount` is, the call `this.api.checkHealth()` raises
before any answer: `healthCheckFailCount` is not incremented, `consecutiveErrors`
is not reset but one more than before, `currentPollInterval` is as it was (not
5000), no timer is registered and no poll timer is active, so no poll is
scheduled after 3000 or 6000 ms. -/
theorem dead_server_backoff_not_reached (app : App) (v : PollVars) (now : Int)
    (statusFetch : FetchOutcome StatusBody) (result : Except String AnalysisResult)
    (m : String) (hp : pollPending app = true) (ho : ownsTimers app = true)
    (hnow : now - v.pollStartTime ≤ MAX_POLL_DURATION_MS)
    (hs : APIClient.getAnalysisStatus statusFetch = .error m)
    (hn : isJobNotFound m = false)
    (hb : effectiveMaxErrors m ≤ v.consecutiveErrors + 1) :
    (pollTimerFires app v (builtCycleInput now statusFetch (.ok false) result)).2.2
        = .raised "this.api.checkHealth is not a function"
      ∧ (pollTimerFires app v
          (builtCycleInput now statusFetch (.ok false) result)).2.1.healthCheckFailCount
          = v.healthCheckFailCount
      ∧ (pollTimerFires app v
          (builtCycleInput now statusFetch (.ok false) result)).2.1.consecutiveErrors
          = v.consecutiveErrors + 1
      ∧ (pollTimerFires app v
          (builtCycleInput now statusFetch (.ok false) result)).2.1.currentPollInterval
          = v.currentPollInterval
      ∧ (pollTimerFires app v
          (builtCycleInput now statusFetch (.ok false) result)).1.loop.lastId = app.loop.lastId
      ∧ (∀ t ∈ (pollTimerFires app v
          (builtCycleInput now statusFetch (.ok false) result)).1.loop.timers,
            t.callback ≠ .poll)
      ∧ pollPending (pollTimerFires app v
          (builtCycleInput now statusFetch (.ok false) result)).1 = false := by
  obtain ⟨id, hid, hpend, heq⟩ := pollTimerFires_built_at_budget app v now statusFetch
    (.ok false) result m hp hnow hs hn hb
  obtain ⟨s1, s2, _⟩ := built_at_budget_state app id ho hid hpend
  rw [heq]
  refine ⟨rfl, rfl, rfl, rfl, rfl, ?_, s2⟩
  intro t ht hcb
  unfold pollTimers at s1
  rw [List.countP_eq_zero] at s1
  exact absurd (by simp [hcb]) (s1 t ht)

/-- The thirtieth plain failure (HTTP 500) of a session, the server being dead
for the health route, with no dead answer counted yet. -/
theorem dead_server_backoff_not_reached_witness :
    (pollTimerFires App.polling ⟨0, 29, 0, 2000⟩
        (builtCycleInput 1000 (.response 500 (.error "")) (.ok false) (.error ""))).2.2
        = .raised "this.api.checkHealth is not a function"
      ∧ (pollTimerFires App.polling ⟨0, 29, 0, 2000⟩
        (builtCycleInput 1000 (.response 500 (.error "")) (.ok false)
          (.error ""))).2.1.healthCheckFailCount = 0
      ∧ pollPending (pollTimerFires App.polling ⟨0, 29, 0, 2000⟩
        (builtCycleInput 1000 (.response 500 (.error "")) (.ok false) (.error ""))).1 = false :=
  have h := dead_server_backoff_not_reached App.polling ⟨0, 29, 0, 2000⟩ 1000
    (.response 500 (.error "")) (.error "") "상태 조회 실패: 500"
    (by decide) (by decide) (by decide) (by rfl) (by decide) (by decide)
  ⟨h.1, h.2.1, h.2.2.2.2.2.2⟩

theorem runTimerCycles_cons_raised (app : App) (v : PollVars) (i : CycleInput)
    (rest : List CycleInput) (msg : String) (h : (pollTimerFires app v i).2.2 = .raised msg) :
    runTimerCycles app v (i :: rest) = pollTimerFires app v i := by
  rcases hr : pollTimerFires app v i with ⟨a, w, st⟩
  rw [hr] at h
  simp only at h
  subst h
  simp [runTimerCycles, hr]

/-- A plain failed cycle below 30 leaves the dialog and the two interval handles
as they were and keeps every timer owned. -/
theorem pollTimerFires_failed_plain_frame (app : App) (v : PollVars) (i : CycleInput)
    (hp : pollPending app = true) (ho : ownsTimers app = true)
    (hf : failedPoll v.pollStartTime false i = true) (hb : v.consecutiveErrors + 1 < 30) :
    ownsTimers (pollTimerFires app v i).1 = true
      ∧ (pollTimerFires app v i).1.dom.errorTitle = app.dom.errorTitle
      ∧ (pollTimerFires app v i).1.dom.errorModalHidden = app.dom.errorModalHidden
      ∧ (pollTimerFires app v i).1.progressInterval = app.progressInterval
      ∧ (pollTimerFires app v i).1.progressUpdateInterval = app.progressUpdateInterval := by
  refine ⟨pollTimerFires_failed_below_owns app v false i hp ho hf (by simpa using hb), ?_⟩
  obtain ⟨id, _, hfire⟩ := pollTimerFires_pending app v i hp
  have hany : failedPollAny v.pollStartTime i = true := by simp [failedPollAny, hf]
  rw [hfire, pollCycle_failed_short _ v i hany hb]
  split_ifs <;> exact ⟨rfl, rfl, rfl, rfl⟩

theorem runTimerCycles_failed_plain_frame (is : List CycleInput) :
    ∀ (app : App) (v : PollVars), pollPending app = true → ownsTimers app = true →
      (∀ j ∈ is, failedPoll v.pollStartTime false j = true) →
      v.consecutiveErrors + is.length < 30 →
      (runTimerCycles app v is).2.2 = .done
        ∧ (runTimerCycles app v is).2.1
            = { v with consecutiveErrors := v.consecutiveErrors + is.length }
        ∧ pollPending (runTimerCycles app v is).1 = true
        ∧ callCount (runTimerCycles app v is).1 "checkHealth" = callCount app "checkHealth"
        ∧ ownsTimers (runTimerCycles app v is).1 = true
        ∧ (runTimerCycles app v is).1.dom.errorTitle = app.dom.errorTitle
        ∧ (runTimerCycles app v is).1.dom.errorModalHidden = app.dom.errorModalHidden
        ∧ (runTimerCycles app v is).1.progressInterval = app.progressInterval
        ∧ (runTimerCycles app v is).1.progressUpdateInterval = app.progressUpdateInterval := by
  induction is with
  | nil => intro app v hp ho _ _; exact ⟨rfl, rfl, hp, rfl, ho, rfl, rfl, rfl, rfl⟩
  | cons i rest ih =>
    intro app v hp ho hall hb
    simp only [List.length_cons] at hb
    have hfi := hall i (List.mem_cons_self _ _)
    obtain ⟨h1, h2, h3, h5⟩ := pollTimerFires_failed_below app v false i hp hfi
      (by simp only [Bool.false_eq_true, if_false]; omega)
    obtain ⟨f1, f2, f3, f4, f5⟩ := pollTimerFires_failed_plain_frame app v i hp ho hfi
      (by omega)
    rw [runTimerCycles_cons_done app v i rest h1]
    have hstart : (pollTimerFires app v i).2.1.pollStartTime = v.pollStartTime := by rw [h2]
    have hce : (pollTimerFires app v i).2.1.consecutiveErrors = v.consecutiveErrors + 1 := by
      rw [h2]
    obtain ⟨g1, g2, g3, g5, g6, g7, g8, g9, g10⟩ :=
      ih (pollTimerFires app v i).1 (pollTimerFires app v i).2.1 h3 f1
        (by intro j hj; rw [hstart]; exact hall j (List.mem_cons_of_mem _ hj))
        (by rw [hce]; omega)
    refine ⟨g1, ?_, g3, by rw [g5, h5], g6, by rw [g7, f2], by rw [g8, f3], by rw [g9, f4],
      by rw [g10, f5]⟩
    rw [g2, h2]
    simp only [List.length_cons, PollVars.mk.injEq, true_and, and_true]
    omega

/-- C6: on the application as built a dead server never leads to the
server-unreachable error. In a run of plain failed polls from
`consecutiveErrors = 0` (HTTP errors, the health route dead as well), the 30th
failure makes the call `this.api.checkHealth()`, which raises before any answer:
the run ends there, at the first exhaustion of the budget and not at the third.
`healthCheckFailCount` is as it was, the dialog is as it was (the
server-unreachable text is not shown), the two interval handles and the poll
handle are still set, and no poll timer is left, so no later failure is seen. -/
theorem dead_server_never_reported (app : App) (v : PollVars)
    (js : List (Int × FetchOutcome StatusBody)) (p : Int × FetchOutcome StatusBody)
    (rest : List (Int × FetchOutcome StatusBody)) (result : Except String AnalysisResult)
    (hp : pollPending app = true) (ho : ownsTimers app = true)
    (h0 : v.consecutiveErrors = 0) (hlen : js.length = 29)
    (hall : ∀ q ∈ js ++ [p],
      failedPoll v.pollStartTime false (builtCycleInput q.1 q.2 (.ok false) result) = true) :
    (runTimerCycles app v ((js ++ p :: rest).map
        (fun q => builtCycleInput q.1 q.2 (.ok false) result))).2.2
        = .raised "this.api.checkHealth is not a function"
      ∧ (runTimerCycles app v ((js ++ p :: rest).map
          (fun q => builtCycleInput q.1 q.2 (.ok false) result))).2.1.consecutiveErrors = 30
      ∧ (runTimerCycles app v ((js ++ p :: rest).map
          (fun q => builtCycleInput q.1 q.2 (.ok false) result))).2.1.healthCheckFailCount
          = v.healthCheckFailCount
      ∧ callCount (runTimerCycles app v ((js ++ p :: rest).map
          (fun q => builtCycleInput q.1 q.2 (.ok false) result))).1 "checkHealth"
          = callCount app "checkHealth" + 1
      ∧ (runTimerCycles app v ((js ++ p :: rest).map
          (fun q => builtCycleInput q.1 q.2 (.ok false) result))).1.dom.errorTitle
          = app.dom.errorTitle
      ∧ (runTimerCycles app v ((js ++ p :: rest).map
          (fun q => builtCycleInput q.1 q.2 (.ok false) result))).1.dom.errorModalHidden
          = app.dom.errorModalHidden
      ∧ (runTimerCycles app v ((js ++ p :: rest).map
          (fun q => builtCycleInput q.1 q.2 (.ok false) result))).1.progressInterval
          = app.progressInterval
      ∧ (runTimerCycles app v ((js ++ p :: rest).map
          (fun q => builtCycleInput q.1 q.2 (.ok false) result))).1.progressUpdateInterval
          = app.progressUpdateInterval
      ∧ timersStopped (runTimerCycles app v ((js ++ p :: rest).map
          (fun q => builtCycleInput q.1 q.2 (.ok false) result))).1 = false
      ∧ pollPending (runTimerCycles app v ((js ++ p :: rest).map
          (fun q => builtCycleInput q.1 q.2 (.ok false) result))).1 = false := by
  have hjs : ∀ j ∈ js.map (fun q => builtCycleInput q.1 q.2 (.ok false) result),
      failedPoll v.pollStartTime false j = true := by
    intro j hj
    obtain ⟨q, hq, rfl⟩ := List.mem_map.mp hj
    exact hall q (List.mem_append_left _ hq)
  obtain ⟨g1, g2, g3, g5, g6, g7, g8, g9, g10⟩ := runTimerCycles_failed_plain_frame
    (js.map (fun q => builtCycleInput q.1 q.2 (.ok false) result)) app v hp ho hjs
    (by rw [List.length_map, hlen, h0]; decide)
  have hpf := hall p (List.mem_append_right _ (List.mem_singleton_self p))
  obtain ⟨m, hs, hn, ht, hnow⟩ := failedPoll_spec _ _ _ hpf
  have hs2 : APIClient.getAnalysisStatus p.2 = .error m := by
    have hg : APIClient.defines "getAnalysisStatus" = true := by decide
    simpa [builtCycleInput, awaitCall, hg] using hs
  have hnow2 : p.1 - v.pollStartTime ≤ MAX_POLL_DURATION_MS := hnow
  have hst : (runTimerCycles app v
      (js.map (fun q => builtCycleInput q.1 q.2 (.ok false) result))).2.1.pollStartTime
      = v.pollStartTime := by rw [g2]
  have hce : (runTimerCycles app v
      (js.map (fun q => builtCycleInput q.1 q.2 (.ok false) result))).2.1.consecutiveErrors
      = 29 := by rw [g2, h0]; simp [hlen]
  have hhc : (runTimerCycles app v
      (js.map (fun q => builtCycleInput q.1 q.2 (.ok false) result))).2.1.healthCheckFailCount
      = v.healthCheckFailCount := by rw [g2]
  obtain ⟨id, hid, hpend, heq⟩ := pollTimerFires_built_at_budget _ _ p.1 p.2 (.ok false) result m
    g3 (by rw [hst]; exact hnow2) hs2 hn
    (by rw [hce, effectiveMaxErrors_of_class m false ht]; decide)
  obtain ⟨_, s2, s3⟩ := built_at_budget_state _ id g6 hid hpend
  have hrun : runTimerCycles app v ((js ++ p :: rest).map
      (fun q => builtCycleInput q.1 q.2 (.ok false) result))
      = pollTimerFires (runTimerCycles app v
          (js.map (fun q => builtCycleInput q.1 q.2 (.ok false) result))).1
        (runTimerCycles app v
          (js.map (fun q => builtCycleInput q.1 q.2 (.ok false) result))).2.1
        (builtCycleInput p.1 p.2 (.ok false) result) := by
    rw [List.map_append, List.map_cons, runTimerCycles_append _ _ app v g1]
    exact runTimerCycles_cons_raised _ _ _ _ _ (by rw [heq])
  rw [hrun, heq]
  refine ⟨rfl, ?_, hhc, ?_, g7, g8, g9, g10, s3, s2⟩
  · show _ + 1 = 30
    rw [hce]
  · simp only [callCount, recordCall, showNetworkWarning] at g5 ⊢
    simp [List.count_append, g5]

/-- Ninety plain failures (HTTP 500) in a row on the application as built, the
health route being dead too: polling ends at the 30th with the `TypeError`, the
intervals still running and no dialog. -/
theorem dead_server_never_reported_witness :
    (runTimerCycles App.polling ⟨0, 0, 0, 2000⟩
        ((List.replicate 29 (statusHttp500 1000)
            ++ statusHttp500 1000 :: List.replicate 60 (statusHttp500 1000)).map
          (fun q => builtCycleInput q.1 q.2 (.ok false) (.error "")))).2.2
        = .raised "this.api.checkHealth is not a function"
      ∧ (runTimerCycles App.polling ⟨0, 0, 0, 2000⟩
        ((List.replicate 29 (statusHttp500 1000)
            ++ statusHttp500 1000 :: List.replicate 60 (statusHttp500 1000)).map
          (fun q => builtCycleInput q.1 q.2 (.ok false) (.error "")))).2.1.healthCheckFailCount
        = 0
      ∧ timersStopped (runTimerCycles App.polling ⟨0, 0, 0, 2000⟩
        ((List.replicate 29 (statusHttp500 1000)
            ++ statusHttp500 1000 :: List.replicate 60 (statusHttp500 1000)).map
          (fun q => builtCycleInput q.1 q.2 (.ok false) (.error "")))).1 = false
      ∧ (runTimerCycles App.polling ⟨0, 0, 0, 2000⟩
        ((List.replicate 29 (statusHttp500 1000)
            ++ statusHttp500 1000 :: List.replicate 60 (statusHttp500 1000)).map
          (fun q => builtCycleInput q.1 q.2 (.ok false) (.error "")))).1.dom.errorModalHidden
        = true :=
  have h := dead_server_never_reported App.polling ⟨0, 0, 0, 2000⟩
    (List.replicate 29 (statusHttp500 1000)) (statusHttp500 1000)
    (List.replicate 60 (statusHttp500 1000)) (.error "")
    (by decide) (by decide) rfl (by simp)
    (by
      intro q hq
      have hq2 : q = statusHttp500 1000 := by
        rcases List.mem_append.mp hq with h | h
        · exact List.eq_of_mem_replicate h
        · exact List.mem_singleton.mp h
      rw [hq2]
      decide)
  ⟨h.1, h.2.2.1, h.2.2.2.2.2.2.2.2.1, h.2.2.2.2.2.1⟩

/-! ### Starting again while a status request is unanswered -/

/-- C11 fails when the analysis is started again while a status request is
unanswered. Choosing a device enables the start button (also during an
analysis), and `startAnalysis` clears the timers but not a call of `poll`
suspended at its status request: after the second start two status requests
have been issued and none answered, both calls of `poll` stand at their
`await`, and once both are answered (status running) two poll timers are active
at once, of which `statusPollInterval` holds only the later. For every page on
which device and video are set, `startAnalysis` issues a status request
whatever is already outstanding. -/
theorem restart_issues_second_status_request (a : App) (now start : Int)
    (startTimeStr : String) (response : StartResponse) :
    (selectDevice App.uploaded "pMDI").dom.startBtnDisabled = false
      ∧ (startAnalysisBegin (selectDevice App.uploaded "pMDI") 0 "09:00:00").2 = true
      ∧ firstStart.2 = some (⟨10, 0, 0, 2000⟩, .awaitStatus)
      ∧ firstStart.1.dom.startBtnDisabled = true
      ∧ firstStart.1.apiCalls = ["startAnalysis", "getAnalysisStatus"]
      ∧ (selectDevice firstStart.1 "pMDI").dom.startBtnDisabled = false
      ∧ (startAnalysisBegin (selectDevice firstStart.1 "pMDI") 20 "09:00:20").2 = true
      ∧ secondStart.2 = some (⟨30, 0, 0, 2000⟩, .awaitStatus)
      ∧ secondStart.1.apiCalls
          = ["startAnalysis", "getAnalysisStatus", "startAnalysis", "getAnalysisStatus"]
      ∧ callCount secondStart.1 "getAnalysisStatus" = 2
      ∧ pollTimers (pollAfterStatus (pollAfterStatus secondStart.1 ⟨10, 0, 0, 2000⟩
            (.ok ⟨"running", JsNumber.ofNat 40, "분석 중", ""⟩)).1 ⟨30, 0, 0, 2000⟩
            (.ok ⟨"running", JsNumber.ofNat 40, "분석 중", ""⟩)).1 = 2
      ∧ (pollAfterStatus (pollAfterStatus secondStart.1 ⟨10, 0, 0, 2000⟩
            (.ok ⟨"running", JsNumber.ofNat 40, "분석 중", ""⟩)).1 ⟨30, 0, 0, 2000⟩
            (.ok ⟨"running", JsNumber.ofNat 40, "분석 중", ""⟩)).1.loop.timers
          = [⟨3, .progressTick, 7000, true⟩, ⟨4, .logTick, 10000, true⟩,
             ⟨5, .poll, 2000, false⟩, ⟨6, .poll, 2000, false⟩]
      ∧ (pollAfterStatus (pollAfterStatus secondStart.1 ⟨10, 0, 0, 2000⟩
            (.ok ⟨"running", JsNumber.ofNat 40, "분석 중", ""⟩)).1 ⟨30, 0, 0, 2000⟩
            (.ok ⟨"running", JsNumber.ofNat 40, "분석 중", ""⟩)).1.statusPollInterval = some 6
      ∧ (startAnalysisOk { a with selectedDevice := some "pMDI", videoId := some "v1" }
            now startTimeStr start start response).2
          = some (⟨start, 0, 0, 2000⟩, .awaitStatus)
      ∧ (startAnalysisOk { a with selectedDevice := some "pMDI", videoId := some "v1" }
            now startTimeStr start start response).1.apiCalls
          = a.apiCalls ++ ["startAnalysis", "getAnalysisStatus"] := by
  refine ⟨by decide, by decide, by decide, by decide, by decide, by decide, by decide,
    by decide, by decide, by decide, by decide, by decide, by decide, ?_, ?_⟩
  all_goals
    have hr : startAnalysisReady
        { a with selectedDevice := some "pMDI", videoId := some "v1" } = true := by
      simp [startAnalysisReady, truthy]
    have hw : start - (⟨start, 0, 0, NORMAL_POLL_INTERVAL⟩ : PollVars).pollStartTime
        ≤ MAX_POLL_DURATION_MS := by
      simp [MAX_POLL_DURATION_MS]
    unfold startAnalysisOk startAnalysisBegin
    simp only [hr, Bool.not_true, Bool.false_eq_true, if_false, startAnalysisAfter,
      startStatusPolling]
    rw [pollBegin_within _ _ _ hw]
  · rfl
  · simp [recordCall, startProgressLogUpdate, startProgressAutoUpdate, showAnalysisInfo, addLog,
      clearAnalysisLogs, (stopStatusPolling_frame _).1]

end InhalerApp
